import Mathlib

/-!
Verification of the mcp-joplin tool layer: a shallow embedding of the
tool classes (`src/lib/tools/*.js`) and validators (`src/lib/validators.js`)
over an oracle model of the Joplin REST backend.

Conventions of the embedding:
* JavaScript string-typed arguments that may be `undefined` or `null` are
  `JStr`; likewise `JBool` and `JNum` for boolean/number arguments.
* Every network request a tool issues is recorded, in order, in a trace
  (`List Req`); the backend (`Backend`) is an oracle mapping each request
  shape to a response or a thrown transport error (`JsError`).
* Tool bodies run in `JsM`, an exception-plus-trace monad; `jsTry` is the
  JavaScript `try`/`catch` (state is kept, not rolled back, on a throw).
* Unbounded iteration driven by backend answers (the `while` loop of
  `UpdateFolder.checkCircularReference`, the recursion of
  `ListNotebooks.notebooksLines`, the paging loop of `getAllItems`) takes
  a fuel argument. For the recursion, fuel exhaustion is the (catchable)
  V8 stack-overflow `RangeError`; for the `while`/paging loops, which
  consume no stack, fuel exhaustion is a distinguished `diverged` error
  that is re-raised past `catch`, so it can never be mistaken for a
  result the JavaScript program would produce.
-/

/-- A JavaScript string-typed argument: `undefined`, `null`, or a string. -/
inductive JStr where
  | undef
  | null
  | str (s : String)
deriving DecidableEq, Repr

/-- JavaScript truthiness of a string-typed value. -/
def JStr.truthy : JStr → Bool
  | .str s => s != ""
  | _ => false

/-- JavaScript template-literal interpolation of a possibly absent string. -/
def JStr.interp : JStr → String
  | .undef => "undefined"
  | .null => "null"
  | .str s => s

/-- A value counts as supplied for `validateAtLeastOneUpdateField`:
not `undefined`, not `null`, not the empty string. -/
def JStr.defined : JStr → Bool
  | .str s => s != ""
  | _ => false

/-- A JavaScript boolean-typed argument. -/
inductive JBool where
  | undef
  | null
  | bool (b : Bool)
deriving DecidableEq, Repr

/-- A supplied boolean (`false` is supplied: it is neither undefined, null
nor the empty string). -/
def JBool.defined : JBool → Bool
  | .bool _ => true
  | _ => false

/-- A JavaScript number-typed argument. -/
inductive JNum where
  | undef
  | null
  | num (n : Int)
deriving DecidableEq, Repr

/-- A supplied number (`0` is supplied: it is not the empty string). -/
def JNum.defined : JNum → Bool
  | .num _ => true
  | _ => false

/-- A thrown JavaScript error as the tool code observes it: `message`,
the optional HTTP status of `error.response`, the optional
`error.response.data.error` payload. -/
structure JsError where
  message : String
  status : Option Nat := none
  dataError : Option String := none
deriving DecidableEq, Repr

/-- What a tool body can raise: a JavaScript error (catchable), or the
model's marker for a loop that never terminates (`while` loops and paging
loops consume no stack, so no JavaScript exception ever arises from them;
the marker passes through every `catch`). -/
inductive Thrown where
  | js (e : JsError)
  | modelDiverged
deriving DecidableEq, Repr

/-- A folder record as the Joplin API returns it; an absent string field is
the empty string (both are falsy where the tools test them). -/
structure Folder where
  id : String := ""
  title : String := ""
  parent_id : String := ""
  created_time : Int := 0
  updated_time : Int := 0
deriving DecidableEq, Repr

/-- A note record as the Joplin API returns it. -/
structure Note where
  id : String := ""
  title : String := ""
  body : String := ""
  parent_id : String := ""
  is_todo : Bool := false
  todo_completed : Int := 0
  todo_due : Int := 0
  created_time : Int := 0
  updated_time : Int := 0
deriving DecidableEq, Repr

/-- A paged notes response: `items` is `none` when the field is absent or
not an array, `total` is `0` when absent (both falsy in the source). -/
structure NotesResp where
  items : Option (List Note) := none
  has_more : Bool := false
  total : Nat := 0
deriving DecidableEq, Repr

/-- The query parameters GetAllNotes sends to `GET /notes`. -/
structure NotesQuery where
  page : Int
  limit : Int
  order_by : String
  order_dir : String
  parent_id : Option String := none
deriving DecidableEq, Repr

/-- The body of a folder write request: only supplied fields are present. -/
structure FolderBody where
  title : Option String := none
  parent_id : Option String := none
deriving DecidableEq, Repr

/-- The body of a note write request: only supplied fields are present. -/
structure NoteBody where
  title : Option String := none
  body : Option String := none
  parent_id : Option String := none
  is_todo : Option Nat := none
  todo_completed : Option Int := none
  todo_due : Option Int := none
deriving DecidableEq, Repr

/-- One network request issued by a tool, as recorded in the trace. -/
inductive Req where
  | getFolder (id : String)
  | getFolderNotes (id : String)
  | getNote (id : String)
  | getNotes (q : NotesQuery)
  | getAllFolders
  | putFolder (id : String) (body : FolderBody)
  | putNote (id : String) (body : NoteBody)
  | postFolder (body : FolderBody)
  | postNote (body : NoteBody)
  | deleteFolder (id : String)
  | deleteNote (id : String)
deriving DecidableEq, Repr

/-- Whether a request mutates backend state (PUT, POST or DELETE). -/
def Req.isWrite : Req → Bool
  | .putFolder _ _ => true
  | .putNote _ _ => true
  | .postFolder _ => true
  | .postNote _ => true
  | .deleteFolder _ => true
  | .deleteNote _ => true
  | _ => false

/-- The backend oracle: one response function per endpoint shape. A `none`
inside a successful response models a null/non-object payload. -/
structure Backend where
  getFolder : String → Except JsError (Option Folder)
  getFolderNotes : String → Except JsError (Option NotesResp)
  getNote : String → Except JsError (Option Note)
  getNotes : NotesQuery → Except JsError (Option NotesResp)
  getAllFolders : Except JsError (List Folder)
  putFolder : String → FolderBody → Except JsError (Option Folder)
  putNote : String → NoteBody → Except JsError (Option Note)
  postFolder : FolderBody → Except JsError (Option Folder)
  postNote : NoteBody → Except JsError (Option Note)
  deleteFolder : String → Except JsError Unit
  deleteNote : String → Except JsError Unit

/-- The trace of requests a tool invocation has issued so far. -/
abbrev Trace := List Req

/-- The effect monad of the tool bodies: JavaScript exceptions plus the
request trace. The trace survives a throw (a request already issued stays
issued). -/
abbrev JsM (α : Type) := EStateM Thrown Trace α

/-- Throw a structured JavaScript error. -/
def jsThrowErr {α : Type} (e : JsError) : JsM α := fun s => .error (.js e) s

/-- `throw new Error(msg)`. -/
def jsThrow {α : Type} (msg : String) : JsM α := jsThrowErr { message := msg }

/-- The model's non-termination marker (not a JavaScript exception; no
`catch` can observe it). -/
def jsDiverge {α : Type} : JsM α := fun s => .error .modelDiverged s

/-- JavaScript `try { body } catch (error) { handler }`: the trace is kept
across the throw; only JavaScript errors are caught. -/
def jsTry {α : Type} (body : JsM α) (handler : JsError → JsM α) : JsM α := fun s =>
  match body s with
  | .ok a s1 => .ok a s1
  | .error (.js e) s1 => handler e s1
  | .error .modelDiverged s1 => .error .modelDiverged s1

/-- Issue one request against the backend oracle: the request is recorded
in the trace, the oracle's answer is returned or thrown. -/
def api {α : Type} (r : Req) (resp : Except JsError α) : JsM α := fun s =>
  match resp with
  | .ok a => .ok a (s ++ [r])
  | .error e => .error (.js e) (s ++ [r])

/-- Reading `.parent_id` off a null/non-object response throws a TypeError,
as in `checkCircularReference`, which dereferences without a shape check. -/
def jsFolderParentId : Option Folder → JsM String
  | some f => pure f.parent_id
  | none => jsThrow "Cannot read properties of null (reading parent_id)"

/-- Modelled from the spec: `new Date(t).toLocaleString()` is an external,
locale-dependent JavaScript builtin; it is modelled as decimal rendering of
the timestamp (the tools only splice its result into display text). -/
def jsToLocaleString (t : Int) : String := toString t

/-- Modelled from the spec: JavaScript `String.prototype.trim`, modelled as
Lean whitespace trimming. -/
def jsTrim (s : String) : String := s.trim

/-- Hexadecimal character, either case (the `/^[a-f0-9]{32}$/i` class). -/
def isHexChar (c : Char) : Bool :=
  c.isDigit || (('a' ≤ c) && (c ≤ 'f')) || (('A' ≤ c) && (c ≤ 'F'))

/-- The 32-character hexadecimal id test of `validators.js`. -/
def isHexId32 (s : String) : Bool :=
  s.length == 32 && s.toList.all isHexChar

/-- `validateNoteId` of `src/lib/validators.js`. -/
def validateNoteId (id : JStr) : JsM Unit :=
  match id with
  | .str s =>
    if s ≠ "" ∧ isHexId32 s then pure ()
    else jsThrow "Invalid note ID format. Must be 32-character hexadecimal string."
  | _ => jsThrow "Invalid note ID format. Must be 32-character hexadecimal string."

/-- `validateFolderId` of `src/lib/validators.js`. -/
def validateFolderId (id : JStr) : JsM Unit :=
  match id with
  | .str s =>
    if s ≠ "" ∧ isHexId32 s then pure ()
    else jsThrow "Invalid folder ID format. Must be 32-character hexadecimal string."
  | _ => jsThrow "Invalid folder ID format. Must be 32-character hexadecimal string."

/-- `validateTitle` of `src/lib/validators.js`. -/
def validateTitle (t : JStr) : JsM Unit :=
  match t with
  | .str s =>
    if s = "" ∨ (jsTrim s).length = 0 then
      jsThrow "Title is required and cannot be empty."
    else if s.length > 255 then
      jsThrow "Title cannot exceed 255 characters."
    else pure ()
  | _ => jsThrow "Title is required and cannot be empty."

/-- `validateOptionalId` of `src/lib/validators.js`. -/
def validateOptionalId (id : JStr) (idType : String) : JsM Unit :=
  match id with
  | .str s =>
    if s ≠ "" ∧ ¬ isHexId32 s then
      jsThrow ("Invalid " ++ idType ++ " format. Must be 32-character hexadecimal string.")
    else pure ()
  | _ => pure ()

/-- `validateOptionalTitle` of `src/lib/validators.js`. -/
def validateOptionalTitle (t : JStr) : JsM Unit :=
  match t with
  | .str s =>
    if s ≠ "" ∧ s.length > 255 then jsThrow "Title cannot exceed 255 characters."
    else pure ()
  | _ => pure ()

/-- `validateOptionalBody` of `src/lib/validators.js` (the type test cannot
fail on a string-typed argument). -/
def validateOptionalBody (_b : JStr) : JsM Unit := pure ()

/-- `validateOptionalBoolean` of `src/lib/validators.js`. -/
def validateOptionalBoolean (_v : JBool) (_fieldName : String) : JsM Unit := pure ()

/-- `validateOptionalTimestamp` of `src/lib/validators.js`. -/
def validateOptionalTimestamp (t : JNum) (fieldName : String) : JsM Unit :=
  match t with
  | .num n =>
    if n < 0 then jsThrow (fieldName ++ " must be a valid Unix timestamp (positive number).")
    else pure ()
  | _ => pure ()

/-- `validatePaginationParams` of `src/lib/validators.js`. -/
def validatePaginationParams (page limit : JNum) : JsM Unit := do
  match page with
  | .num n =>
    if n < 1 then jsThrow "Page must be a positive number starting from 1." else pure ()
  | _ => pure ()
  match limit with
  | .num n =>
    if n < 1 ∨ n > 100 then jsThrow "Limit must be a number between 1 and 100." else pure ()
  | _ => pure ()

/-- The order-by whitelist of `validateOrderParams`. -/
def validOrderFields : List String :=
  ["id", "title", "created_time", "updated_time", "user_created_time", "user_updated_time"]

/-- `validateOrderParams` of `src/lib/validators.js`. -/
def validateOrderParams (orderBy orderDir : JStr) : JsM Unit := do
  match orderBy with
  | .str s =>
    if s ≠ "" ∧ ¬ validOrderFields.contains s then
      jsThrow ("Order by must be one of: " ++ String.intercalate ", " validOrderFields)
    else pure ()
  | _ => pure ()
  match orderDir with
  | .str s =>
    if s ≠ "" ∧ ¬ ["ASC", "DESC"].contains s.toUpper then
      jsThrow "Order direction must be ASC or DESC"
    else pure ()
  | _ => pure ()

/-- `validateAtLeastOneUpdateField` at UpdateFolder's call site, where the
fields object is `{ title, parentId }`. -/
def validateAtLeastOneUpdateFieldFolder (title parentId : JStr) : JsM Unit :=
  if title.defined || parentId.defined then pure ()
  else jsThrow "At least one property must be provided for update."

/-- `validateAtLeastOneUpdateField` at UpdateNote's call site, where the
fields object is `{ title, body, parentId, isTodo, todoCompleted, todoDue }`. -/
def validateAtLeastOneUpdateFieldNote (title body parentId : JStr)
    (isTodo todoCompleted : JBool) (todoDue : JNum) : JsM Unit :=
  if title.defined || body.defined || parentId.defined || isTodo.defined ||
     todoCompleted.defined || todoDue.defined then pure ()
  else jsThrow "At least one property must be provided for update."

namespace UpdateFolder

/-- The `while (currentParentId)` ancestry walk of
`UpdateFolder.checkCircularReference`: visited-set check, descendant check,
then one `GET /folders/{current}` per hop; a 404 on a hop becomes the
parent-not-found error. Fuel exhaustion is the `diverged` marker (the JS
loop would still be running). -/
def checkCircularReference (b : Backend) (folderId : String) (fuel : Nat)
    (currentParentId : String) (visitedIds : List String) : JsM Unit :=
  if currentParentId = "" then pure ()
  else if currentParentId ∈ visitedIds then
    jsThrow "Circular reference detected in folder hierarchy."
  else if currentParentId = folderId then
    jsThrow "Cannot move folder to be its own descendant."
  else
    match fuel with
    | 0 => jsDiverge
    | fuel' + 1 => do
      let next ← jsTry
        (do
          let folder ← api (Req.getFolder currentParentId) (b.getFolder currentParentId)
          jsFolderParentId folder)
        (fun e =>
          if e.status = some 404 then
            jsThrow ("Parent folder with ID \"" ++ currentParentId ++ "\" not found.")
          else jsThrowErr e)
      checkCircularReference b folderId fuel' next (visitedIds ++ [currentParentId])

/-- The `catch` block of `UpdateFolder.call`. -/
def catchHandler (folderId : JStr) (e : JsError) : String :=
  if e.status = some 404 then
    "Error: Folder with ID \"" ++ folderId.interp ++
      "\" not found. Use list_notebooks to see available folders."
  else if e.status = some 400 then
    "Error: Invalid request data. " ++ e.dataError.getD "Please check your input parameters."
  else if e.message ≠ "" then
    "Error: " ++ e.message
  else
    "Error in update_folder: " ++ "Unknown error"

/-- The best-effort parent lookup of UpdateFolder's success path: one
`GET /folders/{parent}`; a failure only degrades the location text. -/
def parentInfoLookup (b : Backend) (pid : String) : JsM String :=
  jsTry
    (do
      let parentFolder ← api (Req.getFolder pid) (b.getFolder pid)
      match parentFolder with
      | some pf =>
        if pf.title ≠ "" then
          pure ("Inside \"" ++ pf.title ++ "\" (" ++ pid ++ ")")
        else pure "Root level"
      | none => pure "Root level")
    (fun _ => pure ("Inside parent folder (" ++ pid ++ ")"))

/-- The tail of UpdateFolder's try block after the PUT response arrives:
the shape check, the best-effort parent lookup for the location line, and
the success formatting. -/
def successFlow (b : Backend) (requestBody : FolderBody) :
    Option Folder → JsM String
  | none => pure "Error: Unexpected response format from Joplin API when updating folder"
  | some uf =>
    if uf.id = "" then
      pure "Error: Unexpected response format from Joplin API when updating folder"
    else do
      let parentInfo ←
        if uf.parent_id ≠ "" then parentInfoLookup b uf.parent_id
        else pure "Root level"
      let updatedFields :=
        (if requestBody.title.getD "" ≠ "" then ["title"] else []) ++
        (if requestBody.parent_id.isSome then ["location"] else [])
      let resultLines :=
        ["✅ Successfully updated folder \"" ++ uf.title ++ "\"",
         "Folder ID: " ++ uf.id,
         "Location: " ++ parentInfo,
         "Last updated: " ++ jsToLocaleString uf.updated_time] ++
        (if updatedFields.length > 0 then
          ["Updated fields: " ++ String.intercalate ", " updatedFields] else []) ++
        ["", "Next steps:",
         "- To view this folder: get_folder folder_id=\"" ++ uf.id ++ "\"",
         "- To read folder contents: read_notebook notebook_id=\"" ++ uf.id ++ "\"",
         "- To see all folders: list_notebooks"]
      return String.intercalate "\n" resultLines

/-- The `try` block of `UpdateFolder.call` in `src/lib/tools/get-all-notes.js`
(the source file holds the UpdateFolder class): validation, the circular
reference check, the self-move check, the single PUT, and the success tail
(`successFlow`). -/
def callBody (b : Backend) (fuel : Nat) (folderId title parentId : JStr) : JsM String := do
  validateFolderId folderId
  validateOptionalTitle title
  validateOptionalId parentId "parent folder ID"
  validateAtLeastOneUpdateFieldFolder title parentId
  if parentId.truthy ∧ parentId ≠ folderId then
    checkCircularReference b folderId.interp fuel parentId.interp []
  if parentId = folderId then
    jsThrow "A folder cannot be moved to itself."
  let requestBody : FolderBody :=
    ⟨match title with
      | .str t => if t ≠ "" then some (jsTrim t) else none
      | _ => none,
     match parentId with
      | .str p => if p ≠ "" then some p else none
      | _ => none⟩
  let updatedFolder ← api (Req.putFolder folderId.interp requestBody)
    (b.putFolder folderId.interp requestBody)
  successFlow b requestBody updatedFolder

/-- `UpdateFolder.call`: the try block under the catch. -/
def call (b : Backend) (fuel : Nat) (folderId title parentId : JStr) : JsM String :=
  jsTry (callBody b fuel folderId title parentId)
    (fun e => pure (catchHandler folderId e))

end UpdateFolder

namespace UpdateNote

/-- The `catch` block of `UpdateNote.call` in `src/lib/tools/update-note.js`. -/
def catchHandler (noteId : JStr) (e : JsError) : String :=
  if e.status = some 404 then
    "Error: Note with ID \"" ++ noteId.interp ++
      "\" not found. Use search_notes to find valid note IDs."
  else if e.status = some 400 then
    "Error: Invalid request data. " ++ e.dataError.getD "Please check your input parameters."
  else if e.message ≠ "" then
    "Error: " ++ e.message
  else
    "Error in update_note: " ++ "Unknown error"

/-- The `try` block of `UpdateNote.call`: validation, the single PUT with
only the supplied fields, and the success formatting. `now` is the value
`Date.now()` would return. -/
def callBody (b : Backend) (now : Int) (noteId title body parentId : JStr)
    (isTodo todoCompleted : JBool) (todoDue : JNum) : JsM String := do
  validateNoteId noteId
  validateOptionalTitle title
  validateOptionalId parentId "notebook ID"
  validateOptionalBody body
  validateOptionalBoolean isTodo "is_todo"
  validateOptionalBoolean todoCompleted "todo_completed"
  validateOptionalTimestamp todoDue "todo_due"
  validateAtLeastOneUpdateFieldNote title body parentId isTodo todoCompleted todoDue
  let requestBody : NoteBody :=
    ⟨(match title with
       | .str t => if t ≠ "" then some (jsTrim t) else none
       | _ => none),
     (match body with
       | .str s => some s
       | _ => none),
     (match parentId with
       | .str p => if p ≠ "" then some p else none
       | _ => none),
     (match isTodo with
       | .bool v => some (if v then 1 else 0)
       | _ => none),
     (match todoCompleted with
       | .bool v => some (if v then now else 0)
       | _ => none),
     (match todoDue with
       | .num n => some n
       | _ => none)⟩
  let updatedNote ← api (Req.putNote noteId.interp requestBody)
    (b.putNote noteId.interp requestBody)
  match updatedNote with
  | none => return "Error: Unexpected response format from Joplin API when updating note"
  | some un =>
    if un.id = "" then
      return "Error: Unexpected response format from Joplin API when updating note"
    else
      let updatedFields :=
        (if requestBody.title.getD "" ≠ "" then ["title"] else []) ++
        (if requestBody.body.isSome then ["content"] else []) ++
        (if requestBody.parent_id.getD "" ≠ "" then ["notebook"] else []) ++
        (if requestBody.is_todo.isSome then ["todo status"] else []) ++
        (if requestBody.todo_completed.isSome then ["completion status"] else []) ++
        (if requestBody.todo_due.isSome then ["due date"] else [])
      let resultLines :=
        ["✅ Successfully updated note \"" ++ un.title ++ "\"",
         "Note ID: " ++ un.id] ++
        (if un.parent_id ≠ "" then ["Notebook ID: " ++ un.parent_id]
         else ["Notebook: Default notebook"]) ++
        (if un.is_todo then
          ["Type: Todo item (" ++
            (if un.todo_completed ≠ 0 then "Completed" else "Not completed") ++ ")"] ++
          (if un.todo_due ≠ 0 then ["Due: " ++ jsToLocaleString un.todo_due] else []) ++
          (if un.todo_completed ≠ 0 then
            ["Completed: " ++ jsToLocaleString un.todo_completed] else [])
         else ["Type: Regular note"]) ++
        ["Last updated: " ++ jsToLocaleString un.updated_time] ++
        (if updatedFields.length > 0 then
          ["Updated fields: " ++ String.intercalate ", " updatedFields] else []) ++
        ["", "Next steps:",
         "- To read this note: read_note note_id=\"" ++ un.id ++ "\""] ++
        (if un.parent_id ≠ "" then
          ["- To view the notebook: read_notebook notebook_id=\"" ++ un.parent_id ++ "\""]
         else [])
      return String.intercalate "\n" resultLines

/-- `UpdateNote.call`: the try block under the catch. -/
def call (b : Backend) (now : Int) (noteId title body parentId : JStr)
    (isTodo todoCompleted : JBool) (todoDue : JNum) : JsM String :=
  jsTry (callBody b now noteId title body parentId isTodo todoCompleted todoDue)
    (fun e => pure (catchHandler noteId e))

end UpdateNote

/-! ### A snapshot folder store and the effect of a trace on it

Modelled from the spec: the backend's own record store and its
partial-update write semantics (omitted fields are left untouched
server-side) are outside `src/`; they are modelled here so that theorems
can speak about what a recorded trace does to stored state. -/

/-- Modelled from the spec: the effect of one request on a snapshot folder
store. Reads change nothing; a folder PUT merges only the supplied fields
into the matching record; a folder DELETE removes the record; a folder POST
and all note requests leave the folder store unchanged. -/
def applyReq (store : List Folder) : Req → List Folder
  | .putFolder id body =>
    store.map fun f =>
      if f.id = id then
        { f with title := body.title.getD f.title, parent_id := body.parent_id.getD f.parent_id }
      else f
  | .deleteFolder id => store.filter fun f => f.id ≠ id
  | _ => store

/-- Modelled from the spec: the effect of a whole request trace on a
snapshot folder store, in order. -/
def applyTrace (store : List Folder) (tr : Trace) : List Folder :=
  tr.foldl applyReq store

/-- A backend oracle whose every response is a transport failure; used to
instantiate witnesses (any oracle would do). -/
def failingBackend : Backend where
  getFolder := fun _ => .error { message := "connect ECONNREFUSED" }
  getFolderNotes := fun _ => .error { message := "connect ECONNREFUSED" }
  getNote := fun _ => .error { message := "connect ECONNREFUSED" }
  getNotes := fun _ => .error { message := "connect ECONNREFUSED" }
  getAllFolders := .error { message := "connect ECONNREFUSED" }
  putFolder := fun _ _ => .error { message := "connect ECONNREFUSED" }
  putNote := fun _ _ => .error { message := "connect ECONNREFUSED" }
  postFolder := fun _ => .error { message := "connect ECONNREFUSED" }
  postNote := fun _ => .error { message := "connect ECONNREFUSED" }
  deleteFolder := fun _ => .error { message := "connect ECONNREFUSED" }
  deleteNote := fun _ => .error { message := "connect ECONNREFUSED" }

/-- A snapshot-backed oracle: `GET /folders/{id}` answers from the store
(404 when absent), writes succeed by echoing the store contents after the
merge, everything else fails as unreachable. -/
def storeBackend (store : List Folder) : Backend :=
  { failingBackend with
    getFolder := fun id =>
      match store.find? (fun f => f.id = id) with
      | some f => .ok (some f)
      | none => .error { message := "Request failed with status code 404", status := some 404 },
    putFolder := fun id body =>
      match store.find? (fun f => f.id = id) with
      | some f =>
        .ok (some { f with title := body.title.getD f.title,
                           parent_id := body.parent_id.getD f.parent_id })
      | none => .error { message := "Request failed with status code 404", status := some 404 } }

/-! ### Evaluation toolbox -/

/-- An optional title the validator accepts: absent, empty, or within the
255-character bound. -/
def optionalTitleOk : JStr → Bool
  | .str s => s == "" || decide (s.length ≤ 255)
  | _ => true

/-- An optional id the validator accepts: absent, empty, or 32-hex. -/
def optionalIdOk : JStr → Bool
  | .str s => s == "" || isHexId32 s
  | _ => true

/-- A concrete folder used by witnesses. -/
def inboxFolder : Folder :=
  { id := "58a0a29f68bc4141b49c99f5d367638a", title := "Inbox", parent_id := "" }

/-- Iterated parent lookup against the backend oracle: `iterF b n p` is the
id reached from `p` after `n` parent hops, or `none` when some hop's
`GET /folders/{id}` does not answer with a well-formed folder. This is the
chain the ancestry walk of `UpdateFolder.checkCircularReference` follows. -/
def iterF (b : Backend) : Nat → String → Option String
  | 0, id => some id
  | n + 1, id =>
    match b.getFolder id with
    | .ok (some f) => iterF b n f.parent_id
    | _ => none

namespace ListNotebooks

/-- `String.fromCharCode('A'.charCodeAt(0) - 1)`: the character before A. -/
def CHARACTER_BEFORE_A : Char := '@'

/-- JavaScript `s.replace(pat, rep)` with one-character strings: replaces
only the first occurrence. -/
def replaceFirstChar : List Char → Char → Char → List Char
  | [], _, _ => []
  | c :: cs, pat, rep => if c = pat then rep :: cs else c :: replaceFirstChar cs pat rep

/-- The comparison key of `sortNotebooks`: the title with its first literal
bracket replaced by the character before A. -/
def sortKey (t : String) : String := ⟨replaceFirstChar t.data '[' CHARACTER_BEFORE_A⟩

/-- Code-point lexicographic comparison of character lists. -/
def lexLe : List Char → List Char → Bool
  | [], _ => true
  | _ :: _, [] => false
  | a :: as, b :: bs => if a < b then true else if b < a then false else lexLe as bs

/-- Modelled from the spec: `String.prototype.localeCompare` under the
default locale is an external ICU builtin; it is modelled as code-point
lexicographic comparison (`a` not after `b`). -/
def localeCompareLe (a b : String) : Bool := lexLe a.data b.data

/-- Stable insertion used by `sortNotebooks`: a new element goes after
every element already placed that is not greater than it. -/
def insertBy (le : Folder → Folder → Bool) (x : Folder) : List Folder → List Folder
  | [] => [x]
  | y :: ys => if le y x then y :: insertBy le x ys else x :: y :: ys

/-- `ListNotebooks.sortNotebooks`: a stable sort of a copy of the sibling
group, comparing bracket-adjusted titles (JavaScript `Array.sort` is a
stable sort, so any stable sort is an exact model). Modelled from the
spec: `localeCompare` with the default locale is an external ICU builtin,
modelled as code-point lexicographic string comparison. -/
def sortNotebooks (notebooks : List Folder) : List Folder :=
  notebooks.foldl
    (fun acc nb => insertBy (fun a b => localeCompareLe (sortKey a.title) (sortKey b.title)) nb acc)
    []

/-- The parent-to-children grouping `notebooksByParentId` built by
`ListNotebooks.call`: a key is present exactly when some folder carries it
as its parent reference, and its group keeps the original order. -/
def notebooksByParentId (notebooks : List Folder) (k : String) : Option (List Folder) :=
  let g := notebooks.filter (fun nb => nb.parent_id = k)
  if g.isEmpty then none else some g

/-- One rendered line of the notebook tree. -/
def notebookLine (indent : Nat) (nb : Folder) : String :=
  String.mk (List.replicate indent ' ') ++ "Notebook: \"" ++ nb.title ++
    "\" (notebook_id: \"" ++ nb.id ++ "\")\n"

/-- The sibling loop of `ListNotebooks.notebooksLines`: render each
notebook of the (already sorted) list in turn, recursing into its sorted
child group through `child`, the renderer one stack frame deeper. -/
def renderStep (groups : String → Option (List Folder))
    (child : Nat → List Folder → Except JsError (List String)) :
    Nat → List Folder → Except JsError (List String)
  | _, [] => .ok []
  | indent, nb :: rest =>
    match (match groups nb.id with
           | none => Except.ok []
           | some c => child (indent + 2) (sortNotebooks c)) with
    | .error e => .error e
    | .ok childLines =>
      match renderStep groups child indent rest with
      | .error e => .error e
      | .ok restLines => .ok (notebookLine indent nb :: (childLines ++ restLines))

/-- The recursion of `ListNotebooks.notebooksLines` over nested sibling
lists: the sibling loop itself consumes no stack, each child recursion
descends one frame. The fuel is the remaining JavaScript stack; running
out throws the V8 stack-overflow RangeError, which the tool catch observes
like any error. -/
def renderItems (groups : String → Option (List Folder)) :
    Nat → Nat → List Folder → Except JsError (List String)
  | 0 => renderStep groups
      (fun _ _ => .error { message := "Maximum call stack size exceeded" })
  | fuel + 1 => renderStep groups (renderItems groups fuel)

/-- `ListNotebooks.notebooksLines`: spreading an absent group (the root
lookup can miss) throws a TypeError; otherwise the group is sorted and
rendered. -/
def notebooksLines (groups : String → Option (List Folder)) (fuel indent : Nat) :
    Option (List Folder) → Except JsError (List String)
  | none =>
    .error { message := "notebooks is not iterable (cannot read property Symbol(Symbol.iterator))" }
  | some nbs =>
    match fuel with
    | 0 => .error { message := "Maximum call stack size exceeded" }
    | f + 1 => renderItems groups f indent (sortNotebooks nbs)

/-- The sibling loop of the traversal `renderVisits`: the recursion of
`renderStep`, producing the visited (indent, folder) pairs instead of
their lines. -/
def visitStep (groups : String → Option (List Folder))
    (child : Nat → List Folder → Except JsError (List (Nat × Folder))) :
    Nat → List Folder → Except JsError (List (Nat × Folder))
  | _, [] => .ok []
  | indent, nb :: rest =>
    match (match groups nb.id with
           | none => Except.ok []
           | some c => child (indent + 2) (sortNotebooks c)) with
    | .error e => .error e
    | .ok childVisits =>
      match visitStep groups child indent rest with
      | .error e => .error e
      | .ok restVisits => .ok ((indent, nb) :: (childVisits ++ restVisits))

/-- The traversal of `renderItems`, recorded as (indent, folder) visits:
the same recursion, producing the visited folders instead of their lines. -/
def renderVisits (groups : String → Option (List Folder)) :
    Nat → Nat → List Folder → Except JsError (List (Nat × Folder))
  | 0 => visitStep groups
      (fun _ _ => .error { message := "Maximum call stack size exceeded" })
  | fuel + 1 => visitStep groups (renderVisits groups fuel)

/-- The header lines of the listing. -/
def headerLines : List String :=
  ["Joplin Notebooks:\n",
   "NOTE: To read a notebook, use the notebook_id with the read_notebook command\n",
   "Example: read_notebook notebook_id=\"your-notebook-id\"\n\n"]

/-- `ListNotebooks.call` of `src/lib/tools/list-notebooks.js`: one
`getAllItems` fetch, the grouping, the recursive rendering from the root
group, with every failure converted to an error text. -/
def call (b : Backend) (fuel : Nat) : JsM String :=
  jsTry
    (do
      let notebooks ← api Req.getAllFolders b.getAllFolders
      match notebooksLines (notebooksByParentId notebooks) fuel 0
          (notebooksByParentId notebooks "") with
      | .error e => jsThrowErr e
      | .ok lines => pure (String.join (headerLines ++ lines)))
    (fun e =>
      pure ("Error listing notebooks: " ++
        (if e.message ≠ "" then e.message else "Unknown error")))

end ListNotebooks

/-- Concrete folders forming the chain A <- B <- C, used by witnesses. -/
def folderA : Folder :=
  { id := "aaaaaaaaaaaaaaaaaaaaaaaaaaaaaaaa", title := "A", parent_id := "" }

/-- Child of `folderA`. -/
def folderB : Folder :=
  { id := "bbbbbbbbbbbbbbbbbbbbbbbbbbbbbbbb", title := "B", parent_id := folderA.id }

/-- Child of `folderB`. -/
def folderC : Folder :=
  { id := "cccccccccccccccccccccccccccccccc", title := "C", parent_id := folderB.id }

/-- A folder whose parent reference points to no stored folder. -/
def folderD : Folder :=
  { id := "dddddddddddddddddddddddddddddddd", title := "D",
    parent_id := "ffffffffffffffffffffffffffffffff" }

/-- A backend whose folder collection fetch succeeds with the given list
and every other endpoint fails; used to drive ListNotebooks. -/
def okFoldersBackend (fs : List Folder) : Backend :=
  { failingBackend with getAllFolders := .ok fs }

/-- The three sibling folders of the ordering example. -/
def bracket0 : Folder :=
  { id := "00000000000000000000000000000000", title := "[0] A", parent_id := "" }

/-- Sibling titled Z. -/
def plainZ : Folder :=
  { id := "11111111111111111111111111111111", title := "Z", parent_id := "" }

/-- Sibling titled with bracket prefix 1. -/
def bracket1 : Folder :=
  { id := "22222222222222222222222222222222", title := "[1] B", parent_id := "" }

/-- Modelled from the spec: `JoplinAPIClient.getAllItems`, the Paginated
Collection Fetcher (the client file is not under `src/`). Starting from
page 1 it issues one paged request at a time, accumulates the returned
items in order, continues while the continuation indicator says more pages
exist, and propagates any page failure; fuel exhaustion is the
non-termination marker. -/
def getAllItems {α : Type} (fetchPage : Nat → Except JsError (List α × Bool)) :
    Nat → Nat → List α → Except Thrown (List α)
  | 0, _, _ => .error .modelDiverged
  | fuel + 1, page, acc =>
    match fetchPage page with
    | .error e => .error (.js e)
    | .ok (items, hasMore) =>
      if hasMore then getAllItems fetchPage fuel (page + 1) (acc ++ items)
      else .ok (acc ++ items)

/-- The items of the three-page 100/100/37 example. -/
def examplePageItems : Nat → List Nat
  | 1 => List.range' 0 100
  | 2 => List.range' 100 100
  | 3 => List.range' 200 37
  | _ => []

/-- The backend paging oracle of the three-page example. -/
def examplePagedFetch : Nat → Except JsError (List Nat × Bool) :=
  fun i =>
    if i = 1 then .ok (examplePageItems 1, true)
    else if i = 2 then .ok (examplePageItems 2, true)
    else if i = 3 then .ok (examplePageItems 3, false)
    else .error { message := "page out of range" }

/-- A paging oracle whose second page request fails. -/
def failingPagedFetch : Nat → Except JsError (List Nat × Bool) :=
  fun i =>
    if i = 1 then .ok (List.range' 0 100, true)
    else .error { message := "socket hang up" }

namespace ListNotebooks

/-- The identifiers of a folder sequence, in order. -/
def folderIds (notebooks : List Folder) : List String := notebooks.map (fun nb => nb.id)

/-- The first folder of the sequence carrying the given identifier. -/
def lookupFolder (notebooks : List Folder) (k : String) : Option Folder :=
  notebooks.find? (fun nb => nb.id = k)

/-- The parent reference of the folder with the given identifier (empty
when no folder carries it). -/
def parentIdOf (notebooks : List Folder) (k : String) : String :=
  match lookupFolder notebooks k with
  | some f => f.parent_id
  | none => ""

/-- Iterated parent lookup within the sequence. -/
def ancIter (notebooks : List Folder) : Nat → String → String
  | 0, k => k
  | j + 1, k => ancIter notebooks j (parentIdOf notebooks k)

/-- `c` lies strictly below `x` in the parent graph of the sequence: some
positive number of parent hops from `c` reaches `x`. -/
def StrictBelow (notebooks : List Folder) (c x : Folder) : Prop :=
  ∃ j, ancIter notebooks (j + 1) c.id = x.id

/-- Acyclicity of the parent references: some rank strictly decreases from
each folder to the folder its parent reference names. -/
def AcyclicFolders (notebooks : List Folder) : Prop :=
  ∃ rank : String → Nat,
    ∀ nb ∈ notebooks, nb.parent_id ≠ "" → rank nb.parent_id < rank nb.id

/-- Well-formedness of a flat folder sequence: distinct nonempty
identifiers, every non-root parent reference resolving within the
sequence, and no cycles. -/
def WellFormedForest (notebooks : List Folder) : Prop :=
  (folderIds notebooks).Nodup ∧
  (∀ nb ∈ notebooks, nb.id ≠ "") ∧
  (∀ nb ∈ notebooks, nb.parent_id = "" ∨ nb.parent_id ∈ folderIds notebooks) ∧
  AcyclicFolders notebooks

end ListNotebooks

/-- The root folder of the dangling-reference example. -/
def rootR : Folder := { id := "r0", title := "R", parent_id := "" }

/-- A folder whose parent reference resolves to no folder in the sequence. -/
def danglingX : Folder := { id := "x0", title := "X", parent_id := "zz" }

/-- First of two distinct folders sharing one identifier. -/
def dupA1 : Folder := { id := "a0", title := "A1", parent_id := "" }

/-- Second of two distinct folders sharing one identifier. -/
def dupA2 : Folder := { id := "a0", title := "A2", parent_id := "" }

/-- A child of the duplicated identifier. -/
def dupChild : Folder := { id := "c0", title := "C", parent_id := "a0" }

/-- A folder whose identifier is the empty string, the root key. -/
def emptyIdFolder : Folder := { id := "", title := "E", parent_id := "" }

/-- Stable insertion on notes, used to model JavaScript `Array.sort` (a
stable sort) at the note-sorting call sites. -/
def insertNoteBy (le : Note → Note → Bool) (x : Note) : List Note → List Note
  | [] => [x]
  | y :: ys => if le y x then y :: insertNoteBy le x ys else x :: y :: ys

/-- A stable sort of a copy of a note list (JavaScript `[...].sort(cmp)`). -/
def sortNotesBy (le : Note → Note → Bool) (notes : List Note) : List Note :=
  notes.foldl (fun acc n => insertNoteBy le n acc) []

/-- The `/[a-f0-9]/i` test of the id plausibility checks. -/
def hasHexChar (s : String) : Bool := s.toList.any isHexChar

namespace DeleteNote

/-- The `catch` block of `DeleteNote.call` in `src/lib/tools/delete-note.js`. -/
def catchHandler (noteId : JStr) (e : JsError) : String :=
  if e.status = some 404 then
    "Error: Note with ID \"" ++ noteId.interp ++
      "\" not found. The note may have already been deleted or the ID is incorrect. " ++
      "Use search_notes to find valid note IDs."
  else if e.status = some 403 then
    "Error: Permission denied. You may not have permission to delete this note."
  else if e.status = some 400 then
    "Error: Invalid request. " ++ e.dataError.getD "Please check the note ID format."
  else if e.message ≠ "" then
    "Error: " ++ e.message
  else
    "Error in delete_note: " ++ "Unknown error"

/-- The best-effort details fetch of `DeleteNote.call`: the note for its
title, then (inner `try`) its notebook for the location text; any failure
of the outer fetch leaves the defaults. Returns (noteTitle, notebookInfo). -/
def fetchDetails (b : Backend) (noteId : String) : JsM (String × String) :=
  jsTry
    (do
      let note ← api (Req.getNote noteId) (b.getNote noteId)
      let noteTitle :=
        match note with
        | some n => if n.title ≠ "" then n.title else "Unknown note"
        | none => "Unknown note"
      match note with
      | some n =>
        if n.parent_id ≠ "" then do
          let notebookInfo ← jsTry
            (do
              let notebook ← api (Req.getFolder n.parent_id) (b.getFolder n.parent_id)
              match notebook with
              | some nb =>
                if nb.title ≠ "" then pure (" from notebook \"" ++ nb.title ++ "\"")
                else pure ""
              | none => pure "")
            (fun _ => pure "")
          pure (noteTitle, notebookInfo)
        else pure (noteTitle, "")
      | none => pure (noteTitle, ""))
    (fun _ => pure ("Unknown note", ""))

/-- The `try` block of `DeleteNote.call`: validation, the best-effort
details fetch, the DELETE, and the confirmation text. -/
def callBody (b : Backend) (noteId : JStr) : JsM String := do
  validateNoteId noteId
  let details ← fetchDetails b noteId.interp
  api (Req.deleteNote noteId.interp) (b.deleteNote noteId.interp)
  let resultLines :=
    ["✅ Successfully moved note \"" ++ details.1 ++ "\" to trash",
     "Note ID: " ++ noteId.interp] ++
    (if details.2 ≠ "" then ["Location: " ++ details.2] else []) ++
    ["", "ℹ️  Note Details:",
     "- The note has been moved to the trash (soft deleted)",
     "- You can restore it from Joplin's trash if needed",
     "- The note is no longer accessible via the API",
     "", "Related commands:",
     "- To see all notes: get_all_notes",
     "- To search for notes: search_notes query=\"your search term\""] ++
    (if details.2 ≠ "" then
      ["- To view remaining notes in this notebook: read_notebook notebook_id=\"notebook-id\""]
     else [])
  pure (String.intercalate "\n" resultLines)

/-- `DeleteNote.call`: the try block under the catch. -/
def call (b : Backend) (noteId : JStr) : JsM String :=
  jsTry (callBody b noteId) (fun e => pure (catchHandler noteId e))

end DeleteNote

namespace GetFolder

/-- The `catch` block of `GetFolder.call` in `src/lib/tools/delete-note.js`
(the source file also holds the GetFolder class). -/
def catchHandler (folderId : JStr) (e : JsError) : String :=
  if e.status = some 404 then
    "Error: Folder with ID \"" ++ folderId.interp ++
      "\" not found. Use list_notebooks to see available folders."
  else if e.status = some 403 then
    "Error: Permission denied. You may not have permission to access this folder."
  else if e.status = some 400 then
    "Error: Invalid request. " ++ e.dataError.getD "Please check the folder ID format."
  else if e.message ≠ "" then
    "Error: " ++ e.message
  else
    "Error in get_folder: " ++ "Unknown error"

/-- The best-effort parent lookup of `GetFolder.call`. -/
def parentInfoLookup (b : Backend) (folder : Folder) : JsM String :=
  if folder.parent_id ≠ "" then
    jsTry
      (do
        let parentFolder ← api (Req.getFolder folder.parent_id) (b.getFolder folder.parent_id)
        match parentFolder with
        | some pf =>
          if pf.title ≠ "" then
            pure ("\"" ++ pf.title ++ "\" (" ++ folder.parent_id ++ ")")
          else pure "Root level"
        | none => pure "Root level")
      (fun _ => pure ("Parent folder (" ++ folder.parent_id ++ ")"))
  else pure "Root level"

/-- The sub-folder sort of `GetFolder.call`: by title, locale comparison. -/
def sortByTitle (fs : List Folder) : List Folder :=
  fs.foldl
    (fun acc f =>
      ListNotebooks.insertBy (fun a b => ListNotebooks.localeCompareLe a.title b.title) f acc)
    []

/-- The best-effort sub-folder fetch of `GetFolder.call`: all folders,
filtered to the children, sorted by title; any failure yields no info. -/
def subfoldersLookup (b : Backend) (folderId : String) : JsM (List Folder) :=
  jsTry
    (do
      let allFolders ← api Req.getAllFolders b.getAllFolders
      pure (sortByTitle (allFolders.filter (fun f => f.parent_id = folderId))))
    (fun _ => pure [])

/-- The best-effort notes fetch of `GetFolder.call`: the folder's notes
page; returns (noteCount, recentNotes), zero and empty on any failure. -/
def notesLookup (b : Backend) (folderId : String) : JsM (Nat × List Note) :=
  jsTry
    (do
      let notesResponse ← api (Req.getFolderNotes folderId) (b.getFolderNotes folderId)
      match notesResponse with
      | some resp =>
        match resp.items with
        | some items =>
          pure (if resp.total ≠ 0 then resp.total else items.length, items)
        | none => pure (0, [])
      | none => pure (0, []))
    (fun _ => pure (0, []))

/-- One recent-note block of the GetFolder listing. -/
def recentNoteBlock (p : Nat × Note) : String :=
  String.intercalate "\n"
    (["   " ++ toString (p.1 + 1) ++ ". \"" ++ p.2.title ++ "\"",
      "      ID: " ++ p.2.id] ++
     (if p.2.is_todo then
       ["      Todo: " ++ (if p.2.todo_completed ≠ 0 then "Completed" else "Not completed")]
      else []) ++
     ["      Updated: " ++ jsToLocaleString p.2.updated_time])

/-- The success formatting of `GetFolder.call`. -/
def formatFolder (folderId : String) (f : Folder) (parentInfo : String)
    (subfolders : List Folder) (noteCount : Nat) (recentNotes : List Note) : String :=
  let resultLines :=
    ["📁 Folder: \"" ++ f.title ++ "\"",
     "ID: " ++ f.id,
     "Location: " ++ parentInfo,
     "Created: " ++ jsToLocaleString f.created_time,
     "Updated: " ++ jsToLocaleString f.updated_time,
     "",
     "📊 Contents Summary:",
     "- Notes: " ++ toString noteCount,
     "- Sub-folders: " ++ toString subfolders.length] ++
    (if subfolders.length > 0 then
      ["", "📁 Sub-folders:"] ++
      subfolders.enum.map (fun p =>
        "   " ++ toString (p.1 + 1) ++ ". \"" ++ p.2.title ++ "\" (" ++ p.2.id ++ ")")
     else []) ++
    (if recentNotes.length > 0 then
      ["", "📝 Recent Notes:"] ++
      recentNotes.enum.map recentNoteBlock ++
      (if noteCount > recentNotes.length then
        ["   ... and " ++ toString (noteCount - recentNotes.length) ++ " more notes"]
       else [])
     else []) ++
    ["", "🔧 Related Commands:",
     "- View all contents: read_notebook notebook_id=\"" ++ f.id ++ "\"",
     "- Get all notes in folder: get_all_notes folder_id=\"" ++ f.id ++ "\"",
     "- Create note in folder: create_note title=\"note title\" parent_id=\"" ++ f.id ++ "\"",
     "- Create sub-folder: create_folder title=\"sub folder\" parent_id=\"" ++ f.id ++ "\"",
     "- Update folder: update_folder folder_id=\"" ++ f.id ++ "\" title=\"new name\""] ++
    (if f.parent_id ≠ "" then
      ["- View parent folder: get_folder folder_id=\"" ++ f.parent_id ++ "\""]
     else []) ++
    (if subfolders.length > 0 then
      ["", "📁 Navigate to sub-folders:"] ++
      (subfolders.take 3).map (fun sf => "- get_folder folder_id=\"" ++ sf.id ++ "\"") ++
      (if subfolders.length > 3 then
        ["- ... and " ++ toString (subfolders.length - 3) ++ " more sub-folders"]
       else [])
     else [])
  String.intercalate "\n" resultLines

/-- The `try` block of `GetFolder.call`: validation, the folder fetch and
shape check, three best-effort enrichment fetches, and the formatting. -/
def callBody (b : Backend) (folderId : JStr) : JsM String := do
  validateFolderId folderId
  let folder ← api (Req.getFolder folderId.interp) (b.getFolder folderId.interp)
  match folder with
  | none => pure "Error: Unexpected response format from Joplin API when getting folder"
  | some f =>
    if f.id = "" then
      pure "Error: Unexpected response format from Joplin API when getting folder"
    else do
      let parentInfo ← parentInfoLookup b f
      let subfolders ← subfoldersLookup b folderId.interp
      let notesInfo ← notesLookup b folderId.interp
      pure (formatFolder folderId.interp f parentInfo subfolders notesInfo.1 notesInfo.2)

/-- `GetFolder.call`: the try block under the catch. -/
def call (b : Backend) (folderId : JStr) : JsM String :=
  jsTry (callBody b folderId) (fun e => pure (catchHandler folderId e))

end GetFolder

namespace ReadNotebook

/-- One note block of the notebook listing. -/
def noteBlock (note : Note) : List String :=
  (if note.is_todo then
    ["- " ++ (if note.todo_completed ≠ 0 then "✅" else "☐") ++ " Note: \"" ++
      note.title ++ "\" (note_id: \"" ++ note.id ++ "\")"]
   else
    ["- Note: \"" ++ note.title ++ "\" (note_id: \"" ++ note.id ++ "\")"]) ++
  ["  Updated: " ++ jsToLocaleString note.updated_time,
   "  To read this note: read_note note_id=\"" ++ note.id ++ "\"",
   ""]

/-- The `catch` block of `ReadNotebook.call` in
`src/lib/tools/read-notebook.js`. -/
def catchHandler (notebookId : JStr) (e : JsError) : String :=
  if e.status = some 404 then
    "Notebook with ID \"" ++ notebookId.interp ++ "\" not found.\n\n" ++
      "This might happen if:\n1. The ID is incorrect\n" ++
      "2. You're using a note title instead of a notebook ID\n" ++
      "3. The notebook has been deleted\n\n" ++
      "Use list_notebooks to see all available notebooks with their IDs."
  else
    "Error reading notebook: " ++ (if e.message ≠ "" then e.message else "Unknown error") ++
      "\n\nMake sure you're using a valid notebook ID, not a note title.\n" ++
      "Use list_notebooks to see all available notebooks with their IDs."

/-- The `try` block of `ReadNotebook.call`: the notebook fetch with shape
check, the notes fetch with shape check, the empty-notebook message, and
the listing sorted by update time, newest first. -/
def callBody (b : Backend) (notebookId : JStr) : JsM String := do
  let notebook ← api (Req.getFolder notebookId.interp) (b.getFolder notebookId.interp)
  match notebook with
  | none => pure "Error: Unexpected response format from Joplin API when fetching notebook"
  | some nb =>
    if nb.id = "" then
      pure "Error: Unexpected response format from Joplin API when fetching notebook"
    else do
      let notes ← api (Req.getFolderNotes notebookId.interp)
        (b.getFolderNotes notebookId.interp)
      match notes with
      | none => pure "Error: Unexpected response format from Joplin API when fetching notes"
      | some resp =>
        match resp.items with
        | none =>
          pure ("Notebook \"" ++ nb.title ++ "\" (notebook_id: \"" ++ nb.id ++
            "\") is empty.\n\nTry another notebook ID or use list_notebooks to see all " ++
            "available notebooks.")
        | some items =>
          if items.length = 0 then
            pure ("Notebook \"" ++ nb.title ++ "\" (notebook_id: \"" ++ nb.id ++
              "\") is empty.\n\nTry another notebook ID or use list_notebooks to see all " ++
              "available notebooks.")
          else do
            let sortedNotes := sortNotesBy (fun a c => c.updated_time ≤ a.updated_time) items
            let resultLines :=
              ["# Notebook: \"" ++ nb.title ++ "\" (notebook_id: \"" ++ nb.id ++ "\")",
               "Contains " ++ toString items.length ++ " notes:\n",
               "NOTE: This is showing the contents of notebook \"" ++ nb.title ++
                 "\", not a specific note.\n"] ++
              (if items.length > 1 then
                ["TIP: To read all " ++ toString items.length ++ " notes at once, use:\n",
                 "read_multinote note_ids=[" ++
                   String.intercalate "," (items.map (fun n => "\"" ++ n.id ++ "\"")) ++ "]\n"]
               else []) ++
              sortedNotes.flatMap noteBlock
            pure (String.intercalate "\n" resultLines)

/-- `ReadNotebook.call`: the two early plausibility returns, then the try
block under the catch. -/
def call (b : Backend) (notebookId : JStr) : JsM String :=
  if ¬ notebookId.truthy then
    pure "Please provide a notebook ID. Example: read_notebook notebook_id=\"your-notebook-id\""
  else if notebookId.interp.length < 10 ∨ ¬ hasHexChar notebookId.interp then
    pure ("Error: \"" ++ notebookId.interp ++ "\" does not appear to be a valid notebook ID. " ++
      "\n\nNotebook IDs are long alphanumeric strings like " ++
      "\"58a0a29f68bc4141b49c99f5d367638a\".\n\n" ++
      "Use list_notebooks to see all available notebooks with their IDs.")
  else
    jsTry (callBody b notebookId) (fun e => pure (catchHandler notebookId e))

end ReadNotebook

namespace ReadNote

/-- The `catch` block of `ReadNote.call` (the class sits beside
DeleteFolder in the repository sources). -/
def catchHandler (noteId : JStr) (e : JsError) : String :=
  if e.status = some 404 then
    "Note with ID \"" ++ noteId.interp ++ "\" not found.\n\n" ++
      "This might happen if:\n1. The ID is incorrect\n" ++
      "2. You're using a notebook ID instead of a note ID\n" ++
      "3. The note has been deleted\n\n" ++
      "Use search_notes to find notes and their IDs."
  else
    "Error reading note: " ++ (if e.message ≠ "" then e.message else "Unknown error") ++
      "\n\nMake sure you're using a valid note ID.\n" ++
      "Use search_notes to find notes and their IDs."

/-- The best-effort notebook lookup of `ReadNote.call`. -/
def notebookInfoLookup (b : Backend) (note : Note) : JsM String :=
  if note.parent_id ≠ "" then
    jsTry
      (do
        let notebook ← api (Req.getFolder note.parent_id) (b.getFolder note.parent_id)
        match notebook with
        | some nb =>
          if nb.title ≠ "" then
            pure ("\"" ++ nb.title ++ "\" (notebook_id: \"" ++ note.parent_id ++ "\")")
          else pure "Unknown notebook"
        | none => pure "Unknown notebook")
      (fun _ => pure "Unknown notebook")
  else pure "Unknown notebook"

/-- The `try` block of `ReadNote.call`: the note fetch with shape check,
the best-effort notebook lookup, and the note formatting. -/
def callBody (b : Backend) (noteId : JStr) : JsM String := do
  let note ← api (Req.getNote noteId.interp) (b.getNote noteId.interp)
  match note with
  | none => pure "Error: Unexpected response format from Joplin API when fetching note"
  | some n =>
    if n.id = "" then
      pure "Error: Unexpected response format from Joplin API when fetching note"
    else do
      let notebookInfo ← notebookInfoLookup b n
      let resultLines :=
        ["# Note: \"" ++ n.title ++ "\"",
         "Note ID: " ++ n.id,
         "Notebook: " ++ notebookInfo] ++
        (if n.is_todo then
          ["Status: " ++ (if n.todo_completed ≠ 0 then "Completed" else "Not completed")] ++
          (if n.todo_due ≠ 0 then ["Due: " ++ jsToLocaleString n.todo_due] else [])
         else []) ++
        ["Created: " ++ jsToLocaleString n.created_time,
         "Updated: " ++ jsToLocaleString n.updated_time,
         "\n---\n"] ++
        (if n.body ≠ "" then [n.body] else ["(This note has no content)"]) ++
        ["\n---\n",
         "Related commands:",
         "- To view the notebook containing this note: read_notebook notebook_id=\"" ++
           n.parent_id ++ "\"",
         "- To search for more notes: search_notes query=\"your search term\""]
      pure (String.intercalate "\n" resultLines)

/-- `ReadNote.call`: the two early plausibility returns, then the try
block under the catch. -/
def call (b : Backend) (noteId : JStr) : JsM String :=
  if ¬ noteId.truthy then
    pure "Please provide a note ID. Example: read_note note_id=\"your-note-id\""
  else if noteId.interp.length < 10 ∨ ¬ hasHexChar noteId.interp then
    pure ("Error: \"" ++ noteId.interp ++ "\" does not appear to be a valid note ID. " ++
      "\n\nNote IDs are long alphanumeric strings like " ++
      "\"58a0a29f68bc4141b49c99f5d367638a\".\n\n" ++
      "Use search_notes to find notes and their IDs.")
  else
    jsTry (callBody b noteId) (fun e => pure (catchHandler noteId e))

end ReadNote

namespace DeleteFolder

/-- The `catch` block of `DeleteFolder.call` (the class sits in the
repository sources beside ReadNote). -/
def catchHandler (folderId : JStr) (e : JsError) : String :=
  if e.status = some 404 then
    "Error: Folder with ID \"" ++ folderId.interp ++
      "\" not found. The folder may have already been deleted or the ID is incorrect. " ++
      "Use list_notebooks to see available folders."
  else if e.status = some 403 then
    "Error: Permission denied. You may not have permission to delete this folder."
  else if e.status = some 400 then
    "Error: Invalid request. " ++ e.dataError.getD "Please check the folder ID format."
  else if e.message ≠ "" then
    "Error: " ++ e.message
  else
    "Error in delete_folder: " ++ "Unknown error"

/-- The inner best-effort content count of `DeleteFolder.call`: all folders
for the sub-folder test, this folder's notes for the count; any failure
leaves both defaults. Returns (hasSubfolders, noteCount). -/
def countLookup (b : Backend) (folderId : String) : JsM (Bool × Nat) :=
  jsTry
    (do
      let allFolders ← api Req.getAllFolders b.getAllFolders
      let hasSubfolders := (allFolders.filter (fun f => f.parent_id = folderId)).length > 0
      jsTry
        (do
          let notes ← api (Req.getFolderNotes folderId) (b.getFolderNotes folderId)
          match notes with
          | some resp =>
            match resp.items with
            | some items => pure (hasSubfolders, items.length)
            | none => pure (hasSubfolders, 0)
          | none => pure (hasSubfolders, 0))
        (fun _ => pure (hasSubfolders, 0)))
    (fun _ => pure (false, 0))

/-- The best-effort details fetch of `DeleteFolder.call`: the folder for
its title, its parent for the location, the content counts. Returns
(folderTitle, parentInfo, hasSubfolders, noteCount). -/
def fetchDetails (b : Backend) (folderId : String) : JsM (String × String × Bool × Nat) :=
  jsTry
    (do
      let folder ← api (Req.getFolder folderId) (b.getFolder folderId)
      let folderTitle :=
        match folder with
        | some f => if f.title ≠ "" then f.title else "Unknown folder"
        | none => "Unknown folder"
      let parentInfo ←
        match folder with
        | some f =>
          if f.parent_id ≠ "" then
            jsTry
              (do
                let parentFolder ← api (Req.getFolder f.parent_id) (b.getFolder f.parent_id)
                match parentFolder with
                | some pf =>
                  if pf.title ≠ "" then pure (" inside \"" ++ pf.title ++ "\"")
                  else pure ""
                | none => pure "")
              (fun _ => pure "")
          else pure ""
        | none => pure ""
      let counts ← countLookup b folderId
      pure (folderTitle, parentInfo, counts.1, counts.2))
    (fun _ => pure ("Unknown folder", "", false, 0))

/-- The `try` block of `DeleteFolder.call`: validation, the best-effort
details fetch, the DELETE, and the confirmation text. -/
def callBody (b : Backend) (folderId : JStr) : JsM String := do
  validateFolderId folderId
  let details ← fetchDetails b folderId.interp
  let folderTitle := details.1
  let parentInfo := details.2.1
  let hasSubfolders := details.2.2.1
  let noteCount := details.2.2.2
  api (Req.deleteFolder folderId.interp) (b.deleteFolder folderId.interp)
  let resultLines :=
    ["✅ Successfully moved folder \"" ++ folderTitle ++ "\" to trash",
     "Folder ID: " ++ folderId.interp] ++
    (if parentInfo ≠ "" then ["Location: " ++ parentInfo] else []) ++
    ["", "ℹ️  Deletion Details:",
     "- The folder has been moved to the trash (soft deleted)",
     "- You can restore it from Joplin's trash if needed",
     "- The folder is no longer accessible via the API"] ++
    (if noteCount > 0 then
      ["- " ++ toString noteCount ++ " note(s) in this folder were also moved to trash"]
     else []) ++
    (if hasSubfolders then ["- Any sub-folders were also moved to trash"] else []) ++
    (if noteCount = 0 ∧ ¬ hasSubfolders then ["- This folder was empty"] else []) ++
    ["", "⚠️  Important Notes:",
     "- Deleting a folder also moves all its contents to trash",
     "- This includes all notes and sub-folders within it",
     "- Use the Joplin desktop app to restore if needed",
     "", "Related commands:",
     "- To see all folders: list_notebooks",
     "- To create a new folder: create_folder title=\"folder name\""]
  pure (String.intercalate "\n" resultLines)

/-- `DeleteFolder.call`: the try block under the catch. -/
def call (b : Backend) (folderId : JStr) : JsM String :=
  jsTry (callBody b folderId) (fun e => pure (catchHandler folderId e))

end DeleteFolder

namespace CreateFolder

/-- The `catch` block of `CreateFolder.call` (the class sits in the
repository sources beside the other folder tools). -/
def catchHandler (parentId : JStr) (e : JsError) : String :=
  if e.status = some 404 then
    "Error: Parent folder with ID \"" ++ parentId.interp ++
      "\" not found. Use list_notebooks to see available folders."
  else if e.status = some 400 then
    "Error: Invalid request data. " ++ e.dataError.getD "Please check your input parameters."
  else if e.message ≠ "" then
    "Error: " ++ e.message
  else
    "Error in create_folder: " ++ "Unknown error"

/-- The best-effort parent lookup of `CreateFolder.call`. -/
def parentInfoLookup (b : Backend) (createdFolder : Folder) : JsM String :=
  if createdFolder.parent_id ≠ "" then
    jsTry
      (do
        let parentFolder ← api (Req.getFolder createdFolder.parent_id)
          (b.getFolder createdFolder.parent_id)
        match parentFolder with
        | some pf =>
          if pf.title ≠ "" then
            pure ("Inside \"" ++ pf.title ++ "\" (" ++ createdFolder.parent_id ++ ")")
          else pure "Root level"
        | none => pure "Root level")
      (fun _ => pure ("Inside parent folder (" ++ createdFolder.parent_id ++ ")"))
  else pure "Root level"

/-- The `try` block of `CreateFolder.call`: validation, the POST with only
the supplied fields, the shape check, the best-effort parent lookup, and
the success formatting. -/
def callBody (b : Backend) (title parentId : JStr) : JsM String := do
  validateTitle title
  validateOptionalId parentId "parent folder ID"
  let requestBody : FolderBody :=
    ⟨match title with
      | .str t => some (jsTrim t)
      | _ => none,
     match parentId with
      | .str p => if p ≠ "" then some p else none
      | _ => none⟩
  let createdFolder ← api (Req.postFolder requestBody) (b.postFolder requestBody)
  match createdFolder with
  | none => pure "Error: Unexpected response format from Joplin API when creating folder"
  | some cf =>
    if cf.id = "" then
      pure "Error: Unexpected response format from Joplin API when creating folder"
    else do
      let parentInfo ← parentInfoLookup b cf
      let resultLines :=
        ["✅ Successfully created folder \"" ++ cf.title ++ "\"",
         "Folder ID: " ++ cf.id,
         "Location: " ++ parentInfo,
         "Created: " ++ jsToLocaleString cf.created_time,
         "", "ℹ️  Folder Details:",
         "- This folder can now contain notes and sub-folders",
         "- Use this folder ID when creating notes to organize them",
         "", "Next steps:",
         "- To view this folder: get_folder folder_id=\"" ++ cf.id ++ "\"",
         "- To read folder contents: read_notebook notebook_id=\"" ++ cf.id ++ "\"",
         "- To create a note in this folder: create_note title=\"note title\" parent_id=\"" ++
           cf.id ++ "\"",
         "- To create a sub-folder: create_folder title=\"sub folder name\" parent_id=\"" ++
           cf.id ++ "\"",
         "- To see all folders: list_notebooks"]
      pure (String.intercalate "\n" resultLines)

/-- `CreateFolder.call`: the try block under the catch. -/
def call (b : Backend) (title parentId : JStr) : JsM String :=
  jsTry (callBody b title parentId) (fun e => pure (catchHandler parentId e))

end CreateFolder

namespace CreateNote

/-- The `catch` block of `CreateNote.call` in
`src/lib/tools/get-all-notes.js` (the source file also holds CreateNote). -/
def catchHandler (parentId : JStr) (e : JsError) : String :=
  if e.status = some 404 then
    "Error: Notebook with ID \"" ++ parentId.interp ++
      "\" not found. Use list_notebooks to see available notebooks."
  else if e.status = some 400 then
    "Error: Invalid request data. " ++ e.dataError.getD "Please check your input parameters."
  else if e.message ≠ "" then
    "Error: " ++ e.message
  else
    "Error in create_note: " ++ "Unknown error"

/-- The `try` block of `CreateNote.call`: validation, the todo-due
consistency check, the POST with only the supplied fields, the shape
check, and the success formatting. -/
def callBody (b : Backend) (title body parentId : JStr) (isTodo : JBool)
    (todoDue : JNum) : JsM String := do
  validateTitle title
  validateOptionalId parentId "notebook ID"
  validateOptionalBody body
  validateOptionalBoolean isTodo "is_todo"
  validateOptionalTimestamp todoDue "todo_due"
  if isTodo = .bool false ∧ todoDue.defined then
    jsThrow "todo_due cannot be set when is_todo is false."
  let requestBody : NoteBody :=
    { title := match title with
        | .str t => some (jsTrim t)
        | _ => none,
      body := match body with
        | .str s => some s
        | _ => none,
      parent_id := if parentId.truthy then some parentId.interp else none,
      is_todo := match isTodo with
        | .bool t => some (if t then 1 else 0)
        | _ => none,
      todo_due := match todoDue with
        | .num n => some n
        | _ => none }
  let createdNote ← api (Req.postNote requestBody) (b.postNote requestBody)
  match createdNote with
  | none => pure "Error: Unexpected response format from Joplin API when creating note"
  | some cn =>
    if cn.id = "" then
      pure "Error: Unexpected response format from Joplin API when creating note"
    else do
      let resultLines :=
        ["✅ Successfully created note \"" ++ cn.title ++ "\"",
         "Note ID: " ++ cn.id] ++
        (if cn.parent_id ≠ "" then ["Notebook ID: " ++ cn.parent_id]
         else ["Notebook: Default notebook"]) ++
        (if cn.is_todo then
          ["Type: Todo item"] ++
          (if cn.todo_due ≠ 0 then ["Due: " ++ jsToLocaleString cn.todo_due] else [])
         else ["Type: Regular note"]) ++
        ["Created: " ++ jsToLocaleString cn.created_time,
         "", "Next steps:",
         "- To read this note: read_note note_id=\"" ++ cn.id ++ "\""] ++
        (if cn.parent_id ≠ "" then
          ["- To view the notebook: read_notebook notebook_id=\"" ++ cn.parent_id ++ "\""]
         else []) ++
        ["- To update this note: update_note note_id=\"" ++ cn.id ++
          "\" title=\"new title\" body=\"new content\""]
      pure (String.intercalate "\n" resultLines)

/-- `CreateNote.call`: the try block under the catch. -/
def call (b : Backend) (title body parentId : JStr) (isTodo : JBool)
    (todoDue : JNum) : JsM String :=
  jsTry (callBody b title body parentId isTodo todoDue)
    (fun e => pure (catchHandler parentId e))

end CreateNote

namespace GetAllNotes

/-- The `catch` block of `GetAllNotes.call` in
`src/lib/tools/get-all-notes.js`. -/
def catchHandler (folderId : JStr) (e : JsError) : String :=
  if e.status = some 404 then
    "Error: Folder with ID \"" ++ folderId.interp ++
      "\" not found. Use list_notebooks to see available folders."
  else if e.status = some 400 then
    "Error: Invalid request parameters. " ++ e.dataError.getD "Please check your parameters."
  else if e.message ≠ "" then
    "Error: " ++ e.message
  else
    "Error in get_all_notes: " ++ "Unknown error"

/-- `[...new Set(l)]`: first occurrences, in order. -/
def dedupStrings (l : List String) : List String :=
  l.foldl (fun acc id => if id ∈ acc then acc else acc ++ [id]) []

/-- The folder-name cache fill of `GetAllNotes.call`: one best-effort
`GET /folders/{id}` per unique parent id; each iteration catches its own
failure, so the surrounding batch `try` is unreachable. -/
def folderCacheFetch (b : Backend) : List String → JsM (List (String × String))
  | [] => pure []
  | id :: rest => do
    let entry ← jsTry
      (do
        let folder ← api (Req.getFolder id) (b.getFolder id)
        match folder with
        | some f => if f.title ≠ "" then pure [(id, f.title)] else pure []
        | none => pure [])
      (fun _ => pure [])
    let restCache ← folderCacheFetch b rest
    pure (entry ++ restCache)

/-- `folderCache.get(id)`. -/
def cacheGet (cache : List (String × String)) (id : String) : Option String :=
  (cache.find? (fun p => p.1 = id)).map (fun p => p.2)

/-- `GetAllNotes.buildCommand`. -/
def buildCommand (folderId : JStr) (page limit : Int) (orderBy orderDir : String) : String :=
  String.intercalate " "
    (["get_all_notes"] ++
     (if folderId.truthy then ["folder_id=\"" ++ folderId.interp ++ "\""] else []) ++
     (if page ≠ 1 then ["page=" ++ toString page] else []) ++
     (if limit ≠ 50 then ["limit=" ++ toString limit] else []) ++
     (if orderBy ≠ "updated_time" then ["order_by=\"" ++ orderBy ++ "\""] else []) ++
     (if orderDir ≠ "DESC" then ["order_dir=\"" ++ orderDir ++ "\""] else []))

/-- One numbered note block of the GetAllNotes listing. -/
def noteBlock (folderId : JStr) (cache : List (String × String))
    (p : Nat × Note) : String :=
  String.intercalate "\n"
    ([toString (p.1 + 1) ++ ". \"" ++ p.2.title ++ "\"",
      "   ID: " ++ p.2.id] ++
     (if ¬ folderId.truthy ∧ p.2.parent_id ≠ "" then
       ["   Folder: " ++ ((cacheGet cache p.2.parent_id).getD p.2.parent_id)]
      else []) ++
     (if p.2.is_todo then
       ["   Todo: " ++ (if p.2.todo_completed ≠ 0 then "Completed" else "Not completed")] ++
       (if p.2.todo_due ≠ 0 then ["   Due: " ++ jsToLocaleString p.2.todo_due] else [])
      else []) ++
     ["   Updated: " ++ jsToLocaleString p.2.updated_time])

/-- The `try` block of `GetAllNotes.call`: validation, defaulting, the
single notes query, the shape check, the no-notes message, the
folder-name cache fill, and the listing with pagination hints. -/
def callBody (b : Backend) (folderId : JStr) (page limit : JNum)
    (orderBy orderDir : JStr) : JsM String := do
  validateOptionalId folderId "folder ID"
  validatePaginationParams page limit
  validateOrderParams orderBy orderDir
  let actualPage : Int := match page with
    | .num n => if n = 0 then 1 else n
    | _ => 1
  let actualLimit : Int := min (match limit with
    | .num n => if n = 0 then 50 else n
    | _ => 50) 100
  let actualOrderBy : String := match orderBy with
    | .str s => if s = "" then "updated_time" else s
    | _ => "updated_time"
  let actualOrderDir : String := (match orderDir with
    | .str s => if s = "" then "DESC" else s
    | _ => "DESC").toUpper
  let queryParams : NotesQuery :=
    { page := actualPage, limit := actualLimit, order_by := actualOrderBy,
      order_dir := actualOrderDir,
      parent_id := if folderId.truthy then some folderId.interp else none }
  let response ← api (Req.getNotes queryParams) (b.getNotes queryParams)
  match response with
  | none => pure "Error: Unexpected response format from Joplin API when getting notes"
  | some resp =>
    let notes := resp.items.getD []
    let hasMore := resp.has_more
    if notes.length = 0 then
      pure (String.intercalate "\n"
        ((if folderId.truthy then
           ["📝 No notes found in the specified folder", "Folder ID: " ++ folderId.interp]
          else ["📝 No notes found"]) ++
         ["", "Suggestions:",
          "- Create a new note: create_note title=\"my note\"",
          "- Search for notes: search_notes query=\"search term\"",
          "- List all folders: list_notebooks"]))
    else do
      let uniqueIds := dedupStrings ((notes.map (fun n => n.parent_id)).filter (fun id => id ≠ ""))
      let cache ← folderCacheFetch b uniqueIds
      let total := if resp.total ≠ 0 then resp.total else notes.length
      let resultLines :=
        (if folderId.truthy then
          ["📝 Notes in \"" ++ ((cacheGet cache folderId.interp).getD "Unknown folder") ++
            "\" (" ++ toString notes.length ++ " of " ++ toString total ++ ")",
           "Folder ID: " ++ folderId.interp]
         else
          ["📝 All Notes (" ++ toString notes.length ++ " of " ++ toString total ++ ")"]) ++
        ["Page: " ++ toString actualPage ++ ", Limit: " ++ toString actualLimit,
         "Sorted by: " ++ actualOrderBy ++ " " ++ actualOrderDir, ""] ++
        notes.enum.flatMap (fun p =>
          [noteBlock folderId cache p] ++
          (if p.1 + 1 < notes.length then [""] else [])) ++
        (if hasMore ∨ actualPage > 1 then
          ["", "📄 Pagination:"] ++
          (if actualPage > 1 then
            ["   Previous: " ++
              buildCommand folderId (actualPage - 1) actualLimit actualOrderBy actualOrderDir]
           else []) ++
          (if hasMore then
            ["   Next: " ++
              buildCommand folderId (actualPage + 1) actualLimit actualOrderBy actualOrderDir]
           else [])
         else []) ++
        ["", "Related commands:",
         "- To read a note: read_note note_id=\"note-id\"",
         "- To search notes: search_notes query=\"search term\"",
         "- To create a note: create_note title=\"note title\""]
      pure (String.intercalate "\n" resultLines)

/-- `GetAllNotes.call`: the try block under the catch. -/
def call (b : Backend) (folderId : JStr) (page limit : JNum)
    (orderBy orderDir : JStr) : JsM String :=
  jsTry (callBody b folderId page limit orderBy orderDir)
    (fun e => pure (catchHandler folderId e))

end GetAllNotes

/-- A computation that cannot hit the model's divergence marker: every run
ends in a value or a JavaScript error. -/
def noDiverge {α : Type} (m : JsM α) : Prop :=
  ∀ s, match m s with
  | .error .modelDiverged _ => False
  | _ => True

/-- A computation every run of which returns a value. -/
def jsTotal {α : Type} (m : JsM α) : Prop :=
  ∀ s, ∃ a s', m s = .ok a s'

/-! ## Theorems -/

theorem isHexId32_ne_empty {s : String} (h : isHexId32 s = true) : s ≠ "" := by
  intro he
  subst he
  simp [isHexId32] at h

theorem validateFolderId_ok {s : String} (h : isHexId32 s = true) :
    validateFolderId (.str s) = (pure () : JsM Unit) := by
  simp [validateFolderId, h, isHexId32_ne_empty h]

theorem validateNoteId_ok {s : String} (h : isHexId32 s = true) :
    validateNoteId (.str s) = (pure () : JsM Unit) := by
  simp [validateNoteId, h, isHexId32_ne_empty h]

theorem validateOptionalTitle_ok {t : JStr} (h : optionalTitleOk t = true) :
    validateOptionalTitle t = (pure () : JsM Unit) := by
  cases t with
  | str s =>
    simp [optionalTitleOk] at h
    rcases h with h | h
    · simp [validateOptionalTitle, h]
    · simp [validateOptionalTitle]
      intro _
      omega
  | undef => rfl
  | null => rfl

theorem validateOptionalId_ok {t : JStr} (idType : String) (h : optionalIdOk t = true) :
    validateOptionalId t idType = (pure () : JsM Unit) := by
  cases t with
  | str s =>
    simp [optionalIdOk] at h
    rcases h with h | h
    · simp [validateOptionalId, h]
    · simp [validateOptionalId, h]
  | undef => rfl
  | null => rfl

theorem atLeastOneFolder_ok {title parentId : JStr}
    (h : (title.defined || parentId.defined) = true) :
    validateAtLeastOneUpdateFieldFolder title parentId = (pure () : JsM Unit) := by
  simp [validateAtLeastOneUpdateFieldFolder, h]

theorem throw_bind {α β : Type} (e : JsError) (f : α → JsM β) :
    (jsThrowErr e >>= f) = (jsThrowErr e : JsM β) := rfl

theorem jsTry_throw {α : Type} (e : JsError) (handler : JsError → JsM α) :
    jsTry (jsThrowErr e) handler = handler e := rfl

/-- C2 core: on a self-parent request the try block throws the self-move
error without touching the monad state. -/
theorem updateFolder_self_parent_body (b : Backend) (fuel : Nat) (fid : String) (title : JStr)
    (hfid : isHexId32 fid = true) (htitle : optionalTitleOk title = true) :
    UpdateFolder.callBody b fuel (.str fid) title (.str fid) =
      jsThrowErr { message := "A folder cannot be moved to itself." } := by
  unfold UpdateFolder.callBody
  rw [validateFolderId_ok hfid, pure_bind,
      validateOptionalTitle_ok htitle, pure_bind,
      validateOptionalId_ok _ (by simp [optionalIdOk, hfid]), pure_bind,
      atLeastOneFolder_ok (by simp [JStr.defined, isHexId32_ne_empty hfid]), pure_bind]
  rw [if_neg (by simp)]
  rw [pure_bind, if_pos rfl]
  rw [jsThrow, throw_bind]

/-- C2: an update-folder request whose proposed new parent equals the
folder's own id is rejected with the self-move error immediately: the
result is the error text and the trace stays empty, so no backend read or
write was issued. -/
theorem claim_C2_self_parent_rejected_without_network
    (b : Backend) (fuel : Nat) (fid : String) (title : JStr)
    (hfid : isHexId32 fid = true) (htitle : optionalTitleOk title = true) :
    UpdateFolder.call b fuel (.str fid) title (.str fid) [] =
      .ok "Error: A folder cannot be moved to itself." [] := by
  rw [UpdateFolder.call, updateFolder_self_parent_body b fuel fid title hfid htitle,
      jsTry_throw]
  rfl

/-- C2 witness: a concrete self-parent request against a concrete oracle. -/
theorem claim_C2_witness :
    UpdateFolder.call failingBackend 5
      (.str "58a0a29f68bc4141b49c99f5d367638a") .undef
      (.str "58a0a29f68bc4141b49c99f5d367638a") [] =
      .ok "Error: A folder cannot be moved to itself." [] :=
  claim_C2_self_parent_rejected_without_network failingBackend 5
    "58a0a29f68bc4141b49c99f5d367638a" .undef (by decide) (by decide)

theorem atLeastOneFolder_throw_undef :
    validateAtLeastOneUpdateFieldFolder .undef .undef =
      jsThrow "At least one property must be provided for update." := rfl

theorem atLeastOneNote_throw_undef :
    validateAtLeastOneUpdateFieldNote .undef .undef .undef .undef .undef .undef =
      jsThrow "At least one property must be provided for update." := rfl

/-- C6 core for UpdateNote: with every optional field omitted the try block
throws the at-least-one-property validation error without touching state. -/
theorem updateNote_no_fields_body (b : Backend) (now : Int) (nid : String)
    (hnid : isHexId32 nid = true) :
    UpdateNote.callBody b now (.str nid) .undef .undef .undef .undef .undef .undef =
      jsThrowErr { message := "At least one property must be provided for update." } := by
  unfold UpdateNote.callBody
  rw [validateNoteId_ok hnid, pure_bind,
      @validateOptionalTitle_ok .undef rfl, pure_bind,
      @validateOptionalId_ok .undef ("notebook ID") rfl, pure_bind,
      show validateOptionalBody .undef = (pure () : JsM Unit) from rfl, pure_bind,
      show validateOptionalBoolean .undef ("is_todo") = (pure () : JsM Unit) from rfl, pure_bind,
      show validateOptionalBoolean .undef ("todo_completed") = (pure () : JsM Unit) from rfl,
      pure_bind,
      show validateOptionalTimestamp .undef ("todo_due") = (pure () : JsM Unit) from rfl,
      pure_bind,
      atLeastOneNote_throw_undef, jsThrow, throw_bind]

/-- C6 core for UpdateFolder: with every optional field omitted the try
block throws the at-least-one-property validation error. -/
theorem updateFolder_no_fields_body (b : Backend) (fuel : Nat) (fid : String)
    (hfid : isHexId32 fid = true) :
    UpdateFolder.callBody b fuel (.str fid) .undef .undef =
      jsThrowErr { message := "At least one property must be provided for update." } := by
  unfold UpdateFolder.callBody
  rw [validateFolderId_ok hfid, pure_bind,
      @validateOptionalTitle_ok .undef rfl, pure_bind,
      @validateOptionalId_ok .undef ("parent folder ID") rfl, pure_bind,
      atLeastOneFolder_throw_undef, jsThrow, throw_bind]

/-- C6: an update-note or update-folder request with all optional fields
omitted is rejected with the validation error "At least one property must
be provided for update" and an empty trace: no network call was made. -/
theorem claim_C6_empty_update_rejected_before_network :
    (∀ (b : Backend) (now : Int) (nid : String), isHexId32 nid = true →
      UpdateNote.call b now (.str nid) .undef .undef .undef .undef .undef .undef [] =
        .ok "Error: At least one property must be provided for update." []) ∧
    (∀ (b : Backend) (fuel : Nat) (fid : String), isHexId32 fid = true →
      UpdateFolder.call b fuel (.str fid) .undef .undef [] =
        .ok "Error: At least one property must be provided for update." []) := by
  constructor
  · intro b now nid hnid
    rw [UpdateNote.call, updateNote_no_fields_body b now nid hnid, jsTry_throw]
    rfl
  · intro b fuel fid hfid
    rw [UpdateFolder.call, updateFolder_no_fields_body b fuel fid hfid, jsTry_throw]
    rfl

/-- C6 witness: both halves at a concrete id and oracle. -/
theorem claim_C6_witness :
    UpdateNote.call failingBackend 0
      (.str "58a0a29f68bc4141b49c99f5d367638a") .undef .undef .undef .undef .undef .undef [] =
      .ok "Error: At least one property must be provided for update." [] ∧
    UpdateFolder.call failingBackend 5
      (.str "58a0a29f68bc4141b49c99f5d367638a") .undef .undef [] =
      .ok "Error: At least one property must be provided for update." [] :=
  ⟨claim_C6_empty_update_rejected_before_network.1 failingBackend 0
      "58a0a29f68bc4141b49c99f5d367638a" (by decide),
   claim_C6_empty_update_rejected_before_network.2 failingBackend 5
      "58a0a29f68bc4141b49c99f5d367638a" (by decide)⟩

theorem run_bind_ok {α β : Type} {x : JsM α} {f : α → JsM β} {s s1 : Trace} {a : α}
    (h : x s = .ok a s1) : (x >>= f) s = f a s1 := by
  show EStateM.bind x f s = f a s1
  unfold EStateM.bind
  rw [h]

theorem run_bind_error {α β : Type} {x : JsM α} {f : α → JsM β} {s s1 : Trace} {e : Thrown}
    (h : x s = .error e s1) : (x >>= f) s = .error e s1 := by
  show EStateM.bind x f s = EStateM.Result.error e s1
  unfold EStateM.bind
  rw [h]

theorem run_jsTry_ok {α : Type} {body : JsM α} {handler : JsError → JsM α} {s s1 : Trace} {a : α}
    (h : body s = .ok a s1) : jsTry body handler s = .ok a s1 := by
  unfold jsTry
  rw [h]

theorem run_jsTry_js {α : Type} {body : JsM α} {handler : JsError → JsM α} {s s1 : Trace}
    {e : JsError} (h : body s = .error (.js e) s1) : jsTry body handler s = handler e s1 := by
  unfold jsTry
  rw [h]

theorem parentInfoLookup_runs (b : Backend) (pid : String) (s : Trace) :
    ∃ info : String, UpdateFolder.parentInfoLookup b pid s = .ok info (s ++ [Req.getFolder pid]) := by
  unfold UpdateFolder.parentInfoLookup
  rcases hG : b.getFolder pid with e | og
  · exact ⟨_, rfl⟩
  · rcases og with _ | pf
    · exact ⟨_, rfl⟩
    · by_cases hpt : pf.title = ""
      · refine ⟨"Root level", ?_⟩
        simp [hpt, api, Bind.bind, EStateM.bind, jsTry, pure, EStateM.pure]
      · refine ⟨"Inside \"" ++ pf.title ++ "\" (" ++ pid ++ ")", ?_⟩
        simp [hpt, api, Bind.bind, EStateM.bind, jsTry, pure, EStateM.pure]

theorem updateFolder_successFlow_runs (b : Backend) (rb : FolderBody)
    (uo : Option Folder) (s : Trace) :
    ∃ (msg : String) (tr' : Trace), UpdateFolder.successFlow b rb uo s = .ok msg (s ++ tr') ∧
      ∀ r ∈ tr', r.isWrite = false := by
  cases uo with
  | none =>
    exact ⟨_, [], by rw [List.append_nil]; rfl, by simp⟩
  | some uf =>
    simp only [UpdateFolder.successFlow]
    by_cases hid : uf.id = ""
    · rw [if_pos hid]
      exact ⟨_, [], by rw [List.append_nil]; rfl, by simp⟩
    · rw [if_neg hid]
      by_cases hp : uf.parent_id = ""
      · rw [if_neg (by simp [hp]), pure_bind]
        exact ⟨_, [], by rw [List.append_nil]; rfl, by simp⟩
      · rw [if_pos hp]
        obtain ⟨info, hinfo⟩ := parentInfoLookup_runs b uf.parent_id s
        exact ⟨_, [Req.getFolder uf.parent_id], by rw [run_bind_ok hinfo]; rfl, by simp [Req.isWrite]⟩

theorem updateFolder_putStage (b : Backend) (fid : String) (rb : FolderBody)
    (h : JsError → String) (s : Trace) :
    ∃ (msg : String) (tr' : Trace),
      jsTry (api (Req.putFolder fid rb) (b.putFolder fid rb) >>= UpdateFolder.successFlow b rb)
          (fun e => pure (h e)) s =
        .ok msg (s ++ Req.putFolder fid rb :: tr') ∧
      ∀ r ∈ tr', r.isWrite = false := by
  rcases hput : b.putFolder fid rb with e | uo
  · refine ⟨h e, [], ?_, by simp⟩
    have hb : (api (Req.putFolder fid rb) (Except.error e) >>=
        UpdateFolder.successFlow b rb) s = .error (.js e) (s ++ [Req.putFolder fid rb]) :=
      run_bind_error rfl
    rw [run_jsTry_js hb]
    rfl
  · obtain ⟨msg, tr', hrun, hreads⟩ :=
      updateFolder_successFlow_runs b rb uo (s ++ [Req.putFolder fid rb])
    refine ⟨msg, tr', ?_, hreads⟩
    have hapi : api (Req.putFolder fid rb) (Except.ok uo) s =
        .ok uo (s ++ [Req.putFolder fid rb]) := rfl
    have hb : (api (Req.putFolder fid rb) (Except.ok uo) >>=
        UpdateFolder.successFlow b rb) s = .ok msg ((s ++ [Req.putFolder fid rb]) ++ tr') := by
      rw [run_bind_ok hapi, hrun]
    rw [run_jsTry_ok hb, List.append_assoc]
    rfl

theorem applyReq_read (store : List Folder) (r : Req) (h : r.isWrite = false) :
    applyReq store r = store := by
  cases r <;> simp [Req.isWrite] at h ⊢ <;> rfl

theorem applyReq_put_no_parent_map (store : List Folder) (i : String) (bd : FolderBody)
    (h : bd.parent_id = none) :
    (applyReq store (.putFolder i bd)).map (fun f => (f.id, f.parent_id)) =
      store.map (fun f => (f.id, f.parent_id)) := by
  simp only [applyReq, List.map_map]
  refine List.map_congr_left ?_
  intro f _
  by_cases hf : f.id = i <;> simp [hf, h]

theorem applyTrace_map_idparent (tr : Trace)
    (h : ∀ r ∈ tr, r.isWrite = false ∨ ∃ i bd, r = Req.putFolder i bd ∧ bd.parent_id = none) :
    ∀ store : List Folder,
      (applyTrace store tr).map (fun f => (f.id, f.parent_id)) =
        store.map (fun f => (f.id, f.parent_id)) := by
  induction tr with
  | nil => intro store; rfl
  | cons r tr' ih =>
    intro store
    have hr := h r (by simp)
    have htail : ∀ x ∈ tr', x.isWrite = false ∨ ∃ i bd, x = Req.putFolder i bd ∧ bd.parent_id = none := by
      intro x hx; exact h x (by simp [hx])
    have hstep : applyTrace store (r :: tr') = applyTrace (applyReq store r) tr' := rfl
    rw [hstep, ih htail]
    rcases hr with hread | ⟨i, bd, rfl, hbd⟩
    · rw [applyReq_read store r hread]
    · exact applyReq_put_no_parent_map store i bd hbd

/-- C7: an update-folder call supplying only a title issues exactly one
write request, a PUT whose body holds the trimmed title and no parent
reference; applied to any snapshot store under the modelled partial-update
semantics, the stored id/parent pairs are unchanged. -/
theorem claim_C7_title_only_update_sends_no_parent (b : Backend) (fuel : Nat) (fid t : String) (pid : JStr)
    (hfid : isHexId32 fid = true) (ht1 : t ≠ "") (ht2 : t.length ≤ 255)
    (hpid : pid.defined = false) :
    ∃ (msg : String) (tr : Trace),
      UpdateFolder.call b fuel (.str fid) (.str t) pid [] = .ok msg tr ∧
      tr.filter Req.isWrite = [Req.putFolder fid ⟨some (jsTrim t), none⟩] ∧
      ∀ store : List Folder,
        (applyTrace store tr).map (fun f => (f.id, f.parent_id)) =
          store.map (fun f => (f.id, f.parent_id)) := by
  have hne : fid ≠ "" := isHexId32_ne_empty hfid
  have hnt : pid ≠ .str fid := by
    cases pid with
    | str p =>
      simp [JStr.defined] at hpid
      subst hpid
      intro hc
      injection hc with h2
      exact hne h2.symm
    | undef => simp
    | null => simp
  have htruthy : pid.truthy = false := by
    cases pid <;> simp_all [JStr.truthy, JStr.defined]
  rw [UpdateFolder.call]
  unfold UpdateFolder.callBody
  rw [validateFolderId_ok hfid, pure_bind,
      validateOptionalTitle_ok (by simp [optionalTitleOk, ht2]), pure_bind,
      validateOptionalId_ok _ (by cases pid <;> simp_all [optionalIdOk, JStr.defined]), pure_bind,
      atLeastOneFolder_ok (by simp [JStr.defined, ht1]), pure_bind,
      if_neg (by simp [htruthy]), pure_bind,
      if_neg hnt, pure_bind]
  have hwrites : ∀ (tr' : Trace), (∀ r ∈ tr', r.isWrite = false) →
      (Req.putFolder fid ⟨some (jsTrim t), none⟩ :: tr').filter Req.isWrite =
        [Req.putFolder fid ⟨some (jsTrim t), none⟩] := by
    intro tr' hr
    simp [List.filter_cons, Req.isWrite, List.filter_eq_nil_iff.mpr (by simpa using hr)]
  have htrace : ∀ (tr' : Trace), (∀ r ∈ tr', r.isWrite = false) →
      ∀ store : List Folder,
        (applyTrace store (Req.putFolder fid ⟨some (jsTrim t), none⟩ :: tr')).map
            (fun f => (f.id, f.parent_id)) =
          store.map (fun f => (f.id, f.parent_id)) := by
    intro tr' hr
    refine applyTrace_map_idparent _ ?_
    intro r hrr
    rcases List.mem_cons.mp hrr with rfl | hmem
    · exact Or.inr ⟨fid, _, rfl, rfl⟩
    · exact Or.inl (hr r hmem)
  cases pid with
  | undef =>
    simp only [JStr.interp, ht1, if_true, ne_eq, not_false_iff, ite_true]
    obtain ⟨msg, tr', hrun, hreads⟩ :=
      updateFolder_putStage b fid ⟨some (jsTrim t), none⟩ (UpdateFolder.catchHandler (.str fid)) []
    rw [List.nil_append] at hrun
    exact ⟨msg, _, hrun, hwrites tr' hreads, htrace tr' hreads⟩
  | null =>
    simp only [JStr.interp, ht1, if_true, ne_eq, not_false_iff, ite_true]
    obtain ⟨msg, tr', hrun, hreads⟩ :=
      updateFolder_putStage b fid ⟨some (jsTrim t), none⟩ (UpdateFolder.catchHandler (.str fid)) []
    rw [List.nil_append] at hrun
    exact ⟨msg, _, hrun, hwrites tr' hreads, htrace tr' hreads⟩
  | str p =>
    have hp : p = "" := by simpa [JStr.defined] using hpid
    subst hp
    simp only [JStr.interp, ht1, if_true, ne_eq, not_false_iff, ite_true]
    obtain ⟨msg, tr', hrun, hreads⟩ :=
      updateFolder_putStage b fid ⟨some (jsTrim t), none⟩ (UpdateFolder.catchHandler (.str fid)) []
    rw [List.nil_append] at hrun
    exact ⟨msg, _, hrun, hwrites tr' hreads, htrace tr' hreads⟩

/-- C7 witness: a concrete title-only update against a concrete store. -/
theorem claim_C7_witness :
    ∃ (msg : String) (tr : Trace),
      UpdateFolder.call (storeBackend [inboxFolder]) 5
          (.str "58a0a29f68bc4141b49c99f5d367638a") (.str " Renamed ") .undef [] =
        .ok msg tr ∧
      tr.filter Req.isWrite =
        [Req.putFolder "58a0a29f68bc4141b49c99f5d367638a" ⟨some (jsTrim " Renamed "), none⟩] ∧
      ∀ store : List Folder,
        (applyTrace store tr).map (fun f => (f.id, f.parent_id)) =
          store.map (fun f => (f.id, f.parent_id)) :=
  claim_C7_title_only_update_sends_no_parent
    (storeBackend [inboxFolder]) 5
    "58a0a29f68bc4141b49c99f5d367638a" " Renamed " .undef
    (by decide) (by decide) (by decide) rfl

theorem iterF_add (b : Backend) (i j : Nat) (p : String) :
    iterF b (i + j) p =
      match iterF b i p with
      | some q => iterF b j q
      | none => none := by
  induction i generalizing p with
  | zero => simp [iterF]
  | succ i ih =>
    have h1 : i + 1 + j = (i + j) + 1 := by omega
    rw [h1]
    show iterF b ((i + j) + 1) p = _
    rw [iterF]
    rcases hg : b.getFolder p with e | og
    · simp [iterF, hg]
    · rcases og with _ | f
      · simp [iterF, hg]
      · simp only [iterF, hg]
        rw [ih]

theorem iterF_prefix {b : Backend} {k : Nat} {p : String} {m : String}
    (h : iterF b k p = some m) {i : Nat} (hi : i ≤ k) :
    ∃ q, iterF b i p = some q := by
  rcases hq : iterF b i p with _ | q
  · exfalso
    have hk : k = i + (k - i) := by omega
    rw [hk, iterF_add, hq] at h
    exact Option.noConfusion h
  · exact ⟨q, rfl⟩

theorem iterF_step {b : Backend} {k : Nat} {p m q : String}
    (h : iterF b k p = some m) {i : Nat} (hi : i < k)
    (hq : iterF b i p = some q) :
    ∃ f, b.getFolder q = Except.ok (some f) ∧ iterF b (i + 1) p = some f.parent_id := by
  obtain ⟨q1, hq1⟩ := iterF_prefix h (by omega : i + 1 ≤ k)
  have h1 : iterF b (i + 1) p =
      match iterF b i p with
      | some r => iterF b 1 r
      | none => none := iterF_add b i 1 p
  rw [hq] at h1
  rcases hg : b.getFolder q with e | og
  · rw [hq1] at h1
    simp [iterF, hg] at h1
  · rcases og with _ | f
    · rw [hq1] at h1
      simp [iterF, hg] at h1
    · refine ⟨f, rfl, ?_⟩
      rw [h1]
      simp [iterF, hg]

theorem iterF_shift {b : Backend} {i j : Nat} {p : String}
    (h : iterF b i p = iterF b j p) (t : Nat) :
    iterF b (i + t) p = iterF b (j + t) p := by
  rw [iterF_add, iterF_add, h]

theorem iterF_first_occurrence_inj {b : Backend} {p fid : String} {n : Nat}
    (hfirst : iterF b n p = some fid)
    (hmin : ∀ i, i < n → iterF b i p ≠ some fid) :
    ∀ i j, i < j → j ≤ n → iterF b i p ≠ iterF b j p := by
  intro i j hij hjn heq
  have hshift := iterF_shift heq (n - j)
  have hj : j + (n - j) = n := by omega
  rw [hj, hfirst] at hshift
  exact hmin (i + (n - j)) (by omega) hshift

theorem checkCircular_succ (b : Backend) (fid : String) (fuel' : Nat) (p : String)
    (visited : List String) (h1 : ¬ p = "") (h2 : p ∉ visited) (h3 : ¬ p = fid) :
    UpdateFolder.checkCircularReference b fid (fuel' + 1) p visited =
      (jsTry
          (api (Req.getFolder p) (b.getFolder p) >>= fun folder => jsFolderParentId folder)
          (fun e =>
            if e.status = some 404 then
              jsThrow ("Parent folder with ID \"" ++ p ++ "\" not found.")
            else jsThrowErr e) >>=
        fun next => UpdateFolder.checkCircularReference b fid fuel' next (visited ++ [p])) := by
  rw [UpdateFolder.checkCircularReference.eq_def]
  rw [if_neg h1, if_neg h2, if_neg h3]

theorem checkCircular_hits_descendant (b : Backend) (fid : String) (hfid : fid ≠ "") :
    ∀ (n : Nat) (p : String) (fuel : Nat) (visited : List String) (s : Trace),
      iterF b n p = some fid →
      (∀ i q, i < n → iterF b i p = some q → q ≠ "") →
      (∀ i q, i ≤ n → iterF b i p = some q → q ∉ visited) →
      (∀ i j, i < j → j ≤ n → iterF b i p ≠ iterF b j p) →
      n ≤ fuel →
      ∃ reads : Trace,
        UpdateFolder.checkCircularReference b fid fuel p visited s =
          .error (.js { message := "Cannot move folder to be its own descendant." })
            (s ++ reads) ∧
        ∀ r ∈ reads, r.isWrite = false := by
  intro n
  induction n with
  | zero =>
    intro p fuel visited s hreach hne hvis hinj hfuel
    have hp : p = fid := by simpa [iterF] using hreach
    subst hp
    refine ⟨[], ?_, by simp⟩
    rw [UpdateFolder.checkCircularReference.eq_def]
    rw [if_neg hfid, if_neg ?hc, if_pos rfl]
    · simp [jsThrow, jsThrowErr]
    case hc =>
      exact hvis 0 p le_rfl (by simp [iterF])
  | succ n ih =>
    intro p fuel visited s hreach hne hvis hinj hfuel
    have hp0 : iterF b 0 p = some p := by simp [iterF]
    have hpne : p ≠ "" := hne 0 p (by omega) hp0
    have hpfid : p ≠ fid := by
      have := hinj 0 (n + 1) (by omega) le_rfl
      rw [hp0, hreach] at this
      simpa using this
    have hpvis : p ∉ visited := hvis 0 p (by omega) hp0
    obtain ⟨f0, hg, hstep1⟩ := iterF_step hreach (by omega : 0 < n + 1) hp0
    have hshift : ∀ i, iterF b (i + 1) p = iterF b i f0.parent_id := by
      intro i
      show iterF b (i + 1) p = _
      rw [iterF, hg]
    cases fuel with
    | zero => omega
    | succ fuel' =>
      have hrec := ih f0.parent_id fuel' (visited ++ [p]) (s ++ [Req.getFolder p])
        (by rw [← hshift n]; exact hreach)
        (by intro i q hi hq; exact hne (i + 1) q (by omega) ((hshift i).trans hq))
        (by
          intro i q hi hq
          have hq' : iterF b (i + 1) p = some q := (hshift i).trans hq
          have h1 : q ∉ visited := hvis (i + 1) q (by omega) hq'
          have h2 : q ≠ p := by
            have := hinj 0 (i + 1) (by omega) (by omega)
            rw [hp0, hq'] at this
            intro he
            exact this (by rw [he])
          simp [h1, h2])
        (by
          intro i j hij hj
          have := hinj (i + 1) (j + 1) (by omega) (by omega)
          rw [hshift i, hshift j] at this
          exact this)
        (by omega)
      obtain ⟨reads', hrun, hreads'⟩ := hrec
      refine ⟨Req.getFolder p :: reads', ?_, ?_⟩
      · rw [checkCircular_succ b fid fuel' p visited hpne hpvis hpfid]
        have hbody : (api (Req.getFolder p) (b.getFolder p) >>=
            fun folder => jsFolderParentId folder) s =
            .ok f0.parent_id (s ++ [Req.getFolder p]) := by
          rw [hg]
          exact run_bind_ok rfl
        rw [run_bind_ok (run_jsTry_ok hbody), hrun]
        simp
      · intro r hr
        rcases List.mem_cons.mp hr with rfl | hmem
        · rfl
        · exact hreads' r hmem

theorem applyTrace_reads (tr : Trace) (h : ∀ r ∈ tr, r.isWrite = false) :
    ∀ store : List Folder, applyTrace store tr = store := by
  induction tr with
  | nil => intro store; rfl
  | cons r tr' ih =>
    intro store
    have hstep : applyTrace store (r :: tr') = applyTrace (applyReq store r) tr' := rfl
    rw [hstep, applyReq_read store r (h r (by simp))]
    exact ih (fun x hx => h x (by simp [hx])) store

/-- C1: when the folder being moved is an ancestor of the proposed new
parent (the backend parent chain from the proposed parent reaches the
folder), update-folder reports the descendant/self-move error, its trace
holds no write request, and any snapshot store is unchanged by the trace. -/
theorem claim_C1_ancestor_move_rejected_without_write (b : Backend) (fuel n : Nat) (fid pid : String) (title : JStr)
    (hfid : isHexId32 fid = true) (hpid : isHexId32 pid = true)
    (htitle : optionalTitleOk title = true)
    (hreach : iterF b n pid = some fid)
    (hchain : ∀ i q, i < n → iterF b i pid = some q → q ≠ "")
    (hfuel : n ≤ fuel) :
    ∃ tr : Trace,
      (UpdateFolder.call b fuel (.str fid) title (.str pid) [] =
          .ok "Error: Cannot move folder to be its own descendant." tr ∨
        UpdateFolder.call b fuel (.str fid) title (.str pid) [] =
          .ok "Error: A folder cannot be moved to itself." tr) ∧
      (∀ r ∈ tr, r.isWrite = false) ∧
      ∀ store : List Folder, applyTrace store tr = store := by
  by_cases hpf : pid = fid
  · refine ⟨[], Or.inr ?_, by simp, fun store => rfl⟩
    subst hpf
    rw [UpdateFolder.call, updateFolder_self_parent_body b fuel pid title hfid htitle,
        jsTry_throw]
    rfl
  · have hex : ∃ k, iterF b k pid = some fid := ⟨n, hreach⟩
    have hn0 : iterF b (Nat.find hex) pid = some fid := Nat.find_spec hex
    have hn0min : ∀ i, i < Nat.find hex → iterF b i pid ≠ some fid :=
      fun i hi => Nat.find_min hex hi
    have hn0le : Nat.find hex ≤ n := Nat.find_min' hex hreach
    have hinj := iterF_first_occurrence_inj hn0 hn0min
    have hne0 : ∀ i q, i < Nat.find hex → iterF b i pid = some q → q ≠ "" :=
      fun i q hi hq => hchain i q (lt_of_lt_of_le hi hn0le) hq
    obtain ⟨reads, hwalk, hreads⟩ :=
      checkCircular_hits_descendant b fid (isHexId32_ne_empty hfid) (Nat.find hex) pid fuel
        [] [] hn0 hne0 (by intro i q _ _; simp) hinj (le_trans hn0le hfuel)
    refine ⟨reads, Or.inl ?_, hreads, fun store => applyTrace_reads reads hreads store⟩
    rw [UpdateFolder.call]
    unfold UpdateFolder.callBody
    rw [validateFolderId_ok hfid, pure_bind,
        validateOptionalTitle_ok htitle, pure_bind,
        validateOptionalId_ok _ (by simp [optionalIdOk, hpid]), pure_bind,
        atLeastOneFolder_ok (by simp [JStr.defined, isHexId32_ne_empty hpid]), pure_bind,
        if_pos (And.intro (by simp [JStr.truthy, isHexId32_ne_empty hpid])
          (by simp [hpf]))]
    simp only [JStr.interp]
    rw [run_jsTry_js (run_bind_error hwalk)]
    simp only [List.nil_append]
    rfl

theorem checkCircular_hits_notfound (b : Backend) (fid : String) (e : JsError)
    (hstatus : e.status = some 404) :
    ∀ (k : Nat) (p : String) (fuel : Nat) (visited : List String) (s : Trace) (M : String),
      iterF b k p = some M →
      b.getFolder M = .error e →
      (∀ i q, i ≤ k → iterF b i p = some q → q ≠ "") →
      (∀ i q, i ≤ k → iterF b i p = some q → q ≠ fid) →
      (∀ i q, i ≤ k → iterF b i p = some q → q ∉ visited) →
      (∀ i j, i < j → j ≤ k → iterF b i p ≠ iterF b j p) →
      k < fuel →
      ∃ reads : Trace,
        UpdateFolder.checkCircularReference b fid fuel p visited s =
          .error (.js { message := "Parent folder with ID \"" ++ M ++ "\" not found." })
            (s ++ reads) ∧
        ∀ r ∈ reads, r.isWrite = false := by
  intro k
  induction k with
  | zero =>
    intro p fuel visited s M hreach hmiss hne hnfid hvis hinj hfuel
    have hp : p = M := by simpa [iterF] using hreach
    subst hp
    have hp0 : iterF b 0 p = some p := by simp [iterF]
    have hpne : p ≠ "" := hne 0 p le_rfl hp0
    have hpfid : p ≠ fid := hnfid 0 p le_rfl hp0
    have hpvis : p ∉ visited := hvis 0 p le_rfl hp0
    cases fuel with
    | zero => omega
    | succ fuel' =>
      refine ⟨[Req.getFolder p], ?_, by simp [Req.isWrite]⟩
      rw [checkCircular_succ b fid fuel' p visited hpne hpvis hpfid]
      have hbody : (api (Req.getFolder p) (b.getFolder p) >>=
          fun folder => jsFolderParentId folder) s =
          .error (.js e) (s ++ [Req.getFolder p]) := by
        rw [hmiss]
        exact run_bind_error rfl
      have h2 : jsTry
          (api (Req.getFolder p) (b.getFolder p) >>= fun folder => jsFolderParentId folder)
          (fun err =>
            if err.status = some 404 then
              jsThrow ("Parent folder with ID \"" ++ p ++ "\" not found.")
            else jsThrowErr err) s =
          .error (.js { message := "Parent folder with ID \"" ++ p ++ "\" not found." })
            (s ++ [Req.getFolder p]) := by
        rw [run_jsTry_js hbody]
        simp [hstatus, jsThrow, jsThrowErr]
      rw [run_bind_error h2]
  | succ k ih =>
    intro p fuel visited s M hreach hmiss hne hnfid hvis hinj hfuel
    have hp0 : iterF b 0 p = some p := by simp [iterF]
    have hpne : p ≠ "" := hne 0 p (by omega) hp0
    have hpfid : p ≠ fid := hnfid 0 p (by omega) hp0
    have hpvis : p ∉ visited := hvis 0 p (by omega) hp0
    obtain ⟨f0, hg, hstep1⟩ := iterF_step hreach (by omega : 0 < k + 1) hp0
    have hshift : ∀ i, iterF b (i + 1) p = iterF b i f0.parent_id := by
      intro i
      show iterF b (i + 1) p = _
      rw [iterF, hg]
    cases fuel with
    | zero => omega
    | succ fuel' =>
      have hrec := ih f0.parent_id fuel' (visited ++ [p]) (s ++ [Req.getFolder p]) M
        (by rw [← hshift k]; exact hreach)
        hmiss
        (by intro i q hi hq; exact hne (i + 1) q (by omega) ((hshift i).trans hq))
        (by intro i q hi hq; exact hnfid (i + 1) q (by omega) ((hshift i).trans hq))
        (by
          intro i q hi hq
          have hq' : iterF b (i + 1) p = some q := (hshift i).trans hq
          have h1 : q ∉ visited := hvis (i + 1) q (by omega) hq'
          have h2 : q ≠ p := by
            have := hinj 0 (i + 1) (by omega) (by omega)
            rw [hp0, hq'] at this
            intro he
            exact this (by rw [he])
          simp [h1, h2])
        (by
          intro i j hij hj
          have := hinj (i + 1) (j + 1) (by omega) (by omega)
          rw [hshift i, hshift j] at this
          exact this)
        (by omega)
      obtain ⟨reads', hrun, hreads'⟩ := hrec
      refine ⟨Req.getFolder p :: reads', ?_, ?_⟩
      · rw [checkCircular_succ b fid fuel' p visited hpne hpvis hpfid]
        have hbody : (api (Req.getFolder p) (b.getFolder p) >>=
            fun folder => jsFolderParentId folder) s =
            .ok f0.parent_id (s ++ [Req.getFolder p]) := by
          rw [hg]
          exact run_bind_ok rfl
        rw [run_bind_ok (run_jsTry_ok hbody), hrun]
        simp
      · intro r hr
        rcases List.mem_cons.mp hr with rfl | hmem
        · rfl
        · exact hreads' r hmem

/-- C9: when a hop of the ancestry walk fetches a folder the backend
reports as missing (404), update-folder returns the parent-not-found error
naming the missing identifier, with no write in its trace, so the mutation
is aborted and any snapshot store is unchanged. -/
theorem claim_C9_walk_parent_not_found_aborts (b : Backend) (e : JsError) (fuel k : Nat) (fid pid M : String) (title : JStr)
    (hfid : isHexId32 fid = true) (hpid : isHexId32 pid = true)
    (htitle : optionalTitleOk title = true)
    (hreachM : iterF b k pid = some M)
    (hmiss : b.getFolder M = .error e) (hstatus : e.status = some 404)
    (hne : ∀ i q, i ≤ k → iterF b i pid = some q → q ≠ "")
    (hnfid : ∀ i q, i ≤ k → iterF b i pid = some q → q ≠ fid)
    (hfuel : k < fuel) :
    ∃ tr : Trace,
      UpdateFolder.call b fuel (.str fid) title (.str pid) [] =
        .ok ("Error: " ++ ("Parent folder with ID \"" ++ M ++ "\" not found.")) tr ∧
      (∀ r ∈ tr, r.isWrite = false) ∧
      ∀ store : List Folder, applyTrace store tr = store := by
  have hp0 : iterF b 0 pid = some pid := by simp [iterF]
  have hinj : ∀ i j, i < j → j ≤ k → iterF b i pid ≠ iterF b j pid := by
    intro i j hij hjk heq
    have hsh := iterF_shift heq (k - j)
    have hjk2 : j + (k - j) = k := by omega
    rw [hjk2, hreachM] at hsh
    obtain ⟨f, hfetch, _⟩ := iterF_step hreachM (by omega : i + (k - j) < k) hsh
    rw [hmiss] at hfetch
    exact Except.noConfusion hfetch
  obtain ⟨reads, hwalk, hreads⟩ :=
    checkCircular_hits_notfound b fid e hstatus k pid fuel [] [] M hreachM hmiss hne hnfid
      (by intro i q _ _; simp) hinj hfuel
  have hmne : ("Parent folder with ID \"" ++ M ++ "\" not found.") ≠ "" := by
    intro hh
    have hlen := congrArg String.length hh
    simp [String.length_append] at hlen
    exact (by decide : "Parent folder with ID \"".length ≠ 0) hlen.1.1
  have hpf : pid ≠ fid := hnfid 0 pid (by omega) hp0
  refine ⟨reads, ?_, hreads, fun store => applyTrace_reads reads hreads store⟩
  rw [UpdateFolder.call]
  unfold UpdateFolder.callBody
  rw [validateFolderId_ok hfid, pure_bind,
      validateOptionalTitle_ok htitle, pure_bind,
      validateOptionalId_ok _ (by simp [optionalIdOk, hpid]), pure_bind,
      atLeastOneFolder_ok (by simp [JStr.defined, isHexId32_ne_empty hpid]), pure_bind,
      if_pos (And.intro (by simp [JStr.truthy, isHexId32_ne_empty hpid])
        (by simp [hpf]))]
  simp only [JStr.interp]
  rw [run_jsTry_js (run_bind_error hwalk)]
  simp only [List.nil_append]
  have hch : UpdateFolder.catchHandler (.str fid)
      { message := "Parent folder with ID \"" ++ M ++ "\" not found." } =
      "Error: " ++ ("Parent folder with ID \"" ++ M ++ "\" not found.") := by
    rw [UpdateFolder.catchHandler]
    rw [if_neg (by simp), if_neg (by simp), if_pos hmne]
  show EStateM.Result.ok (UpdateFolder.catchHandler (.str fid)
      { message := "Parent folder with ID \"" ++ M ++ "\" not found." }) reads = _
  rw [hch]

/-- C1 witness: moving A under C in the concrete chain A <- B <- C. -/
theorem claim_C1_witness :
    ∃ tr : Trace,
      (UpdateFolder.call (storeBackend [folderA, folderB, folderC]) 5
          (.str folderA.id) .undef (.str folderC.id) [] =
          .ok "Error: Cannot move folder to be its own descendant." tr ∨
        UpdateFolder.call (storeBackend [folderA, folderB, folderC]) 5
          (.str folderA.id) .undef (.str folderC.id) [] =
          .ok "Error: A folder cannot be moved to itself." tr) ∧
      (∀ r ∈ tr, r.isWrite = false) ∧
      ∀ store : List Folder, applyTrace store tr = store := by
  refine claim_C1_ancestor_move_rejected_without_write
    (storeBackend [folderA, folderB, folderC]) 5 2 folderA.id folderC.id .undef
    (by decide) (by decide) (by decide) (by decide) ?_ (by omega)
  intro i q hi hq
  interval_cases i
  · have h0 : iterF (storeBackend [folderA, folderB, folderC]) 0 folderC.id =
        some folderC.id := rfl
    rw [h0] at hq
    cases hq
    decide
  · have h1 : iterF (storeBackend [folderA, folderB, folderC]) 1 folderC.id =
        some folderB.id := by decide
    rw [h1] at hq
    cases hq
    decide

/-- C9 witness: relocating under a folder whose parent reference dangles. -/
theorem claim_C9_witness :
    ∃ tr : Trace,
      UpdateFolder.call (storeBackend [folderA, folderD]) 5
          (.str folderA.id) .undef (.str folderD.id) [] =
        .ok ("Error: " ++ ("Parent folder with ID \"" ++
          "ffffffffffffffffffffffffffffffff" ++ "\" not found.")) tr ∧
      (∀ r ∈ tr, r.isWrite = false) ∧
      ∀ store : List Folder, applyTrace store tr = store := by
  refine claim_C9_walk_parent_not_found_aborts (storeBackend [folderA, folderD])
    { message := "Request failed with status code 404", status := some 404 } 5 1
    folderA.id folderD.id "ffffffffffffffffffffffffffffffff" .undef
    (by decide) (by decide) (by decide) rfl rfl rfl ?hne ?hnfid (by omega)
  case hne =>
    intro i q hi hq
    interval_cases i
    · have h0 : iterF (storeBackend [folderA, folderD]) 0 folderD.id =
          some folderD.id := rfl
      rw [h0] at hq
      cases hq
      decide
    · have h1 : iterF (storeBackend [folderA, folderD]) 1 folderD.id =
          some "ffffffffffffffffffffffffffffffff" := by decide
      rw [h1] at hq
      cases hq
      decide
  case hnfid =>
    intro i q hi hq
    interval_cases i
    · have h0 : iterF (storeBackend [folderA, folderD]) 0 folderD.id =
          some folderD.id := rfl
      rw [h0] at hq
      cases hq
      decide
    · have h1 : iterF (storeBackend [folderA, folderD]) 1 folderD.id =
          some "ffffffffffffffffffffffffffffffff" := by decide
      rw [h1] at hq
      cases hq
      decide

/-- C10: when the fetched folder collection has no root-level folder (in
particular when it is empty), the root-group lookup is absent, spreading it
throws, and the operation returns the error text instead of a tree. -/
theorem claim_C10_no_root_group_is_error (b : Backend) (fuel : Nat) (notebooks : List Folder)
    (hok : b.getAllFolders = .ok notebooks)
    (hroot : ∀ nb ∈ notebooks, nb.parent_id ≠ "") :
    ListNotebooks.call b fuel [] =
      .ok ("Error listing notebooks: " ++
          "notebooks is not iterable (cannot read property Symbol(Symbol.iterator))")
        [Req.getAllFolders] := by
  have hgroups : ListNotebooks.notebooksByParentId notebooks "" = none := by
    simp [ListNotebooks.notebooksByParentId, List.isEmpty_iff, List.filter_eq_nil_iff]
    intro nb hnb
    exact hroot nb hnb
  have hbody : (api Req.getAllFolders (Except.ok notebooks) >>= fun nbs =>
      match ListNotebooks.notebooksLines (ListNotebooks.notebooksByParentId nbs) fuel 0
          (ListNotebooks.notebooksByParentId nbs "") with
      | .error e => jsThrowErr e
      | .ok lines => pure (String.join (ListNotebooks.headerLines ++ lines))) [] =
      .error (.js { message :=
        "notebooks is not iterable (cannot read property Symbol(Symbol.iterator))" })
        [Req.getAllFolders] := by
    rw [run_bind_ok (show api Req.getAllFolders (Except.ok notebooks) [] =
      .ok notebooks [Req.getAllFolders] from rfl), hgroups]
    rfl
  rw [ListNotebooks.call, hok, run_jsTry_js hbody]
  rfl

/-- C4: sorting the sibling titles of the example yields bracket-prefixed
titles first, and in general a title whose first literal bracket is mapped
to the character before A sorts strictly before any title starting with an
alphabetic character at or above A, under the modelled locale comparison. -/
theorem claim_C4_bracket_sort_order :
    ListNotebooks.sortNotebooks [bracket0, plainZ, bracket1] = [bracket0, bracket1, plainZ] ∧
    ∀ (a b : Folder) (cs : List Char) (d : Char) (ds : List Char),
      a.title.data = '[' :: cs → b.title.data = d :: ds → d.isAlpha → 'A' ≤ d →
      ListNotebooks.localeCompareLe (ListNotebooks.sortKey a.title)
          (ListNotebooks.sortKey b.title) = true ∧
      ListNotebooks.localeCompareLe (ListNotebooks.sortKey b.title)
          (ListNotebooks.sortKey a.title) = false := by
  constructor
  · decide
  · intro a b cs d ds ha hb halpha hAd
    have hka : (ListNotebooks.sortKey a.title).data = '@' :: cs := by
      simp [ListNotebooks.sortKey, ha, ListNotebooks.replaceFirstChar,
        ListNotebooks.CHARACTER_BEFORE_A]
    have hdnb : d ≠ '[' := by
      intro hd
      subst hd
      simp [Char.isAlpha, Char.isUpper, Char.isLower] at halpha
    have hkb : (ListNotebooks.sortKey b.title).data =
        d :: ListNotebooks.replaceFirstChar ds '[' ListNotebooks.CHARACTER_BEFORE_A := by
      simp [ListNotebooks.sortKey, hb, ListNotebooks.replaceFirstChar, hdnb]
    have hlt : ('@' : Char) < d := lt_of_lt_of_le (by decide : ('@' : Char) < 'A') hAd
    constructor
    · rw [ListNotebooks.localeCompareLe, hka, hkb]
      simp [ListNotebooks.lexLe, hlt]
    · rw [ListNotebooks.localeCompareLe, hka, hkb]
      simp [ListNotebooks.lexLe, hlt, asymm hlt]

/-- C10 witness: the empty folder collection. -/
theorem claim_C10_witness :
    ListNotebooks.call (okFoldersBackend []) 10 [] =
      .ok ("Error listing notebooks: " ++
          "notebooks is not iterable (cannot read property Symbol(Symbol.iterator))")
        [Req.getAllFolders] :=
  claim_C10_no_root_group_is_error (okFoldersBackend []) 10 [] rfl (by intro nb h; cases h)

theorem getAllItems_ok_from {α : Type} (fetch : Nat → Except JsError (List α × Bool))
    (N : Nat) (items : Nat → List α)
    (hfetch : ∀ i, 1 ≤ i → i ≤ N → fetch i = .ok (items i, decide (i < N))) :
    ∀ (fuel p : Nat) (acc : List α), 1 ≤ p → p ≤ N → N - p < fuel →
      getAllItems fetch fuel p acc = .ok (acc ++ (List.range' p (N - p + 1)).flatMap items) := by
  intro fuel
  induction fuel with
  | zero => intro p acc _ _ h; omega
  | succ f ih =>
    intro p acc hp1 hpN hfuel
    rw [getAllItems, hfetch p hp1 hpN]
    by_cases hlt : p < N
    · simp only [decide_eq_true hlt, if_true]
      rw [ih (p + 1) (acc ++ items p) (by omega) (by omega) (by omega)]
      conv_rhs => rw [show N - p + 1 = (N - (p + 1) + 1) + 1 from by omega, List.range'_succ]
      simp [List.append_assoc]
    · simp only [decide_eq_false hlt, Bool.false_eq_true, if_false]
      have hr : N - p + 1 = 1 := by omega
      rw [hr]
      simp [List.range']

theorem getAllItems_err_from {α : Type} (fetch : Nat → Except JsError (List α × Bool))
    (j : Nat) (items : Nat → List α) (e : JsError)
    (hok : ∀ i, 1 ≤ i → i < j → fetch i = .ok (items i, true))
    (herr : fetch j = .error e) :
    ∀ (fuel p : Nat) (acc : List α), 1 ≤ p → p ≤ j → j - p < fuel →
      getAllItems fetch fuel p acc = .error (.js e) := by
  intro fuel
  induction fuel with
  | zero => intro p acc _ _ h; omega
  | succ f ih =>
    intro p acc hp1 hpj hfuel
    by_cases hpe : p = j
    · subst hpe
      rw [getAllItems, herr]
    · rw [getAllItems, hok p hp1 (by omega)]
      simp only [if_true]
      exact ih (p + 1) (acc ++ items p) (by omega) (by omega) (by omega)

/-- C5: the Paginated Collection Fetcher returns the concatenation of all
backend pages in their original order — with pages 1..N and the
continuation flag set exactly below N it returns the ordered flattening —
and if any page request fails it returns that error, never a truncated
collection. -/
theorem claim_C5_fetcher_concatenates_pages_or_errors :
    (∀ (α : Type) (fetch : Nat → Except JsError (List α × Bool)) (N fuel : Nat)
        (items : Nat → List α), 1 ≤ N → N ≤ fuel →
      (∀ i, 1 ≤ i → i ≤ N → fetch i = .ok (items i, decide (i < N))) →
      getAllItems fetch fuel 1 [] = .ok ((List.range' 1 N).flatMap items)) ∧
    (∀ (α : Type) (fetch : Nat → Except JsError (List α × Bool)) (j fuel : Nat)
        (items : Nat → List α) (e : JsError), 1 ≤ j → j ≤ fuel →
      (∀ i, 1 ≤ i → i < j → fetch i = .ok (items i, true)) →
      fetch j = .error e →
      getAllItems fetch fuel 1 [] = .error (.js e)) := by
  constructor
  · intro α fetch N fuel items hN hfuel hfetch
    have := getAllItems_ok_from fetch N items hfetch fuel 1 [] le_rfl hN (by omega)
    rw [this]
    have hr : N - 1 + 1 = N := by omega
    rw [hr]
    simp
  · intro α fetch j fuel items e hj hfuel hok herr
    exact getAllItems_err_from fetch j items e hok herr fuel 1 [] le_rfl hj (by omega)

set_option maxRecDepth 8000 in
/-- C5 witness: three pages of sizes 100, 100 and 37 yield the 237-item
sequence in order; a failing second page yields the error. -/
theorem claim_C5_witness :
    getAllItems examplePagedFetch 5 1 [] = .ok (List.range 237) ∧
    getAllItems failingPagedFetch 5 1 [] = .error (.js { message := "socket hang up" }) := by
  constructor
  · have h := claim_C5_fetcher_concatenates_pages_or_errors.1 Nat examplePagedFetch 3 5 examplePageItems (by omega) (by omega)
      (by intro i h1 h2; interval_cases i <;> rfl)
    rw [h]
    rfl
  · exact claim_C5_fetcher_concatenates_pages_or_errors.2 Nat failingPagedFetch 2 5 examplePageItems { message := "socket hang up" }
      (by omega) (by omega) (by intro i h1 h2; interval_cases i <;> rfl) rfl

namespace ListNotebooks

theorem insertBy_perm (le : Folder → Folder → Bool) (x : Folder) :
    ∀ l : List Folder, (insertBy le x l).Perm (x :: l) := by
  intro l
  induction l with
  | nil => exact List.Perm.refl _
  | cons y ys ih =>
    rw [insertBy]
    by_cases h : le y x = true
    · simp only [h, if_true]
      exact (ih.cons y).trans (List.Perm.swap x y ys)
    · simp [h]

theorem sortNotebooks_perm (l : List Folder) : (sortNotebooks l).Perm l := by
  have key : ∀ (l acc : List Folder),
      (l.foldl (fun acc nb =>
        insertBy (fun a b => localeCompareLe (sortKey a.title) (sortKey b.title)) nb acc)
        acc).Perm (acc ++ l) := by
    intro l
    induction l with
    | nil => intro acc; simp
    | cons x xs ih =>
      intro acc
      rw [List.foldl_cons]
      refine ((ih _).trans ?_)
      refine (((insertBy_perm _ x acc).append_right xs).trans ?_)
      exact List.perm_middle.symm.trans (List.Perm.refl _) |>.symm.symm
  simpa using key l []

theorem sortNotebooks_mem {l : List Folder} {x : Folder} :
    x ∈ sortNotebooks l ↔ x ∈ l :=
  (sortNotebooks_perm l).mem_iff

theorem sortNotebooks_nodup {l : List Folder} (h : l.Nodup) :
    (sortNotebooks l).Nodup :=
  ((sortNotebooks_perm l).nodup_iff).2 h

theorem groups_eq {ns : List Folder} {k : String} {g : List Folder}
    (h : notebooksByParentId ns k = some g) :
    g = ns.filter (fun nb => nb.parent_id = k) ∧ g ≠ [] := by
  unfold notebooksByParentId at h
  by_cases he : (ns.filter (fun nb => nb.parent_id = k)).isEmpty = true
  · simp only [he, if_true] at h
    exact absurd h (by simp)
  · simp only [he, if_false] at h
    cases h
    exact ⟨rfl, by simpa [List.isEmpty_iff] using he⟩

theorem mem_groups {ns : List Folder} {k : String} {g : List Folder} {nb : Folder}
    (h : notebooksByParentId ns k = some g) :
    nb ∈ g ↔ nb ∈ ns ∧ nb.parent_id = k := by
  rw [(groups_eq h).1]
  simp [List.mem_filter]

theorem groups_of_mem {ns : List Folder} {nb : Folder} (h : nb ∈ ns) :
    ∃ g, notebooksByParentId ns nb.parent_id = some g ∧ nb ∈ g := by
  have hf : nb ∈ ns.filter (fun x => x.parent_id = nb.parent_id) := by
    simp [List.mem_filter, h]
  refine ⟨ns.filter (fun x => x.parent_id = nb.parent_id), ?_, hf⟩
  unfold notebooksByParentId
  have : (ns.filter (fun x => x.parent_id = nb.parent_id)).isEmpty = false := by
    rw [List.isEmpty_eq_false_iff_exists_mem]
    exact ⟨nb, hf⟩
  simp [this]

theorem lookupFolder_some {ns : List Folder} {k : String} {f : Folder}
    (h : lookupFolder ns k = some f) : f ∈ ns ∧ f.id = k := by
  unfold lookupFolder at h
  refine ⟨List.mem_of_find?_eq_some h, ?_⟩
  have := List.find?_some h
  simpa using this

theorem lookupFolder_of_mem_ids {ns : List Folder} {k : String}
    (h : k ∈ folderIds ns) : ∃ f, lookupFolder ns k = some f ∧ f ∈ ns ∧ f.id = k := by
  unfold folderIds at h
  obtain ⟨f, hf, hid⟩ := List.mem_map.1 h
  have : (lookupFolder ns k).isSome = true := by
    unfold lookupFolder
    rw [List.find?_isSome]
    exact ⟨f, hf, by simpa using hid⟩
  obtain ⟨g, hg⟩ := Option.isSome_iff_exists.1 this
  exact ⟨g, hg, lookupFolder_some hg⟩

theorem lookupFolder_self {ns : List Folder} (hnd : (folderIds ns).Nodup)
    {nb : Folder} (h : nb ∈ ns) : lookupFolder ns nb.id = some nb := by
  obtain ⟨f, hfind, hfm, hfid⟩ := lookupFolder_of_mem_ids (List.mem_map_of_mem _ h)
  have : f = nb := List.inj_on_of_nodup_map hnd hfm h hfid
  rwa [this] at hfind

theorem empty_not_mem_ids {ns : List Folder} (hne : ∀ nb ∈ ns, nb.id ≠ "") :
    "" ∉ folderIds ns := by
  intro h
  obtain ⟨f, hf, hid⟩ := List.mem_map.1 h
  exact hne f hf hid

theorem parentIdOf_empty {ns : List Folder} (hne : ∀ nb ∈ ns, nb.id ≠ "") :
    parentIdOf ns "" = "" := by
  unfold parentIdOf
  cases hl : lookupFolder ns "" with
  | none => rfl
  | some f =>
    obtain ⟨hfm, hfid⟩ := lookupFolder_some hl
    exact absurd hfid (hne f hfm)

theorem ancIter_empty {ns : List Folder} (hne : ∀ nb ∈ ns, nb.id ≠ "") :
    ∀ j, ancIter ns j "" = "" := by
  intro j
  induction j with
  | zero => rfl
  | succ j ih => rw [ancIter, parentIdOf_empty hne]; exact ih

theorem ancIter_add (ns : List Folder) (i j : Nat) (k : String) :
    ancIter ns (i + j) k = ancIter ns j (ancIter ns i k) := by
  induction i generalizing k with
  | zero => simp [ancIter]
  | succ i ih =>
    have h1 : i + 1 + j = (i + j) + 1 := by omega
    rw [h1, ancIter, ancIter, ih]

end ListNotebooks

namespace ListNotebooks

theorem id_inj {ns : List Folder} (hnd : (folderIds ns).Nodup)
    {a b : Folder} (ha : a ∈ ns) (hb : b ∈ ns) (h : a.id = b.id) : a = b :=
  List.inj_on_of_nodup_map hnd ha hb h

theorem anc_rank {ns : List Folder} {rank : String → Nat}
    (hrank : ∀ nb ∈ ns, nb.parent_id ≠ "" → rank nb.parent_id < rank nb.id)
    (hne : ∀ nb ∈ ns, nb.id ≠ "")
    (hclosed : ∀ nb ∈ ns, nb.parent_id = "" ∨ nb.parent_id ∈ folderIds ns) :
    ∀ j k, k ∈ folderIds ns → ancIter ns (j + 1) k ∈ folderIds ns →
      rank (ancIter ns (j + 1) k) < rank k := by
  intro j
  induction j with
  | zero =>
    intro k hk hanc
    obtain ⟨f, hfind, hfm, hfid⟩ := lookupFolder_of_mem_ids hk
    have hstep : ancIter ns 1 k = f.parent_id := by
      show ancIter ns 0 (parentIdOf ns k) = f.parent_id
      unfold ancIter parentIdOf
      rw [hfind]
    rw [hstep] at hanc ⊢
    have hpne : f.parent_id ≠ "" := fun he => empty_not_mem_ids hne (he ▸ hanc)
    have := hrank f hfm hpne
    rwa [hfid] at this
  | succ j ih =>
    intro k hk hanc
    obtain ⟨f, hfind, hfm, hfid⟩ := lookupFolder_of_mem_ids hk
    have hpar : parentIdOf ns k = f.parent_id := by unfold parentIdOf; rw [hfind]
    have hstep : ancIter ns (j + 2) k = ancIter ns (j + 1) f.parent_id := by
      show ancIter ns (j + 1) (parentIdOf ns k) = _
      rw [hpar]
    rw [hstep] at hanc ⊢
    by_cases hp : f.parent_id ∈ folderIds ns
    · have h1 := ih f.parent_id hp hanc
      have hpne : f.parent_id ≠ "" := fun he => empty_not_mem_ids hne (he ▸ hp)
      have h2 := hrank f hfm hpne
      rw [hfid] at h2
      omega
    · have hpe : f.parent_id = "" := (hclosed f hfm).resolve_right hp
      rw [hpe, ancIter_empty hne] at hanc
      exact absurd hanc (empty_not_mem_ids hne)

theorem mem_ids_of_mem {ns : List Folder} {nb : Folder} (h : nb ∈ ns) :
    nb.id ∈ folderIds ns := List.mem_map_of_mem _ h

theorem below_irrefl {ns : List Folder} {rank : String → Nat}
    (hrank : ∀ nb ∈ ns, nb.parent_id ≠ "" → rank nb.parent_id < rank nb.id)
    (hne : ∀ nb ∈ ns, nb.id ≠ "")
    (hclosed : ∀ nb ∈ ns, nb.parent_id = "" ∨ nb.parent_id ∈ folderIds ns)
    {x : Folder} (hx : x ∈ ns) : ¬ StrictBelow ns x x := by
  rintro ⟨j, hj⟩
  have hmem : ancIter ns (j + 1) x.id ∈ folderIds ns := by
    rw [hj]; exact mem_ids_of_mem hx
  have := anc_rank hrank hne hclosed j x.id (mem_ids_of_mem hx) hmem
  rw [hj] at this
  omega

theorem below_of_parent {ns : List Folder} (hnd : (folderIds ns).Nodup)
    {x y : Folder} (hy : y ∈ ns) (h : y.parent_id = x.id) :
    StrictBelow ns y x := by
  refine ⟨0, ?_⟩
  show ancIter ns 0 (parentIdOf ns y.id) = x.id
  unfold ancIter parentIdOf
  rw [lookupFolder_self hnd hy]
  exact h

theorem below_trans_parent {ns : List Folder} (hnd : (folderIds ns).Nodup)
    {c x y : Folder} (hb : StrictBelow ns c y) (hy : y ∈ ns)
    (h : y.parent_id = x.id) : StrictBelow ns c x := by
  obtain ⟨j, hj⟩ := hb
  refine ⟨j + 1, ?_⟩
  have : ancIter ns (j + 1 + 1) c.id = ancIter ns 1 (ancIter ns (j + 1) c.id) :=
    ancIter_add ns (j + 1) 1 c.id
  rw [this, hj]
  show ancIter ns 0 (parentIdOf ns y.id) = x.id
  unfold ancIter parentIdOf
  rw [lookupFolder_self hnd hy]
  exact h

theorem sibling_not_below {ns : List Folder} {rank : String → Nat}
    (hnd : (folderIds ns).Nodup)
    (hrank : ∀ nb ∈ ns, nb.parent_id ≠ "" → rank nb.parent_id < rank nb.id)
    (hne : ∀ nb ∈ ns, nb.id ≠ "")
    (hclosed : ∀ nb ∈ ns, nb.parent_id = "" ∨ nb.parent_id ∈ folderIds ns)
    {x y : Folder} (hx : x ∈ ns) (hy : y ∈ ns)
    (hsib : x.parent_id = y.parent_id) : ¬ StrictBelow ns x y := by
  rintro ⟨j, hj⟩
  have hpar : parentIdOf ns x.id = x.parent_id := by
    unfold parentIdOf; rw [lookupFolder_self hnd hx]
  by_cases hk : x.parent_id = ""
  · have : ancIter ns (j + 1) x.id = "" := by
      show ancIter ns j (parentIdOf ns x.id) = ""
      rw [hpar, hk, ancIter_empty hne]
    rw [hj] at this
    exact hne y hy this
  · cases j with
    | zero =>
      have h1 : y.id = x.parent_id := by
        rw [← hj]
        show parentIdOf ns x.id = x.parent_id
        exact hpar
      have h2 := hrank y hy (hsib ▸ hk)
      rw [← hsib, ← h1] at h2
      omega
    | succ j' =>
      have hkm : x.parent_id ∈ folderIds ns := (hclosed x hx).resolve_left hk
      have hstep : ancIter ns (j' + 2) x.id = ancIter ns (j' + 1) x.parent_id := by
        show ancIter ns (j' + 1) (parentIdOf ns x.id) = _
        rw [hpar]
      rw [hstep] at hj
      have h1 := anc_rank hrank hne hclosed j' x.parent_id hkm
        (hj ▸ mem_ids_of_mem hy)
      rw [hj] at h1
      have h2 := hrank y hy (hsib ▸ hk)
      rw [← hsib] at h2
      omega

theorem two_siblings_below_aux {ns : List Folder} {rank : String → Nat}
    (hnd : (folderIds ns).Nodup)
    (hrank : ∀ nb ∈ ns, nb.parent_id ≠ "" → rank nb.parent_id < rank nb.id)
    (hne : ∀ nb ∈ ns, nb.id ≠ "")
    (hclosed : ∀ nb ∈ ns, nb.parent_id = "" ∨ nb.parent_id ∈ folderIds ns)
    {x y c : Folder} (hx : x ∈ ns) (hy : y ∈ ns)
    (hsib : x.parent_id = y.parent_id) {i j : Nat} (hij : i < j)
    (hxi : ancIter ns (i + 1) c.id = x.id) (hyj : ancIter ns (j + 1) c.id = y.id) :
    False := by
  have hsplit : ancIter ns (j + 1) c.id = ancIter ns (j - i) x.id := by
    have h1 : j + 1 = (i + 1) + (j - i) := by omega
    rw [h1, ancIter_add, hxi]
  have hb : StrictBelow ns x y := by
    refine ⟨j - i - 1, ?_⟩
    have h2 : j - i - 1 + 1 = j - i := by omega
    rw [h2, ← hsplit, hyj]
  exact sibling_not_below hnd hrank hne hclosed hx hy hsib hb

theorem two_siblings_below {ns : List Folder} {rank : String → Nat}
    (hnd : (folderIds ns).Nodup)
    (hrank : ∀ nb ∈ ns, nb.parent_id ≠ "" → rank nb.parent_id < rank nb.id)
    (hne : ∀ nb ∈ ns, nb.id ≠ "")
    (hclosed : ∀ nb ∈ ns, nb.parent_id = "" ∨ nb.parent_id ∈ folderIds ns)
    {x y c : Folder} (hx : x ∈ ns) (hy : y ∈ ns)
    (hsib : x.parent_id = y.parent_id) (hxy : x ≠ y)
    (hbx : StrictBelow ns c x) (hby : StrictBelow ns c y) : False := by
  obtain ⟨i, hi⟩ := hbx
  obtain ⟨j, hj⟩ := hby
  rcases Nat.lt_trichotomy i j with h | h | h
  · exact two_siblings_below_aux hnd hrank hne hclosed hx hy hsib h hi hj
  · subst h
    rw [hi] at hj
    exact hxy (id_inj hnd hx hy hj)
  · exact two_siblings_below_aux hnd hrank hne hclosed hy hx hsib.symm h hj hi

end ListNotebooks

namespace ListNotebooks

theorem stackErr_def : ({ message := "Maximum call stack size exceeded" } : JsError) =
    { message := "Maximum call stack size exceeded" } := rfl

theorem visitStep_cons_eq (G : String → Option (List Folder))
    (child : Nat → List Folder → Except JsError (List (Nat × Folder)))
    (ind : Nat) (nb : Folder) (rest : List Folder) :
    visitStep G child ind (nb :: rest) =
      match (match G nb.id with
             | none => Except.ok []
             | some c => child (ind + 2) (sortNotebooks c)) with
      | .error e => .error e
      | .ok childVisits =>
        match visitStep G child ind rest with
        | .error e => .error e
        | .ok restVisits => .ok ((ind, nb) :: (childVisits ++ restVisits)) := rfl

theorem renderVisits_zero (G : String → Option (List Folder)) :
    renderVisits G 0 = visitStep G
      (fun _ _ => .error { message := "Maximum call stack size exceeded" }) := rfl

theorem renderVisits_succ (G : String → Option (List Folder)) (f : Nat) :
    renderVisits G (f + 1) = visitStep G (renderVisits G f) := rfl

theorem renderVisits_nil (G : String → Option (List Folder)) (fuel ind : Nat) :
    renderVisits G fuel ind [] = .ok [] := by
  cases fuel <;> rfl

theorem renderVisits_cons_ok {G : String → Option (List Folder)} {fuel ind : Nat}
    {nb : Folder} {rest : List Folder} {vs : List (Nat × Folder)}
    (h : renderVisits G fuel ind (nb :: rest) = .ok vs) :
    ∃ childVs restVs, vs = (ind, nb) :: (childVs ++ restVs) ∧
      renderVisits G fuel ind rest = .ok restVs ∧
      ((G nb.id = none ∧ childVs = []) ∨
       ∃ c f, G nb.id = some c ∧ fuel = f + 1 ∧
         renderVisits G f (ind + 2) (sortNotebooks c) = .ok childVs) := by
  cases fuel with
  | zero =>
    rw [renderVisits_zero, visitStep_cons_eq] at h
    cases hG : G nb.id with
    | none =>
      rw [hG] at h
      cases hr : visitStep G (fun _ _ =>
          .error { message := "Maximum call stack size exceeded" }) ind rest with
      | error e => rw [hr] at h; exact absurd h (by simp)
      | ok restVs =>
        rw [hr] at h
        simp only [Except.ok.injEq] at h
        exact ⟨[], restVs, h.symm, by rw [renderVisits_zero]; exact hr, Or.inl ⟨rfl, rfl⟩⟩
    | some c =>
      rw [hG] at h
      exact absurd h (by simp)
  | succ f =>
    rw [renderVisits_succ, visitStep_cons_eq] at h
    cases hG : G nb.id with
    | none =>
      rw [hG] at h
      cases hr : visitStep G (renderVisits G f) ind rest with
      | error e => rw [hr] at h; exact absurd h (by simp)
      | ok restVs =>
        rw [hr] at h
        simp only [Except.ok.injEq] at h
        exact ⟨[], restVs, h.symm, by rw [renderVisits_succ]; exact hr, Or.inl ⟨rfl, rfl⟩⟩
    | some c =>
      rw [hG] at h
      dsimp only at h
      cases hc : renderVisits G f (ind + 2) (sortNotebooks c) with
      | error e => rw [hc] at h; exact absurd h (by simp)
      | ok childVs =>
        rw [hc] at h
        cases hr : visitStep G (renderVisits G f) ind rest with
        | error e => rw [hr] at h; exact absurd h (by simp)
        | ok restVs =>
          rw [hr] at h
          simp only [Except.ok.injEq] at h
          exact ⟨childVs, restVs, h.symm, by rw [renderVisits_succ]; exact hr,
            Or.inr ⟨c, f, rfl, rfl, hc⟩⟩

theorem renderVisits_cons_build {G : String → Option (List Folder)} {fuel ind : Nat}
    {nb : Folder} {rest : List Folder} {childVs restVs : List (Nat × Folder)}
    (hrest : renderVisits G fuel ind rest = .ok restVs)
    (hchild : (G nb.id = none ∧ childVs = []) ∨
      ∃ c f, G nb.id = some c ∧ fuel = f + 1 ∧
        renderVisits G f (ind + 2) (sortNotebooks c) = .ok childVs) :
    renderVisits G fuel ind (nb :: rest) = .ok ((ind, nb) :: (childVs ++ restVs)) := by
  rcases hchild with ⟨hG, hcv⟩ | ⟨c, f, hG, hf, hc⟩
  · subst hcv
    cases fuel with
    | zero =>
      rw [renderVisits_zero, visitStep_cons_eq, hG]
      rw [renderVisits_zero] at hrest
      rw [hrest]
    | succ f =>
      rw [renderVisits_succ, visitStep_cons_eq, hG]
      rw [renderVisits_succ] at hrest
      rw [hrest]
  · subst hf
    rw [renderVisits_succ] at hrest ⊢
    rw [visitStep_cons_eq, hG]
    dsimp only
    rw [hc, hrest]

end ListNotebooks

namespace ListNotebooks

theorem visits_below {ns : List Folder} (hnd : (folderIds ns).Nodup) :
    ∀ fuel ind l vs, renderVisits (notebooksByParentId ns) fuel ind l = .ok vs →
      ∀ p ∈ vs, ∃ x ∈ l, p.2 = x ∨ StrictBelow ns p.2 x := by
  intro fuel
  induction fuel using Nat.strong_induction_on with
  | _ fuel ihf =>
    intro ind l
    induction l with
    | nil =>
      intro vs h
      rw [renderVisits_nil] at h
      cases h
      intro p hp
      exact absurd hp (by simp)
    | cons nb rest ihl =>
      intro vs h
      obtain ⟨childVs, restVs, hvs, hrest, hchild⟩ := renderVisits_cons_ok h
      subst hvs
      intro p hp
      rcases List.mem_cons.1 hp with hp | hp
      · exact ⟨nb, List.mem_cons_self nb rest, Or.inl (by rw [hp])⟩
      rcases List.mem_append.1 hp with hp | hp
      · rcases hchild with ⟨hG, hcv⟩ | ⟨c, f, hG, hf, hc⟩
        · rw [hcv] at hp
          exact absurd hp (by simp)
        · subst hf
          obtain ⟨y, hy, hpy⟩ := ihf f (by omega) (ind + 2) (sortNotebooks c) childVs hc p hp
          have hyc : y ∈ ns ∧ y.parent_id = nb.id :=
            (mem_groups hG).1 (sortNotebooks_mem.1 hy)
          refine ⟨nb, List.mem_cons_self nb rest, Or.inr ?_⟩
          rcases hpy with hpy | hpy
          · rw [hpy]
            exact below_of_parent hnd hyc.1 hyc.2
          · exact below_trans_parent hnd hpy hyc.1 hyc.2
      · obtain ⟨x, hx, hpx⟩ := ihl restVs hrest p hp
        exact ⟨x, List.mem_cons_of_mem nb hx, hpx⟩

theorem visits_mem {ns : List Folder} :
    ∀ fuel ind l vs, (∀ x ∈ l, x ∈ ns) →
      renderVisits (notebooksByParentId ns) fuel ind l = .ok vs →
      ∀ p ∈ vs, p.2 ∈ ns := by
  intro fuel
  induction fuel using Nat.strong_induction_on with
  | _ fuel ihf =>
    intro ind l
    induction l with
    | nil =>
      intro vs _ h
      rw [renderVisits_nil] at h
      cases h
      intro p hp
      exact absurd hp (by simp)
    | cons nb rest ihl =>
      intro vs hl h
      obtain ⟨childVs, restVs, hvs, hrest, hchild⟩ := renderVisits_cons_ok h
      subst hvs
      intro p hp
      rcases List.mem_cons.1 hp with hp | hp
      · rw [hp]
        exact hl nb (List.mem_cons_self nb rest)
      rcases List.mem_append.1 hp with hp | hp
      · rcases hchild with ⟨hG, hcv⟩ | ⟨c, f, hG, hf, hc⟩
        · rw [hcv] at hp
          exact absurd hp (by simp)
        · subst hf
          exact ihf f (by omega) (ind + 2) (sortNotebooks c) childVs
            (fun x hx => ((mem_groups hG).1 (sortNotebooks_mem.1 hx)).1) hc p hp
      · exact ihl restVs (fun x hx => hl x (List.mem_cons_of_mem nb hx)) hrest p hp

theorem mem_visits_of_mem_list {G : String → Option (List Folder)} :
    ∀ fuel ind l vs, renderVisits G fuel ind l = .ok vs →
      ∀ x ∈ l, ∃ i, (i, x) ∈ vs := by
  intro fuel ind l
  induction l with
  | nil =>
    intro vs _ x hx
    exact absurd hx (by simp)
  | cons nb rest ihl =>
    intro vs h x hx
    obtain ⟨childVs, restVs, hvs, hrest, _⟩ := renderVisits_cons_ok h
    subst hvs
    rcases List.mem_cons.1 hx with hx | hx
    · exact ⟨ind, by rw [hx]; exact List.mem_cons_self _ _⟩
    · obtain ⟨i, hi⟩ := ihl restVs hrest x hx
      exact ⟨i, List.mem_cons_of_mem _ (List.mem_append.2 (Or.inr hi))⟩

theorem visits_closed {ns : List Folder} :
    ∀ fuel ind l vs, renderVisits (notebooksByParentId ns) fuel ind l = .ok vs →
      ∀ q ∈ vs, ∀ c, notebooksByParentId ns (Prod.snd q).id = some c →
      ∀ y ∈ c, ∃ i, (i, y) ∈ vs := by
  intro fuel
  induction fuel using Nat.strong_induction_on with
  | _ fuel ihf =>
    intro ind l
    induction l with
    | nil =>
      intro vs h q hq
      rw [renderVisits_nil] at h
      cases h
      exact absurd hq (by simp)
    | cons nb rest ihl =>
      intro vs h q hq c hc y hy
      obtain ⟨childVs, restVs, hvs, hrest, hchild⟩ := renderVisits_cons_ok h
      subst hvs
      rcases List.mem_cons.1 hq with hq | hq
      · rcases hchild with ⟨hG, _⟩ | ⟨c', f, hG, hf, hcv⟩
        · rw [hq] at hc
          rw [hG] at hc
          exact absurd hc (by simp)
        · subst hf
          rw [hq] at hc
          rw [hG] at hc
          injection hc with hcc
          subst hcc
          obtain ⟨i, hi⟩ := mem_visits_of_mem_list f (ind + 2) (sortNotebooks c') childVs
            hcv y (sortNotebooks_mem.2 hy)
          exact ⟨i, List.mem_cons_of_mem _ (List.mem_append.2 (Or.inl hi))⟩
      rcases List.mem_append.1 hq with hq | hq
      · rcases hchild with ⟨_, hcv⟩ | ⟨c', f, hG, hf, hcv⟩
        · rw [hcv] at hq
          exact absurd hq (by simp)
        · subst hf
          obtain ⟨i, hi⟩ := ihf f (by omega) (ind + 2) (sortNotebooks c') childVs hcv
            q hq c hc y hy
          exact ⟨i, List.mem_cons_of_mem _ (List.mem_append.2 (Or.inl hi))⟩
      · obtain ⟨i, hi⟩ := ihl restVs hrest q hq c hc y hy
        exact ⟨i, List.mem_cons_of_mem _ (List.mem_append.2 (Or.inr hi))⟩

end ListNotebooks

namespace ListNotebooks

theorem child_visits_below {ns : List Folder} (hnd : (folderIds ns).Nodup)
    {nb : Folder} {c : List Folder} {f ind : Nat} {childVs : List (Nat × Folder)}
    (hG : notebooksByParentId ns nb.id = some c)
    (hc : renderVisits (notebooksByParentId ns) f ind (sortNotebooks c) = .ok childVs) :
    ∀ p ∈ childVs, StrictBelow ns p.2 nb := by
  intro p hp
  obtain ⟨y, hy, hpy⟩ := visits_below hnd f ind (sortNotebooks c) childVs hc p hp
  have hyc : y ∈ ns ∧ y.parent_id = nb.id := (mem_groups hG).1 (sortNotebooks_mem.1 hy)
  rcases hpy with hpy | hpy
  · rw [hpy]
    exact below_of_parent hnd hyc.1 hyc.2
  · exact below_trans_parent hnd hpy hyc.1 hyc.2

theorem visits_ok {ns : List Folder} {rank : String → Nat} {R : Nat}
    (hrank : ∀ nb ∈ ns, nb.parent_id ≠ "" → rank nb.parent_id < rank nb.id)
    (hne : ∀ nb ∈ ns, nb.id ≠ "")
    (hR : ∀ nb ∈ ns, rank nb.id ≤ R) :
    ∀ fuel ind l, (∀ x ∈ l, x ∈ ns) → (∀ x ∈ l, R < rank x.id + fuel) →
      ∃ vs, renderVisits (notebooksByParentId ns) fuel ind l = .ok vs := by
  intro fuel
  induction fuel using Nat.strong_induction_on with
  | _ fuel ihf =>
    intro ind l
    induction l with
    | nil =>
      intro _ _
      exact ⟨[], renderVisits_nil _ _ _⟩
    | cons nb rest ihl =>
      intro hl hfuel
      obtain ⟨restVs, hrest⟩ := ihl (fun x hx => hl x (List.mem_cons_of_mem nb hx))
        (fun x hx => hfuel x (List.mem_cons_of_mem nb hx))
      cases hG : notebooksByParentId ns nb.id with
      | none =>
        exact ⟨(ind, nb) :: ([] ++ restVs),
          renderVisits_cons_build hrest (Or.inl ⟨hG, rfl⟩)⟩
      | some c =>
        cases fuel with
        | zero =>
          have h1 := hfuel nb (List.mem_cons_self nb rest)
          have h2 := hR nb (hl nb (List.mem_cons_self nb rest))
          omega
        | succ f =>
          have hchild : ∃ childVs, renderVisits (notebooksByParentId ns) f (ind + 2)
              (sortNotebooks c) = .ok childVs := by
            apply ihf f (by omega)
            · intro x hx
              exact ((mem_groups hG).1 (sortNotebooks_mem.1 hx)).1
            · intro x hx
              have hxc := (mem_groups hG).1 (sortNotebooks_mem.1 hx)
              have hnbm := hl nb (List.mem_cons_self nb rest)
              have hstep : rank nb.id < rank x.id := by
                have := hrank x hxc.1 (by rw [hxc.2]; exact hne nb hnbm)
                rwa [hxc.2] at this
              have := hfuel nb (List.mem_cons_self nb rest)
              omega
          obtain ⟨childVs, hc⟩ := hchild
          exact ⟨(ind, nb) :: (childVs ++ restVs),
            renderVisits_cons_build hrest (Or.inr ⟨c, f, hG, rfl, hc⟩)⟩

theorem visits_nodup {ns : List Folder} {rank : String → Nat}
    (hnd : (folderIds ns).Nodup)
    (hrank : ∀ nb ∈ ns, nb.parent_id ≠ "" → rank nb.parent_id < rank nb.id)
    (hne : ∀ nb ∈ ns, nb.id ≠ "")
    (hclosed : ∀ nb ∈ ns, nb.parent_id = "" ∨ nb.parent_id ∈ folderIds ns) :
    ∀ fuel ind l vs pk, renderVisits (notebooksByParentId ns) fuel ind l = .ok vs →
      l.Nodup → (∀ x ∈ l, x ∈ ns) → (∀ x ∈ l, x.parent_id = pk) →
      (vs.map Prod.snd).Nodup := by
  intro fuel
  induction fuel using Nat.strong_induction_on with
  | _ fuel ihf =>
    intro ind l
    induction l with
    | nil =>
      intro vs pk h _ _ _
      rw [renderVisits_nil] at h
      cases h
      simp
    | cons nb rest ihl =>
      intro vs pk h hlnd hl hpk
      obtain ⟨childVs, restVs, hvs, hrest, hchild⟩ := renderVisits_cons_ok h
      subst hvs
      have hnbm : nb ∈ ns := hl nb (List.mem_cons_self nb rest)
      have hbelow_rest : ∀ p ∈ restVs, ∃ x ∈ rest, p.2 = x ∨ StrictBelow ns p.2 x :=
        visits_below hnd fuel ind rest restVs hrest
      have hbelow_child : ∀ p ∈ childVs, StrictBelow ns p.2 nb := by
        rcases hchild with ⟨_, hcv⟩ | ⟨c, f, hG, hf, hcv⟩
        · rw [hcv]
          intro p hp
          exact absurd hp (by simp)
        · exact child_visits_below hnd hG hcv
      have hrest_nodup : (restVs.map Prod.snd).Nodup :=
        ihl restVs pk hrest (List.Nodup.of_cons hlnd)
          (fun x hx => hl x (List.mem_cons_of_mem nb hx))
          (fun x hx => hpk x (List.mem_cons_of_mem nb hx))
      have hchild_nodup : (childVs.map Prod.snd).Nodup := by
        rcases hchild with ⟨_, hcv⟩ | ⟨c, f, hG, hf, hcv⟩
        · rw [hcv]; simp
        · subst hf
          refine ihf f (by omega) (ind + 2) (sortNotebooks c) childVs nb.id hcv ?_ ?_ ?_
          · exact sortNotebooks_nodup (((groups_eq hG).1 ▸
              (List.Nodup.of_map _ hnd).filter _))
          · intro x hx
            exact ((mem_groups hG).1 (sortNotebooks_mem.1 hx)).1
          · intro x hx
            exact ((mem_groups hG).1 (sortNotebooks_mem.1 hx)).2
      have hnb_child : nb ∉ childVs.map Prod.snd := by
        intro hmem
        obtain ⟨p, hp, hpe⟩ := List.mem_map.1 hmem
        have := hbelow_child p hp
        rw [hpe] at this
        exact below_irrefl hrank hne hclosed hnbm this
      have hnb_rest : nb ∉ restVs.map Prod.snd := by
        intro hmem
        obtain ⟨p, hp, hpe⟩ := List.mem_map.1 hmem
        obtain ⟨x, hx, hpx⟩ := hbelow_rest p hp
        rcases hpx with hpx | hpx
        · rw [hpe] at hpx
          rw [hpx] at hlnd
          exact (List.nodup_cons.1 hlnd).1 hx
        · rw [hpe] at hpx
          have hxm : x ∈ ns := hl x (List.mem_cons_of_mem nb hx)
          have hsib : nb.parent_id = x.parent_id := by
            rw [hpk nb (List.mem_cons_self nb rest), hpk x (List.mem_cons_of_mem nb hx)]
          exact sibling_not_below hnd hrank hne hclosed hnbm hxm hsib hpx
      have hdisj : ∀ a ∈ childVs.map Prod.snd, a ∉ restVs.map Prod.snd := by
        intro a hac har
        obtain ⟨p, hp, hpe⟩ := List.mem_map.1 hac
        obtain ⟨q, hq, hqe⟩ := List.mem_map.1 har
        have hbn : StrictBelow ns a nb := hpe ▸ hbelow_child p hp
        obtain ⟨x, hx, hqx⟩ := hbelow_rest q hq
        have hxm : x ∈ ns := hl x (List.mem_cons_of_mem nb hx)
        have hsib : x.parent_id = nb.parent_id := by
          rw [hpk nb (List.mem_cons_self nb rest), hpk x (List.mem_cons_of_mem nb hx)]
        rcases hqx with hqx | hqx
        · rw [hqe] at hqx
          rw [hqx] at hbn
          exact sibling_not_below hnd hrank hne hclosed hxm hnbm hsib hbn
        · rw [hqe] at hqx
          have hxnb : x ≠ nb := by
            intro he
            rw [he] at hx
            exact (List.nodup_cons.1 hlnd).1 hx
          exact two_siblings_below hnd hrank hne hclosed hxm hnbm hsib hxnb hqx hbn
      simp only [List.map_cons, List.map_append]
      rw [List.nodup_cons]
      constructor
      · intro hmem
        rcases List.mem_append.1 hmem with hmem | hmem
        · exact hnb_child hmem
        · exact hnb_rest hmem
      · rw [List.nodup_append]
        exact ⟨hchild_nodup, hrest_nodup, hdisj⟩

end ListNotebooks

namespace ListNotebooks

theorem renderItems_zero (G : String → Option (List Folder)) :
    renderItems G 0 = renderStep G
      (fun _ _ => .error { message := "Maximum call stack size exceeded" }) := rfl

theorem renderItems_succ (G : String → Option (List Folder)) (f : Nat) :
    renderItems G (f + 1) = renderStep G (renderItems G f) := rfl

theorem renderItems_nil (G : String → Option (List Folder)) (fuel ind : Nat) :
    renderItems G fuel ind [] = .ok [] := by
  cases fuel <;> rfl

theorem renderStep_cons_eq (G : String → Option (List Folder))
    (child : Nat → List Folder → Except JsError (List String))
    (ind : Nat) (nb : Folder) (rest : List Folder) :
    renderStep G child ind (nb :: rest) =
      match (match G nb.id with
             | none => Except.ok []
             | some c => child (ind + 2) (sortNotebooks c)) with
      | .error e => .error e
      | .ok childLines =>
        match renderStep G child ind rest with
        | .error e => .error e
        | .ok restLines => .ok (notebookLine ind nb :: (childLines ++ restLines)) := rfl

theorem renderItems_eq_visits (G : String → Option (List Folder)) :
    ∀ fuel ind l, renderItems G fuel ind l =
      (renderVisits G fuel ind l).map
        (fun vs => vs.map (fun p => notebookLine p.1 p.2)) := by
  intro fuel
  induction fuel using Nat.strong_induction_on with
  | _ fuel ihf =>
    intro ind l
    induction l with
    | nil =>
      rw [renderItems_nil, renderVisits_nil]
      rfl
    | cons nb rest ihl =>
      cases fuel with
      | zero =>
        rw [renderItems_zero, renderStep_cons_eq, ← renderItems_zero]
        rw [renderVisits_zero, visitStep_cons_eq, ← renderVisits_zero]
        cases hG : G nb.id with
        | none =>
          dsimp only
          rw [ihl]
          cases hr : renderVisits G 0 ind rest with
          | error e => rfl
          | ok restVs => simp [Except.map]
        | some c => rfl
      | succ f =>
        rw [renderItems_succ, renderStep_cons_eq, ← renderItems_succ]
        rw [renderVisits_succ, visitStep_cons_eq, ← renderVisits_succ]
        cases hG : G nb.id with
        | none =>
          dsimp only
          rw [ihl]
          cases hr : renderVisits G (f + 1) ind rest with
          | error e => rfl
          | ok restVs => simp [Except.map]
        | some c =>
          dsimp only
          rw [ihf f (by omega) (ind + 2) (sortNotebooks c), ihl]
          cases hc : renderVisits G f (ind + 2) (sortNotebooks c) with
          | error e => rfl
          | ok childVs =>
            cases hr : renderVisits G (f + 1) ind rest with
            | error e => rfl
            | ok restVs => simp [Except.map]

theorem exists_rank_bound (ns : List Folder) (rank : String → Nat) :
    ∃ R, ∀ nb ∈ ns, rank nb.id ≤ R := by
  induction ns with
  | nil => exact ⟨0, by simp⟩
  | cons a l ih =>
    obtain ⟨R, hR⟩ := ih
    refine ⟨max (rank a.id) R, ?_⟩
    intro nb hnb
    rcases List.mem_cons.1 hnb with h | h
    · rw [h]; exact le_max_left _ _
    · exact le_trans (hR nb h) (le_max_right _ _)

theorem exists_min_rank {ns : List Folder} (h : ns ≠ []) (rank : String → Nat) :
    ∃ m ∈ ns, ∀ y ∈ ns, rank m.id ≤ rank y.id := by
  induction ns with
  | nil => exact absurd rfl h
  | cons a l ih =>
    by_cases hl : l = []
    · subst hl
      exact ⟨a, by simp, by simp⟩
    · obtain ⟨m, hm, hmin⟩ := ih hl
      by_cases hc : rank a.id ≤ rank m.id
      · refine ⟨a, List.mem_cons_self a l, ?_⟩
        intro y hy
        rcases List.mem_cons.1 hy with h | h
        · rw [h]
        · exact le_trans hc (hmin y h)
      · refine ⟨m, List.mem_cons_of_mem a hm, ?_⟩
        intro y hy
        rcases List.mem_cons.1 hy with h | h
        · rw [h]; omega
        · exact hmin y h

theorem root_group_exists {ns : List Folder} {rank : String → Nat}
    (hrank : ∀ nb ∈ ns, nb.parent_id ≠ "" → rank nb.parent_id < rank nb.id)
    (hclosed : ∀ nb ∈ ns, nb.parent_id = "" ∨ nb.parent_id ∈ folderIds ns)
    (hne' : ns ≠ []) :
    ∃ roots, notebooksByParentId ns "" = some roots := by
  obtain ⟨m, hm, hmin⟩ := exists_min_rank hne' rank
  have hmp : m.parent_id = "" := by
    by_contra hp
    have hpm : m.parent_id ∈ folderIds ns := (hclosed m hm).resolve_left hp
    obtain ⟨f, _, hfm, hfid⟩ := lookupFolder_of_mem_ids hpm
    have h1 : rank m.parent_id < rank m.id := hrank m hm hp
    have h2 := hmin f hfm
    rw [hfid] at h2
    omega
  obtain ⟨g, hg, _⟩ := groups_of_mem hm
  rw [hmp] at hg
  exact ⟨g, hg⟩

end ListNotebooks

namespace ListNotebooks

theorem all_mem_visits {ns : List Folder} {rank : String → Nat}
    (hrank : ∀ nb ∈ ns, nb.parent_id ≠ "" → rank nb.parent_id < rank nb.id)
    (hclosed : ∀ nb ∈ ns, nb.parent_id = "" ∨ nb.parent_id ∈ folderIds ns)
    {fuel : Nat} {roots : List Folder} {vs : List (Nat × Folder)}
    (hroots : notebooksByParentId ns "" = some roots)
    (hrv : renderVisits (notebooksByParentId ns) fuel 0 (sortNotebooks roots) = .ok vs) :
    ∀ nb ∈ ns, ∃ i, (i, nb) ∈ vs := by
  suffices h : ∀ n nb, nb ∈ ns → rank nb.id < n → ∃ i, (i, nb) ∈ vs by
    exact fun nb hnb => h (rank nb.id + 1) nb hnb (by omega)
  intro n
  induction n with
  | zero =>
    intro nb _ hlt
    omega
  | succ n ih =>
    intro nb hnb hlt
    by_cases hp : nb.parent_id = ""
    · have hnbr : nb ∈ roots := by
        rw [(mem_groups hroots)]
        exact ⟨hnb, hp⟩
      exact mem_visits_of_mem_list fuel 0 (sortNotebooks roots) vs hrv nb
        (sortNotebooks_mem.2 hnbr)
    · have hpm : nb.parent_id ∈ folderIds ns := (hclosed nb hnb).resolve_left hp
      obtain ⟨fp, _, hfpm, hfpid⟩ := lookupFolder_of_mem_ids hpm
      have hrankfp : rank fp.id < rank nb.id := by
        rw [hfpid]
        exact hrank nb hnb hp
      obtain ⟨i', hi'⟩ := ih fp hfpm (by omega)
      obtain ⟨g, hg, hnbg⟩ := groups_of_mem hnb
      rw [← hfpid] at hg
      exact visits_closed fuel 0 (sortNotebooks roots) vs hrv (i', fp) hi' g hg nb hnbg

theorem visits_perm {ns : List Folder} {rank : String → Nat}
    (hnd : (folderIds ns).Nodup)
    (hrank : ∀ nb ∈ ns, nb.parent_id ≠ "" → rank nb.parent_id < rank nb.id)
    (hne : ∀ nb ∈ ns, nb.id ≠ "")
    (hclosed : ∀ nb ∈ ns, nb.parent_id = "" ∨ nb.parent_id ∈ folderIds ns)
    {fuel : Nat} {roots : List Folder} {vs : List (Nat × Folder)}
    (hroots : notebooksByParentId ns "" = some roots)
    (hrv : renderVisits (notebooksByParentId ns) fuel 0 (sortNotebooks roots) = .ok vs) :
    (vs.map Prod.snd).Perm ns := by
  have hns_nodup : ns.Nodup := List.Nodup.of_map _ hnd
  have hroots_sub : ∀ x ∈ sortNotebooks roots, x ∈ ns := by
    intro x hx
    exact ((mem_groups hroots).1 (sortNotebooks_mem.1 hx)).1
  have hmap_nodup : (vs.map Prod.snd).Nodup := by
    refine visits_nodup hnd hrank hne hclosed fuel 0 (sortNotebooks roots) vs "" hrv ?_
      hroots_sub ?_
    · exact sortNotebooks_nodup (((groups_eq hroots).1 ▸ hns_nodup.filter _))
    · intro x hx
      exact ((mem_groups hroots).1 (sortNotebooks_mem.1 hx)).2
  refine List.perm_of_nodup_nodup_toFinset_eq hmap_nodup hns_nodup ?_
  ext a
  simp only [List.mem_toFinset, List.mem_map]
  constructor
  · rintro ⟨p, hp, hpe⟩
    rw [← hpe]
    exact visits_mem fuel 0 (sortNotebooks roots) vs hroots_sub hrv p hp
  · intro ha
    obtain ⟨i, hi⟩ := all_mem_visits hrank hclosed hroots hrv a ha
    exact ⟨(i, a), hi, rfl⟩

end ListNotebooks

/-- **C3** (corrected). Partition: every folder lies in exactly one sibling
group of the parent-to-children mapping, the one keyed by its parent
reference, with its multiplicity preserved — this holds for every
sequence. Visit-exactly-once: for well-formed sequences (distinct nonempty
identifiers, every non-root parent reference resolving within the
sequence, no cycles) a root group exists whenever the sequence is
nonempty, and with enough stack the rendering from the root group
completes, its visit list is a permutation of the sequence — every folder
visited exactly once — and the rendered lines are exactly the visited
folders' lines. As stated over all acyclic sequences the claim is false:
see the counterexample. -/
theorem claim_C3_tree_partition_and_render (notebooks : List Folder) :
    ((∀ k g nb, ListNotebooks.notebooksByParentId notebooks k = some g →
        (nb ∈ g ↔ nb ∈ notebooks ∧ nb.parent_id = k)) ∧
     (∀ nb ∈ notebooks, ∃ g,
        ListNotebooks.notebooksByParentId notebooks nb.parent_id = some g ∧
        nb ∈ g ∧ g.count nb = notebooks.count nb)) ∧
    (ListNotebooks.WellFormedForest notebooks →
      (notebooks ≠ [] →
        ∃ roots, ListNotebooks.notebooksByParentId notebooks "" = some roots) ∧
      (∀ roots, ListNotebooks.notebooksByParentId notebooks "" = some roots →
        ∃ N, ∀ fuel, N ≤ fuel → ∃ vs,
          ListNotebooks.renderVisits (ListNotebooks.notebooksByParentId notebooks) fuel 0
              (ListNotebooks.sortNotebooks roots) = .ok vs ∧
          (vs.map Prod.snd).Perm notebooks ∧
          ListNotebooks.notebooksLines (ListNotebooks.notebooksByParentId notebooks)
              (fuel + 1) 0 (some roots) =
            .ok (vs.map (fun p => ListNotebooks.notebookLine p.1 p.2)))) := by
  constructor
  · constructor
    · intro k g nb h
      exact ListNotebooks.mem_groups h
    · intro nb hnb
      obtain ⟨g, hg, hmem⟩ := ListNotebooks.groups_of_mem hnb
      refine ⟨g, hg, hmem, ?_⟩
      rw [(ListNotebooks.groups_eq hg).1]
      exact List.count_filter (by simp)
  · rintro ⟨hnd, hne, hclosed, rank, hrank⟩
    constructor
    · exact ListNotebooks.root_group_exists hrank hclosed
    · intro roots hroots
      obtain ⟨R, hR⟩ := ListNotebooks.exists_rank_bound notebooks rank
      refine ⟨R + 1, ?_⟩
      intro fuel hfuel
      have hsub : ∀ x ∈ ListNotebooks.sortNotebooks roots, x ∈ notebooks := by
        intro x hx
        exact ((ListNotebooks.mem_groups hroots).1
          (ListNotebooks.sortNotebooks_mem.1 hx)).1
      obtain ⟨vs, hvs⟩ := ListNotebooks.visits_ok hrank hne hR fuel 0
        (ListNotebooks.sortNotebooks roots) hsub
        (fun x hx => by have := hR x (hsub x hx); omega)
      refine ⟨vs, hvs, ListNotebooks.visits_perm hnd hrank hne hclosed hroots hvs, ?_⟩
      show ListNotebooks.renderItems (ListNotebooks.notebooksByParentId notebooks) fuel 0
          (ListNotebooks.sortNotebooks roots) = _
      rw [ListNotebooks.renderItems_eq_visits, hvs]
      rfl

/-- **C3** witness: the two-folder chain A <- B is well-formed; its root
group exists and rendering visits both folders exactly once. -/
theorem claim_C3_witness :
    ListNotebooks.WellFormedForest [folderA, folderB] ∧
    (∃ roots, ListNotebooks.notebooksByParentId [folderA, folderB] "" = some roots ∧
      ∃ N, ∀ fuel, N ≤ fuel → ∃ vs,
        ListNotebooks.renderVisits (ListNotebooks.notebooksByParentId [folderA, folderB])
            fuel 0 (ListNotebooks.sortNotebooks roots) = .ok vs ∧
        (vs.map Prod.snd).Perm [folderA, folderB]) := by
  have hWF : ListNotebooks.WellFormedForest [folderA, folderB] :=
    ⟨by decide, by decide, by decide,
     fun s => if s = folderB.id then 1 else 0, by decide⟩
  refine ⟨hWF, ?_⟩
  have h := (claim_C3_tree_partition_and_render [folderA, folderB]).2 hWF
  obtain ⟨roots, hroots⟩ := h.1 (by simp)
  obtain ⟨N, hN⟩ := h.2 roots hroots
  refine ⟨roots, hroots, N, ?_⟩
  intro fuel hf
  obtain ⟨vs, h1, h2, _⟩ := hN fuel hf
  exact ⟨vs, h1, h2⟩

/-- **C3** counterexample to the claim as stated over all acyclic
sequences. (1) A dangling parent reference: the sequence is acyclic,
rendering completes, yet the dangling folder is never visited. (2) A
duplicated identifier (with closed references and nonempty identifiers):
rendering completes but visits one folder twice. (3) An empty identifier
(with distinct identifiers and closed references): the root key is the
empty string, the empty-identifier folder's child lookup is the root group
again, and rendering completes at no stack depth. Each part forces one
hypothesis of the amended claim. -/
theorem claim_C3_counterexample :
    (ListNotebooks.AcyclicFolders [rootR, danglingX] ∧
     ListNotebooks.notebooksByParentId [rootR, danglingX] "" = some [rootR] ∧
     ListNotebooks.renderVisits (ListNotebooks.notebooksByParentId [rootR, danglingX]) 5 0
         (ListNotebooks.sortNotebooks [rootR]) = .ok [(0, rootR)] ∧
     danglingX ∈ [rootR, danglingX] ∧
     ([((0 : Nat), rootR)].map Prod.snd).count danglingX = 0) ∧
    (ListNotebooks.AcyclicFolders [dupA1, dupA2, dupChild] ∧
     (∀ nb ∈ [dupA1, dupA2, dupChild], nb.id ≠ "") ∧
     (∀ nb ∈ [dupA1, dupA2, dupChild], nb.parent_id = "" ∨
        nb.parent_id ∈ ListNotebooks.folderIds [dupA1, dupA2, dupChild]) ∧
     ListNotebooks.notebooksByParentId [dupA1, dupA2, dupChild] "" = some [dupA1, dupA2] ∧
     ListNotebooks.renderVisits (ListNotebooks.notebooksByParentId [dupA1, dupA2, dupChild])
         5 0 (ListNotebooks.sortNotebooks [dupA1, dupA2]) =
       .ok [(0, dupA1), (2, dupChild), (0, dupA2), (2, dupChild)] ∧
     ([((0 : Nat), dupA1), (2, dupChild), (0, dupA2), (2, dupChild)].map
        Prod.snd).count dupChild = 2) ∧
    (ListNotebooks.AcyclicFolders [emptyIdFolder] ∧
     (ListNotebooks.folderIds [emptyIdFolder]).Nodup ∧
     (∀ nb ∈ [emptyIdFolder], nb.parent_id = "" ∨
        nb.parent_id ∈ ListNotebooks.folderIds [emptyIdFolder]) ∧
     ListNotebooks.notebooksByParentId [emptyIdFolder] "" = some [emptyIdFolder] ∧
     (∀ fuel, ListNotebooks.renderVisits (ListNotebooks.notebooksByParentId [emptyIdFolder])
         fuel 0 (ListNotebooks.sortNotebooks [emptyIdFolder]) =
       .error { message := "Maximum call stack size exceeded" })) := by
  refine ⟨⟨⟨fun s => if s = danglingX.id then 1 else 0, by decide⟩, by decide, by rfl,
    by decide, by decide⟩,
    ⟨⟨fun s => if s = dupChild.id then 1 else 0, by decide⟩, by decide, by decide,
    by decide, by rfl, by decide⟩,
    ⟨⟨fun _ => 0, by decide⟩, by decide, by decide, by decide, ?_⟩⟩
  have key : ∀ fuel ind,
      ListNotebooks.renderVisits (ListNotebooks.notebooksByParentId [emptyIdFolder])
        fuel ind [emptyIdFolder] =
      .error { message := "Maximum call stack size exceeded" } := by
    intro fuel
    induction fuel with
    | zero => intro ind; rfl
    | succ f ih =>
      intro ind
      rw [ListNotebooks.renderVisits_succ, ListNotebooks.visitStep_cons_eq]
      rw [show ListNotebooks.notebooksByParentId [emptyIdFolder] emptyIdFolder.id =
        some [emptyIdFolder] from rfl]
      dsimp only
      rw [show ListNotebooks.sortNotebooks [emptyIdFolder] = [emptyIdFolder] from rfl]
      rw [ih (ind + 2)]
  intro fuel
  rw [show ListNotebooks.sortNotebooks [emptyIdFolder] = [emptyIdFolder] from rfl]
  exact key fuel 0

theorem jsTotal_pure {α : Type} (a : α) : jsTotal (pure a : JsM α) :=
  fun s => ⟨a, s, rfl⟩

theorem noDiverge_of_total {α : Type} {m : JsM α} (h : jsTotal m) : noDiverge m := by
  intro s
  obtain ⟨a, s', hm⟩ := h s
  rw [hm]
  trivial

theorem noDiverge_pure {α : Type} (a : α) : noDiverge (pure a : JsM α) :=
  noDiverge_of_total (jsTotal_pure a)

theorem noDiverge_run {α : Type} {m : JsM α} (h : noDiverge m) (s : Trace) :
    (∃ a s', m s = .ok a s') ∨ (∃ e s', m s = .error (.js e) s') := by
  have hs := h s
  cases hm : m s with
  | ok a s' => exact Or.inl ⟨a, s', rfl⟩
  | error e s' =>
    cases e with
    | js e => exact Or.inr ⟨e, s', rfl⟩
    | modelDiverged =>
      rw [hm] at hs
      exact hs.elim

theorem noDiverge_api {α : Type} (r : Req) (resp : Except JsError α) :
    noDiverge (api r resp) := by
  intro s
  unfold api
  cases resp <;> trivial

theorem noDiverge_jsThrowErr {α : Type} (e : JsError) :
    noDiverge (jsThrowErr e : JsM α) := fun _ => trivial

theorem noDiverge_jsThrow {α : Type} (msg : String) :
    noDiverge (jsThrow msg : JsM α) := fun _ => trivial

theorem jsTotal_bind {α β : Type} {m : JsM α} {f : α → JsM β}
    (hm : jsTotal m) (hf : ∀ a, jsTotal (f a)) : jsTotal (m >>= f) := by
  intro s
  obtain ⟨a, s1, hm1⟩ := hm s
  obtain ⟨c, s2, hf1⟩ := hf a s1
  exact ⟨c, s2, by rw [run_bind_ok hm1]; exact hf1⟩

theorem noDiverge_bind {α β : Type} {m : JsM α} {f : α → JsM β}
    (hm : noDiverge m) (hf : ∀ a, noDiverge (f a)) : noDiverge (m >>= f) := by
  intro s
  rcases noDiverge_run hm s with ⟨a, s1, hm1⟩ | ⟨e, s1, hm1⟩
  · rw [run_bind_ok hm1]
    exact hf a s1
  · rw [run_bind_error hm1]
    trivial

theorem jsTotal_jsTry {α : Type} {body : JsM α} {handler : JsError → JsM α}
    (hb : noDiverge body) (hh : ∀ e, jsTotal (handler e)) :
    jsTotal (jsTry body handler) := by
  intro s
  rcases noDiverge_run hb s with ⟨a, s', hm⟩ | ⟨e, s', hm⟩
  · exact ⟨a, s', by unfold jsTry; rw [hm]⟩
  · obtain ⟨a, s2, hh'⟩ := hh e s'
    exact ⟨a, s2, by unfold jsTry; rw [hm]; exact hh'⟩

theorem jsTry_ok_or_diverged {α : Type} (body : JsM α) {handler : JsError → JsM α}
    (hh : ∀ e, jsTotal (handler e)) : ∀ s,
    (∃ a s', jsTry body handler s = .ok a s') ∨
    (∃ s', jsTry body handler s = .error .modelDiverged s') := by
  intro s
  cases hm : body s with
  | ok a s' => exact Or.inl ⟨a, s', by unfold jsTry; rw [hm]⟩
  | error e s' =>
    cases e with
    | js e =>
      obtain ⟨a, s2, hh'⟩ := hh e s'
      exact Or.inl ⟨a, s2, by unfold jsTry; rw [hm]; exact hh'⟩
    | modelDiverged =>
      exact Or.inr ⟨s', by unfold jsTry; rw [hm]⟩

theorem noDiverge_ite {α : Type} (c : Prop) [Decidable c] {m1 m2 : JsM α}
    (h1 : noDiverge m1) (h2 : noDiverge m2) : noDiverge (if c then m1 else m2) := by
  by_cases h : c
  · rwa [if_pos h]
  · rwa [if_neg h]

theorem jsTotal_ite {α : Type} (c : Prop) [Decidable c] {m1 m2 : JsM α}
    (h1 : jsTotal m1) (h2 : jsTotal m2) : jsTotal (if c then m1 else m2) := by
  by_cases h : c
  · rwa [if_pos h]
  · rwa [if_neg h]

theorem noDiverge_validateNoteId (id : JStr) : noDiverge (validateNoteId id) := by
  unfold validateNoteId
  cases id with
  | undef => exact noDiverge_jsThrow _
  | null => exact noDiverge_jsThrow _
  | str s => exact noDiverge_ite _ (noDiverge_pure _) (noDiverge_jsThrow _)

theorem noDiverge_validateFolderId (id : JStr) : noDiverge (validateFolderId id) := by
  unfold validateFolderId
  cases id with
  | undef => exact noDiverge_jsThrow _
  | null => exact noDiverge_jsThrow _
  | str s => exact noDiverge_ite _ (noDiverge_pure _) (noDiverge_jsThrow _)

theorem noDiverge_validateTitle (t : JStr) : noDiverge (validateTitle t) := by
  unfold validateTitle
  cases t with
  | undef => exact noDiverge_jsThrow _
  | null => exact noDiverge_jsThrow _
  | str s =>
    exact noDiverge_ite _ (noDiverge_jsThrow _)
      (noDiverge_ite _ (noDiverge_jsThrow _) (noDiverge_pure _))

theorem noDiverge_validateOptionalId (id : JStr) (idType : String) :
    noDiverge (validateOptionalId id idType) := by
  unfold validateOptionalId
  cases id with
  | undef => exact noDiverge_pure _
  | null => exact noDiverge_pure _
  | str s => exact noDiverge_ite _ (noDiverge_jsThrow _) (noDiverge_pure _)

theorem noDiverge_validateOptionalTitle (t : JStr) : noDiverge (validateOptionalTitle t) := by
  unfold validateOptionalTitle
  cases t with
  | undef => exact noDiverge_pure _
  | null => exact noDiverge_pure _
  | str s => exact noDiverge_ite _ (noDiverge_jsThrow _) (noDiverge_pure _)

theorem noDiverge_validateOptionalBody (b : JStr) : noDiverge (validateOptionalBody b) :=
  noDiverge_pure _

theorem noDiverge_validateOptionalBoolean (v : JBool) (f : String) :
    noDiverge (validateOptionalBoolean v f) :=
  noDiverge_pure _

theorem noDiverge_validateOptionalTimestamp (t : JNum) (f : String) :
    noDiverge (validateOptionalTimestamp t f) := by
  unfold validateOptionalTimestamp
  cases t with
  | undef => exact noDiverge_pure _
  | null => exact noDiverge_pure _
  | num n => exact noDiverge_ite _ (noDiverge_jsThrow _) (noDiverge_pure _)

theorem noDiverge_validatePaginationParams (page limit : JNum) :
    noDiverge (validatePaginationParams page limit) := by
  have hlimit : noDiverge ((match limit with
      | JNum.num n =>
        if n < 1 ∨ n > 100 then jsThrow "Limit must be a number between 1 and 100."
        else pure ()
      | _ => pure ()) : JsM Unit) := by
    cases limit with
    | undef => exact noDiverge_pure _
    | null => exact noDiverge_pure _
    | num n => exact noDiverge_ite _ (noDiverge_jsThrow _) (noDiverge_pure _)
  unfold validatePaginationParams
  dsimp only
  cases page with
  | undef => exact noDiverge_bind (noDiverge_pure _) (fun _ => hlimit)
  | null => exact noDiverge_bind (noDiverge_pure _) (fun _ => hlimit)
  | num n =>
    refine noDiverge_ite _ ?_ ?_
    · exact noDiverge_bind (noDiverge_jsThrow _) (fun _ => hlimit)
    · exact noDiverge_bind (noDiverge_pure _) (fun _ => hlimit)

theorem noDiverge_validateOrderParams (orderBy orderDir : JStr) :
    noDiverge (validateOrderParams orderBy orderDir) := by
  have hdir : noDiverge ((match orderDir with
      | JStr.str s =>
        if s ≠ "" ∧ ¬ ["ASC", "DESC"].contains s.toUpper then
          jsThrow "Order direction must be ASC or DESC"
        else pure ()
      | _ => pure ()) : JsM Unit) := by
    cases orderDir with
    | undef => exact noDiverge_pure _
    | null => exact noDiverge_pure _
    | str s => exact noDiverge_ite _ (noDiverge_jsThrow _) (noDiverge_pure _)
  unfold validateOrderParams
  dsimp only
  cases orderBy with
  | undef => exact noDiverge_bind (noDiverge_pure _) (fun _ => hdir)
  | null => exact noDiverge_bind (noDiverge_pure _) (fun _ => hdir)
  | str s =>
    refine noDiverge_ite _ ?_ ?_
    · exact noDiverge_bind (noDiverge_jsThrow _) (fun _ => hdir)
    · exact noDiverge_bind (noDiverge_pure _) (fun _ => hdir)

theorem noDiverge_atLeastOneFolder (title parentId : JStr) :
    noDiverge (validateAtLeastOneUpdateFieldFolder title parentId) := by
  unfold validateAtLeastOneUpdateFieldFolder
  exact noDiverge_ite _ (noDiverge_pure _) (noDiverge_jsThrow _)

theorem noDiverge_atLeastOneNote (title body parentId : JStr)
    (isTodo todoCompleted : JBool) (todoDue : JNum) :
    noDiverge (validateAtLeastOneUpdateFieldNote title body parentId isTodo
      todoCompleted todoDue) := by
  unfold validateAtLeastOneUpdateFieldNote
  exact noDiverge_ite _ (noDiverge_pure _) (noDiverge_jsThrow _)

theorem listNotebooks_total (b : Backend) (fuel : Nat) :
    jsTotal (ListNotebooks.call b fuel) := by
  unfold ListNotebooks.call
  refine jsTotal_jsTry ?_ (fun e => jsTotal_pure _)
  refine noDiverge_bind (noDiverge_api _ _) (fun notebooks => ?_)
  cases hnl : ListNotebooks.notebooksLines (ListNotebooks.notebooksByParentId notebooks)
      fuel 0 (ListNotebooks.notebooksByParentId notebooks "") with
  | error e => exact noDiverge_jsThrowErr e
  | ok lines => exact noDiverge_pure _

theorem readNotebook_total (b : Backend) (notebookId : JStr) :
    jsTotal (ReadNotebook.call b notebookId) := by
  unfold ReadNotebook.call
  refine jsTotal_ite _ (jsTotal_pure _) (jsTotal_ite _ (jsTotal_pure _) ?_)
  refine jsTotal_jsTry ?_ (fun e => jsTotal_pure _)
  unfold ReadNotebook.callBody
  refine noDiverge_bind (noDiverge_api _ _) (fun notebook => ?_)
  cases notebook with
  | none => exact noDiverge_pure _
  | some nb =>
    dsimp only
    refine noDiverge_ite _ (noDiverge_pure _) ?_
    refine noDiverge_bind (noDiverge_api _ _) (fun notes => ?_)
    cases notes with
    | none => exact noDiverge_pure _
    | some resp =>
      dsimp only
      cases resp.items with
      | none => exact noDiverge_pure _
      | some items =>
        dsimp only
        exact noDiverge_ite _ (noDiverge_pure _) (noDiverge_pure _)

theorem readNote_total (b : Backend) (noteId : JStr) :
    jsTotal (ReadNote.call b noteId) := by
  unfold ReadNote.call
  refine jsTotal_ite _ (jsTotal_pure _) (jsTotal_ite _ (jsTotal_pure _) ?_)
  refine jsTotal_jsTry ?_ (fun e => jsTotal_pure _)
  unfold ReadNote.callBody
  refine noDiverge_bind (noDiverge_api _ _) (fun note => ?_)
  cases note with
  | none => exact noDiverge_pure _
  | some n =>
    dsimp only
    refine noDiverge_ite _ (noDiverge_pure _) ?_
    refine noDiverge_bind ?_ (fun info => noDiverge_pure _)
    unfold ReadNote.notebookInfoLookup
    refine noDiverge_ite _ ?_ (noDiverge_pure _)
    refine noDiverge_of_total (jsTotal_jsTry ?_ (fun e => jsTotal_pure _))
    refine noDiverge_bind (noDiverge_api _ _) (fun notebook => ?_)
    cases notebook with
    | none => exact noDiverge_pure _
    | some nb => exact noDiverge_ite _ (noDiverge_pure _) (noDiverge_pure _)

theorem getFolder_total (b : Backend) (folderId : JStr) :
    jsTotal (GetFolder.call b folderId) := by
  unfold GetFolder.call
  refine jsTotal_jsTry ?_ (fun e => jsTotal_pure _)
  unfold GetFolder.callBody
  refine noDiverge_bind (noDiverge_validateFolderId _) (fun _ => ?_)
  refine noDiverge_bind (noDiverge_api _ _) (fun folder => ?_)
  cases folder with
  | none => exact noDiverge_pure _
  | some f =>
    dsimp only
    refine noDiverge_ite _ (noDiverge_pure _) ?_
    refine noDiverge_bind ?_ (fun parentInfo => ?_)
    · unfold GetFolder.parentInfoLookup
      refine noDiverge_ite _ ?_ (noDiverge_pure _)
      refine noDiverge_of_total (jsTotal_jsTry ?_ (fun e => jsTotal_pure _))
      refine noDiverge_bind (noDiverge_api _ _) (fun pf => ?_)
      cases pf with
      | none => exact noDiverge_pure _
      | some pf =>
        dsimp only
        exact noDiverge_ite _ (noDiverge_pure _) (noDiverge_pure _)
    · refine noDiverge_bind ?_ (fun subfolders => ?_)
      · unfold GetFolder.subfoldersLookup
        refine noDiverge_of_total (jsTotal_jsTry ?_ (fun e => jsTotal_pure _))
        exact noDiverge_bind (noDiverge_api _ _) (fun all => noDiverge_pure _)
      · refine noDiverge_bind ?_ (fun ni => noDiverge_pure _)
        unfold GetFolder.notesLookup
        refine noDiverge_of_total (jsTotal_jsTry ?_ (fun e => jsTotal_pure _))
        refine noDiverge_bind (noDiverge_api _ _) (fun nr => ?_)
        cases nr with
        | none => exact noDiverge_pure _
        | some resp =>
          dsimp only
          cases resp.items with
          | none => exact noDiverge_pure _
          | some items => exact noDiverge_pure _

theorem deleteNote_total (b : Backend) (noteId : JStr) :
    jsTotal (DeleteNote.call b noteId) := by
  unfold DeleteNote.call
  refine jsTotal_jsTry ?_ (fun e => jsTotal_pure _)
  unfold DeleteNote.callBody
  refine noDiverge_bind (noDiverge_validateNoteId _) (fun _ => ?_)
  refine noDiverge_bind ?_ (fun details => ?_)
  · unfold DeleteNote.fetchDetails
    refine noDiverge_of_total (jsTotal_jsTry ?_ (fun e => jsTotal_pure _))
    refine noDiverge_bind (noDiverge_api _ _) (fun note => ?_)
    dsimp only
    cases note with
    | none => exact noDiverge_pure _
    | some n =>
      dsimp only
      refine noDiverge_ite _ ?_ (noDiverge_pure _)
      refine noDiverge_bind ?_ (fun info => noDiverge_pure _)
      refine noDiverge_of_total (jsTotal_jsTry ?_ (fun e => jsTotal_pure _))
      refine noDiverge_bind (noDiverge_api _ _) (fun notebook => ?_)
      cases notebook with
      | none => exact noDiverge_pure _
      | some nb =>
        dsimp only
        exact noDiverge_ite _ (noDiverge_pure _) (noDiverge_pure _)
  · exact noDiverge_bind (noDiverge_api _ _) (fun _ => noDiverge_pure _)

theorem countLookup_total (b : Backend) (fid : String) :
    jsTotal (DeleteFolder.countLookup b fid) := by
  unfold DeleteFolder.countLookup
  refine jsTotal_jsTry ?_ (fun e => jsTotal_pure _)
  refine noDiverge_bind (noDiverge_api _ _) (fun all => ?_)
  dsimp only
  refine noDiverge_of_total (jsTotal_jsTry ?_ (fun e => jsTotal_pure _))
  refine noDiverge_bind (noDiverge_api _ _) (fun notes => ?_)
  cases notes with
  | none => exact noDiverge_pure _
  | some resp =>
    dsimp only
    cases resp.items with
    | none => exact noDiverge_pure _
    | some items => exact noDiverge_pure _

theorem deleteFolder_total (b : Backend) (folderId : JStr) :
    jsTotal (DeleteFolder.call b folderId) := by
  unfold DeleteFolder.call
  refine jsTotal_jsTry ?_ (fun e => jsTotal_pure _)
  unfold DeleteFolder.callBody
  refine noDiverge_bind (noDiverge_validateFolderId _) (fun _ => ?_)
  refine noDiverge_bind ?_ (fun details => ?_)
  · unfold DeleteFolder.fetchDetails
    refine noDiverge_of_total (jsTotal_jsTry ?_ (fun e => jsTotal_pure _))
    refine noDiverge_bind (noDiverge_api _ _) (fun folder => ?_)
    dsimp only
    cases folder with
    | none =>
      refine noDiverge_bind (noDiverge_pure _) (fun parentInfo => ?_)
      exact noDiverge_bind (noDiverge_of_total (countLookup_total b _))
        (fun counts => noDiverge_pure _)
    | some f =>
      dsimp only
      refine noDiverge_ite _ ?_ ?_
      · refine noDiverge_bind ?_ (fun parentInfo => ?_)
        · refine noDiverge_of_total (jsTotal_jsTry ?_ (fun e => jsTotal_pure _))
          refine noDiverge_bind (noDiverge_api _ _) (fun pf => ?_)
          cases pf with
          | none => exact noDiverge_pure _
          | some pf =>
            dsimp only
            exact noDiverge_ite _ (noDiverge_pure _) (noDiverge_pure _)
        · exact noDiverge_bind (noDiverge_of_total (countLookup_total b _))
            (fun counts => noDiverge_pure _)
      · refine noDiverge_bind (noDiverge_pure _) (fun parentInfo => ?_)
        exact noDiverge_bind (noDiverge_of_total (countLookup_total b _))
          (fun counts => noDiverge_pure _)
  · exact noDiverge_bind (noDiverge_api _ _) (fun _ => noDiverge_pure _)

theorem createFolder_total (b : Backend) (title parentId : JStr) :
    jsTotal (CreateFolder.call b title parentId) := by
  unfold CreateFolder.call
  refine jsTotal_jsTry ?_ (fun e => jsTotal_pure _)
  unfold CreateFolder.callBody
  refine noDiverge_bind (noDiverge_validateTitle _) (fun _ => ?_)
  refine noDiverge_bind (noDiverge_validateOptionalId _ _) (fun _ => ?_)
  dsimp only
  refine noDiverge_bind (noDiverge_api _ _) (fun cf => ?_)
  cases cf with
  | none => exact noDiverge_pure _
  | some cf =>
    dsimp only
    refine noDiverge_ite _ (noDiverge_pure _) ?_
    refine noDiverge_bind ?_ (fun parentInfo => noDiverge_pure _)
    unfold CreateFolder.parentInfoLookup
    refine noDiverge_ite _ ?_ (noDiverge_pure _)
    refine noDiverge_of_total (jsTotal_jsTry ?_ (fun e => jsTotal_pure _))
    refine noDiverge_bind (noDiverge_api _ _) (fun pf => ?_)
    cases pf with
    | none => exact noDiverge_pure _
    | some pf =>
      dsimp only
      exact noDiverge_ite _ (noDiverge_pure _) (noDiverge_pure _)

theorem createNote_total (b : Backend) (title body parentId : JStr) (isTodo : JBool)
    (todoDue : JNum) : jsTotal (CreateNote.call b title body parentId isTodo todoDue) := by
  unfold CreateNote.call
  refine jsTotal_jsTry ?_ (fun e => jsTotal_pure _)
  unfold CreateNote.callBody
  refine noDiverge_bind (noDiverge_validateTitle _) (fun _ => ?_)
  refine noDiverge_bind (noDiverge_validateOptionalId _ _) (fun _ => ?_)
  refine noDiverge_bind (noDiverge_validateOptionalBody _) (fun _ => ?_)
  refine noDiverge_bind (noDiverge_validateOptionalBoolean _ _) (fun _ => ?_)
  refine noDiverge_bind (noDiverge_validateOptionalTimestamp _ _) (fun _ => ?_)
  dsimp only
  refine noDiverge_ite _ ?_ ?_
  · refine noDiverge_bind (noDiverge_jsThrow _) (fun _ => ?_)
    refine noDiverge_bind (noDiverge_api _ _) (fun cn => ?_)
    cases cn with
    | none => exact noDiverge_pure _
    | some cn =>
      dsimp only
      exact noDiverge_ite _ (noDiverge_pure _) (noDiverge_pure _)
  · refine noDiverge_bind (noDiverge_pure _) (fun _ => ?_)
    refine noDiverge_bind (noDiverge_api _ _) (fun cn => ?_)
    cases cn with
    | none => exact noDiverge_pure _
    | some cn =>
      dsimp only
      exact noDiverge_ite _ (noDiverge_pure _) (noDiverge_pure _)

theorem updateNote_total (b : Backend) (now : Int) (noteId title body parentId : JStr)
    (isTodo todoCompleted : JBool) (todoDue : JNum) :
    jsTotal (UpdateNote.call b now noteId title body parentId isTodo todoCompleted todoDue) := by
  unfold UpdateNote.call
  refine jsTotal_jsTry ?_ (fun e => jsTotal_pure _)
  unfold UpdateNote.callBody
  refine noDiverge_bind (noDiverge_validateNoteId _) (fun _ => ?_)
  refine noDiverge_bind (noDiverge_validateOptionalTitle _) (fun _ => ?_)
  refine noDiverge_bind (noDiverge_validateOptionalId _ _) (fun _ => ?_)
  refine noDiverge_bind (noDiverge_validateOptionalBody _) (fun _ => ?_)
  refine noDiverge_bind (noDiverge_validateOptionalBoolean _ _) (fun _ => ?_)
  refine noDiverge_bind (noDiverge_validateOptionalBoolean _ _) (fun _ => ?_)
  refine noDiverge_bind (noDiverge_validateOptionalTimestamp _ _) (fun _ => ?_)
  refine noDiverge_bind (noDiverge_atLeastOneNote _ _ _ _ _ _) (fun _ => ?_)
  dsimp only
  refine noDiverge_bind (noDiverge_api _ _) (fun un => ?_)
  cases un with
  | none => exact noDiverge_pure _
  | some un =>
    dsimp only
    exact noDiverge_ite _ (noDiverge_pure _) (noDiverge_pure _)

theorem folderCacheFetch_total (b : Backend) :
    ∀ ids, jsTotal (GetAllNotes.folderCacheFetch b ids) := by
  intro ids
  induction ids with
  | nil => exact jsTotal_pure _
  | cons id rest ih =>
    unfold GetAllNotes.folderCacheFetch
    refine jsTotal_bind (jsTotal_jsTry ?_ (fun e => jsTotal_pure _)) (fun entry => ?_)
    · refine noDiverge_bind (noDiverge_api _ _) (fun folder => ?_)
      cases folder with
      | none => exact noDiverge_pure _
      | some f =>
        dsimp only
        exact noDiverge_ite _ (noDiverge_pure _) (noDiverge_pure _)
    · exact jsTotal_bind ih (fun c => jsTotal_pure _)

theorem getAllNotes_total (b : Backend) (folderId : JStr) (page limit : JNum)
    (orderBy orderDir : JStr) :
    jsTotal (GetAllNotes.call b folderId page limit orderBy orderDir) := by
  unfold GetAllNotes.call
  refine jsTotal_jsTry ?_ (fun e => jsTotal_pure _)
  unfold GetAllNotes.callBody
  refine noDiverge_bind (noDiverge_validateOptionalId _ _) (fun _ => ?_)
  refine noDiverge_bind (noDiverge_validatePaginationParams _ _) (fun _ => ?_)
  refine noDiverge_bind (noDiverge_validateOrderParams _ _) (fun _ => ?_)
  dsimp only
  refine noDiverge_bind (noDiverge_api _ _) (fun response => ?_)
  cases response with
  | none => exact noDiverge_pure _
  | some resp =>
    dsimp only
    refine noDiverge_ite _ (noDiverge_pure _) ?_
    refine noDiverge_bind (noDiverge_of_total (folderCacheFetch_total b _))
      (fun cache => ?_)
    exact noDiverge_pure _

theorem updateFolder_ok_or_diverged (b : Backend) (fuel : Nat)
    (folderId title parentId : JStr) : ∀ s,
    (∃ out s', UpdateFolder.call b fuel folderId title parentId s = .ok out s') ∨
    (∃ s', UpdateFolder.call b fuel folderId title parentId s = .error .modelDiverged s') := by
  unfold UpdateFolder.call
  exact jsTry_ok_or_diverged _ (fun e => jsTotal_pure _)

/-- **C8**: every operation entry point — listing (ListNotebooks), reading
(ReadNotebook, ReadNote, GetAllNotes, GetFolder), creating (CreateNote,
CreateFolder), updating (UpdateNote, UpdateFolder) and deleting
(DeleteNote, DeleteFolder) — returns a text result for every input, every
backend oracle and every backend outcome, including failure responses and
thrown transport errors: each `call` wraps its body in a catch whose every
branch produces text, so no exception escapes the boundary. For
UpdateFolder the ancestry `while` loop can run forever against an oracle
that serves an endless chain of fresh parents, so its conjunct states: every
run either returns text or is the still-running loop (the divergence
marker) — never an escaped exception. -/
theorem claim_C8_every_entry_point_returns_text :
    (∀ b fuel, jsTotal (ListNotebooks.call b fuel)) ∧
    (∀ b notebookId, jsTotal (ReadNotebook.call b notebookId)) ∧
    (∀ b noteId, jsTotal (ReadNote.call b noteId)) ∧
    (∀ b folderId page limit orderBy orderDir,
      jsTotal (GetAllNotes.call b folderId page limit orderBy orderDir)) ∧
    (∀ b folderId, jsTotal (GetFolder.call b folderId)) ∧
    (∀ b title body parentId isTodo todoDue,
      jsTotal (CreateNote.call b title body parentId isTodo todoDue)) ∧
    (∀ b title parentId, jsTotal (CreateFolder.call b title parentId)) ∧
    (∀ b now noteId title body parentId isTodo todoCompleted todoDue,
      jsTotal (UpdateNote.call b now noteId title body parentId isTodo todoCompleted todoDue)) ∧
    (∀ b noteId, jsTotal (DeleteNote.call b noteId)) ∧
    (∀ b folderId, jsTotal (DeleteFolder.call b folderId)) ∧
    (∀ b fuel folderId title parentId s,
      (∃ out s', UpdateFolder.call b fuel folderId title parentId s = .ok out s') ∨
      (∃ s', UpdateFolder.call b fuel folderId title parentId s =
        .error .modelDiverged s')) :=
  ⟨listNotebooks_total, readNotebook_total, readNote_total, getAllNotes_total,
   getFolder_total, createNote_total, createFolder_total, updateNote_total,
   deleteNote_total, deleteFolder_total, updateFolder_ok_or_diverged⟩
